import Mathlib

/-!
# Edraak platform: account-management front-end

A shallow embedding of the login form controller
(`lms/static/js/student_account/views/LoginView.js`), the accounts client
(`AccountsClient.js`), the account deletion modal
(`StudentAccountDeletionModal.jsx`), the marketing email toggle
(`UnsubscribeMarketingEmail.jsx`) and its initializer, the Django JavaScript
catalogs (`djangojs.js` for az, sq, nl-nl and sr) and the MathJax loader
(`mathjax_include.js`), and of the library functions they call, followed by
the properties proved about them.

JavaScript strings are Lean strings, HTTP statuses are natural numbers, a
JavaScript value used as a condition is the proposition that it is truthy
(for a string: that it is not empty).  A handler of the view is a function
from the view's fields to the list of calls it makes on the inherited form
view, in program order; the calls are then run on a model of the page.  A
React component is its state, its handlers as functions on the state, and a
step function over the events that can happen to the mounted component; a
promise is followed up to the point where its `fetch` settles.
-/

/-! ## Text substitution shared by the library models -/

namespace Placeholder

/-- The regular-expression class `\w`: ASCII letters, digits and underscore. -/
def isWordChar (c : Char) : Bool := c.isAlphanum || c == '_'

/-- Drop the literal `lit` from the front of `s`, if `s` starts with it. -/
def dropLiteral : List Char → List Char → Option (List Char)
  | [], s => some s
  | _ :: _, [] => none
  | p :: ps, c :: cs => if p = c then dropLiteral ps cs else none

/-- Match the pattern `opn \w+ cls` at the front of `s` and return the word.
The run of word characters is taken greedily; since neither closing literal
used here starts with a word character, no shorter run can match. -/
def matchAt (opn cls s : List Char) : Option (List Char) :=
  match dropLiteral opn s with
  | none => none
  | some s1 =>
    match s1.takeWhile isWordChar with
    | [] => none
    | n :: ns =>
      match dropLiteral cls (s1.dropWhile isWordChar) with
      | none => none
      | some _ => some (n :: ns)

/-- The call `String.prototype.replace(/opn\w+cls/g, fn)`: scan left to right,
replace every non-overlapping match by `fn` of the word, copy every other
character, and never re-scan inserted text.  The first argument counts the
characters of the current match that are still to be skipped. -/
def replaceAll (opn cls : List Char) (fn : List Char → List Char) :
    Nat → List Char → List Char
  | _, [] => []
  | skip + 1, _ :: cs => replaceAll opn cls fn skip cs
  | 0, c :: cs =>
    match matchAt opn cls (c :: cs) with
    | some name =>
      fn name ++ replaceAll opn cls fn (opn.length + name.length + cls.length - 1) cs
    | none => c :: replaceAll opn cls fn 0 cs

/-- The expression `String(parameters[name])` for an object whose values are
strings: a missing key reads as `undefined`. -/
def param (parameters : List (String × String)) (name : List Char) : List Char :=
  match parameters.lookup (String.mk name) with
  | some value => value.data
  | none => "undefined".data

end Placeholder

/-! ## Library functions (edx-ui-toolkit, underscore) -/

namespace StringUtils

/-- The function `StringUtils.interpolate(formatString, parameters)` of
edx-ui-toolkit: `formatString.replace(/{\w+}/g, ...)`, each `{name}` becoming
`String(parameters[name])`. -/
def interpolate (formatString : String) (parameters : List (String × String)) : String :=
  String.mk (Placeholder.replaceAll ['{'] ['}'] (Placeholder.param parameters) 0 formatString.data)

end StringUtils

namespace Underscore

/-- One character under `_.escape`. -/
def escapeChar (c : Char) : List Char :=
  if c = '&' then "&amp;".data
  else if c = '<' then "&lt;".data
  else if c = '>' then "&gt;".data
  else if c = '"' then "&quot;".data
  else if c = '\x27' then "&#x27;".data
  else if c = '\x60' then "&#x60;".data
  else [c]

/-- The function `_.escape`: HTML-escape the six special characters. -/
def escape (s : String) : String := String.mk (s.data.flatMap escapeChar)

/-- The function `_.sprintf(format, object)` on formats whose directives are
all of the named string form `%(name)s`: each directive becomes
`String(object[name])`. -/
def sprintf (format : String) (object : List (String × String)) : String :=
  String.mk (Placeholder.replaceAll ['%', '('] [')', 's'] (Placeholder.param object) 0 format.data)

end Underscore

namespace HtmlUtils

/-- A value handed to `interpolateHtml`: wrapped in `HtmlUtils.HTML(...)`, or
plain text. -/
inductive Value where
  | HTML (html : String)
  | text (text : String)
  deriving DecidableEq, Repr

/-- The function `ensureHtml`: a snippet is kept, plain text is escaped. -/
def ensureHtml : Value → String
  | .HTML html => html
  | .text text => Underscore.escape text

/-- The function `HtmlUtils.interpolateHtml(formatString, parameters)`: the
format and every plain parameter are escaped, then interpolated. -/
def interpolateHtml (formatString : String) (parameters : List (String × Value)) : String :=
  StringUtils.interpolate (ensureHtml (.text formatString))
    (parameters.map (fun kv => (kv.1, ensureHtml kv.2)))

end HtmlUtils

/-! ## The login view -/

namespace LoginView

/-- The templates a feedback item can be rendered with. -/
inductive Template where
  | formErrorsTpl
  | formSuccessTpl
  | formStatusTpl
  deriving DecidableEq, Repr

/-- The context object handed to `renderFormFeedback`: `body` is the field
`message`, `messageHtml` or `messagesHtml`, whichever the template reads. -/
structure FeedbackContext where
  jsHook : String
  title : Option String
  body : String
  deriving DecidableEq, Repr

/-- A call made on the inherited form view (or on Backbone) by a handler. -/
inductive Effect where
  | trigger (event : String)
  | clearFormFeedbackItems (query : String)
  | clearFormErrors
  | renderErrors (title : String) (errorMessages : List String)
  | renderFormFeedback (template : Template) (context : FeedbackContext)
  | toggleDisableButton (disabled : Bool)
  | modelSave
  deriving DecidableEq, Repr

/-- The response object passed to the error handler: the fields `saveError`
reads. -/
structure XhrError where
  status : Nat
  responseText : String
  deriving DecidableEq, Repr

/-- An account activation or recovery message supplied by the page. -/
structure Message where
  tags : String
  message : String
  deriving DecidableEq, Repr

/-- The object `data.thirdPartyAuth`; an absent or null property is `none`. -/
structure ThirdPartyAuth where
  providers : Option (List String)
  secondaryProviders : Option (List String)
  currentProvider : Option String
  syncLearnerProfileData : Option Bool
  errorMessage : Option String

/-- The argument of `preRender`. -/
structure Data where
  thirdPartyAuth : ThirdPartyAuth
  platformName : String
  supportURL : String
  passwordResetSupportUrl : String
  createAccountOption : Bool
  accountActivationMessages : List Message
  accountRecoveryMessages : List Message
  hideAuthWarnings : Bool
  enterpriseName : String

/-- The fields of `this`.  `gettext` is the module's `gettext` dependency;
`formErrorsJsHook` is inherited from the form view, whose value is a
parameter here. -/
structure View where
  gettext : String → String
  formErrorsJsHook : String
  providers : List String
  hasSecondaryProviders : Bool
  currentProvider : String
  syncLearnerProfileData : Bool
  errorMessage : String
  platformName : String
  supportURL : String
  passwordResetSupportUrl : String
  createAccountOption : Bool
  accountActivationMessages : List Message
  accountRecoveryMessages : List Message
  hideAuthWarnings : Bool
  enterpriseName : String
  errors : List String

/-- The property `authWarningJsHook`. -/
def authWarningJsHook : String := "js-auth-warning"

/-- The property `passwordResetSuccessJsHook`. -/
def passwordResetSuccessJsHook : String := "js-password-reset-success"

/-- The property `defaultFormErrorsTitle`. -/
def defaultFormErrorsTitle (this : View) : String := this.gettext "We couldn't sign you in."

/-- The objects the view listens to. -/
inductive Source where
  | model
  | resetModel
  | accountRecoveryModel
  deriving DecidableEq, Repr

/-- The methods registered as callbacks by `preRender`. -/
inductive Callback where
  | saveSuccess
  | resetEmail
  deriving DecidableEq, Repr

/-- One `listenTo(source, event, callback)` registration. -/
structure Listener where
  source : Source
  event : String
  callback : Callback
  deriving DecidableEq, Repr

/-- The JavaScript expression `x || d`. -/
def orElse {α : Type} (x : Option α) (truthy : α → Bool) (d : α) : α :=
  match x with
  | some a => if truthy a then a else d
  | none => d

/-- The method `preRender`: copy the page data into the view and register the
three `sync` listeners. -/
def preRender (this : View) (data : Data) : View × List Listener :=
  ({ this with
      providers := orElse data.thirdPartyAuth.providers (fun _ => true) []
      hasSecondaryProviders :=
        match data.thirdPartyAuth.secondaryProviders with
        | some l => decide (l.length ≠ 0)
        | none => false
      currentProvider := orElse data.thirdPartyAuth.currentProvider (fun s => s != "") ""
      syncLearnerProfileData := orElse data.thirdPartyAuth.syncLearnerProfileData id false
      errorMessage := orElse data.thirdPartyAuth.errorMessage (fun s => s != "") ""
      platformName := data.platformName
      supportURL := data.supportURL
      passwordResetSupportUrl := data.passwordResetSupportUrl
      createAccountOption := data.createAccountOption
      accountActivationMessages := data.accountActivationMessages
      accountRecoveryMessages := data.accountRecoveryMessages
      hideAuthWarnings := data.hideAuthWarnings
      enterpriseName := data.enterpriseName },
   [⟨.model, "sync", .saveSuccess⟩,
    ⟨.resetModel, "sync", .resetEmail⟩,
    ⟨.accountRecoveryModel, "sync", .resetEmail⟩])

/-- The method `clearPasswordResetSuccess`. -/
def clearPasswordResetSuccess (_this : View) : List Effect :=
  let query := "." ++ passwordResetSuccessJsHook
  [.clearFormFeedbackItems query]

/-- The method `clearAuthWarning`. -/
def clearAuthWarning (_this : View) : List Effect :=
  let query := "." ++ authWarningJsHook
  [.clearFormFeedbackItems query]

/-- The local `message` of `renderAuthWarning`. -/
def authWarningMessage (this : View) : String :=
  Underscore.sprintf
    (this.gettext ("You have successfully signed into %(currentProvider)s, but your %(currentProvider)s" ++
      " account does not have a linked %(platformName)s account. To link your accounts," ++
      " sign in now using your %(platformName)s password."))
    [("currentProvider", this.currentProvider), ("platformName", this.platformName)]

/-- The method `renderAuthWarning`. -/
def renderAuthWarning (this : View) : List Effect :=
  let message := authWarningMessage this
  clearAuthWarning this ++
  [.renderFormFeedback .formStatusTpl ⟨authWarningJsHook, none, message⟩]

/-- The local `successMessageHtml` of `resetEmail`. -/
def successMessageHtml (this : View) (email : String) : String :=
  HtmlUtils.interpolateHtml
    (this.gettext ("{paragraphStart}You entered {boldStart}{email}{boldEnd}. If this email address is associated with your {platform_name} account, we will send a message with password reset instructions to this email address.{paragraphEnd}" ++
      "{paragraphStart}If you do not receive a password reset message, verify that you entered the correct email address, or check your spam folder.{paragraphEnd}" ++
      "{paragraphStart}If you need further assistance, {anchorStart}contact technical support{anchorEnd}.{paragraphEnd}"))
    [("boldStart", .HTML "<b>"),
     ("boldEnd", .HTML "</b>"),
     ("paragraphStart", .HTML "<p>"),
     ("paragraphEnd", .HTML "</p>"),
     ("email", .text email),
     ("platform_name", .text this.platformName),
     ("anchorStart", .HTML (StringUtils.interpolate "<a href=\"{passwordResetSupportUrl}\">"
        [("passwordResetSupportUrl", this.passwordResetSupportUrl)])),
     ("anchorEnd", .HTML "</a>")]

/-- The method `resetEmail`; `email` is `$('#password-reset-email').val()`. -/
def resetEmail (this : View) (email : String) : List Effect :=
  let successTitle := this.gettext "Check Your Email"
  let successMessageHtml := successMessageHtml this email
  [.clearFormErrors] ++
  clearPasswordResetSuccess this ++
  [.renderFormFeedback .formSuccessTpl ⟨passwordResetSuccessJsHook, some successTitle, successMessageHtml⟩]

/-- The method `saveSuccess`. -/
def saveSuccess (this : View) : List Effect :=
  [.trigger "auth-complete"] ++
  clearPasswordResetSuccess this

/-- The method `saveError`: the view with `errors` reassigned, and the calls
made. -/
def saveError (this : View) (error : XhrError) : View × List Effect :=
  let msg :=
    if error.status = 0 then
      this.gettext "An error has occurred. Check your Internet connection and try again."
    else if error.status = 500 then
      this.gettext "An error has occurred. Try refreshing the page, or check your Internet connection."
    else error.responseText
  let this1 := { this with errors := [StringUtils.interpolate "<li>{msg}</li>" [("msg", msg)]] }
  (this1,
    clearPasswordResetSuccess this1 ++
    (if error.status = 403 ∧ error.responseText = "third-party-auth" ∧ this1.currentProvider ≠ "" then
      if ¬ this1.hideAuthWarnings then
        [.clearFormErrors] ++ renderAuthWarning this1
      else []
    else
      [.renderErrors (defaultFormErrorsTitle this1) this1.errors]) ++
    [.toggleDisableButton false])

end LoginView

/-! ## The inherited form view, run on a model of the page -/

namespace FormView

open LoginView

/-- A rendered child of the feedback region `.js-form-feedback`. -/
structure FeedbackItem where
  template : Template
  context : FeedbackContext
  deriving DecidableEq, Repr

/-- The part of the page the form view touches: the value of the input
`#password-reset-email`, the children of the feedback region (newest first),
the `disabled` attribute of the submit button, the events triggered on the
view and the number of `model.save()` calls. -/
structure Page where
  passwordResetEmail : String
  formFeedback : List FeedbackItem
  submitDisabled : Bool
  triggered : List String
  saves : Nat
  deriving DecidableEq, Repr

/-- Modelled from the spec: the form view's `clearFormFeedbackItems(query)`,
missing from the sources; it removes from the feedback region the items the
class selector `query` selects, an item carrying the class of its `jsHook`. -/
def clearFormFeedbackItems (query : String) (page : Page) : Page :=
  { page with formFeedback := page.formFeedback.filter (fun item => "." ++ item.context.jsHook != query) }

/-- Modelled from the spec: the form view's `renderFormFeedback(template,
context)`, missing from the sources; it shows the rendered message in the
feedback region. -/
def renderFormFeedback (template : Template) (context : FeedbackContext) (page : Page) : Page :=
  { page with formFeedback := ⟨template, context⟩ :: page.formFeedback }

/-- Modelled from the spec: the form view's `clearFormErrors()`, missing from
the sources; it clears the error feedback. -/
def clearFormErrors (this : View) (page : Page) : Page :=
  clearFormFeedbackItems ("." ++ this.formErrorsJsHook) page

/-- Modelled from the spec: the form view's `renderErrors(title,
errorMessages)`, missing from the sources; the error message replaces the
one shown before. -/
def renderErrors (this : View) (title : String) (errorMessages : List String) (page : Page) : Page :=
  renderFormFeedback .formErrorsTpl ⟨this.formErrorsJsHook, some title, String.join errorMessages⟩
    (clearFormErrors this page)

/-- Modelled from the spec: the form view's `toggleDisableButton(disabled)`,
missing from the sources; it disables or enables the submit control. -/
def toggleDisableButton (disabled : Bool) (page : Page) : Page :=
  { page with submitDisabled := disabled }

/-- Run one call on the page. -/
def step (this : View) : Effect → Page → Page
  | .trigger event, page => { page with triggered := page.triggered ++ [event] }
  | .clearFormFeedbackItems query, page => clearFormFeedbackItems query page
  | .clearFormErrors, page => clearFormErrors this page
  | .renderErrors title errorMessages, page => renderErrors this title errorMessages page
  | .renderFormFeedback template context, page => renderFormFeedback template context page
  | .toggleDisableButton disabled, page => toggleDisableButton disabled page
  | .modelSave, page => { page with saves := page.saves + 1 }

/-- Run the calls of a handler on the page, in order. -/
def run (this : View) (effects : List Effect) (page : Page) : Page :=
  effects.foldl (fun p e => step this e p) page

/-- Run a registered callback: `resetEmail` reads the email input when it is
called. -/
def call (this : View) (page : Page) : Callback → List Effect
  | .saveSuccess => saveSuccess this
  | .resetEmail => resetEmail this page.passwordResetEmail

/-- The callbacks registered for `event` of `source`, in registration
order. -/
def callbacks (listeners : List Listener) (source : Source) (event : String) : List Callback :=
  (listeners.filter (fun l => l.source = source ∧ l.event = event)).map (fun l => l.callback)

/-- Backbone delivering `event` from `source`: every callback registered for
the pair is called once, in registration order, and its calls are run on the
page. -/
def deliver (this : View) (listeners : List Listener) (source : Source) (event : String)
    (page : Page) : Page :=
  (callbacks listeners source event).foldl (fun p cb => run this (call this p cb) p) page

/-- The three feedback kinds of the login form. -/
inductive Kind where
  | success
  | error
  | authWarning
  deriving DecidableEq, Repr

/-- The class that marks the items of a kind. -/
def Kind.jsHook (this : View) : Kind → String
  | .success => passwordResetSuccessJsHook
  | .error => this.formErrorsJsHook
  | .authWarning => authWarningJsHook

/-- Whether some item of the list carries the class `hook`. -/
def hasHook (items : List FeedbackItem) (hook : String) : Bool :=
  items.any (fun item => item.context.jsHook == hook)

/-- Whether an item of the kind is in the feedback region. -/
def visible (this : View) (page : Page) (kind : Kind) : Bool :=
  hasHook page.formFeedback (kind.jsHook this)

/-- The kinds with an item in the feedback region. -/
def visibleKinds (this : View) (page : Page) : List Kind :=
  [Kind.success, Kind.error, Kind.authWarning].filter (visible this page)

end FormView

/-! ## Observations on the calls of a handler -/

namespace LoginView

/-- The renderErrors calls of a handler, in order. -/
def renderErrorsCalls : List Effect → List (String × List String)
  | [] => []
  | .renderErrors title errorMessages :: rest => (title, errorMessages) :: renderErrorsCalls rest
  | _ :: rest => renderErrorsCalls rest

/-- The feedback items a handler renders through `renderFormFeedback` with
the auth-warning hook. -/
def authWarningsRendered : List Effect → List FeedbackContext
  | [] => []
  | .renderFormFeedback _ context :: rest =>
    if context.jsHook = authWarningJsHook then context :: authWarningsRendered rest
    else authWarningsRendered rest
  | _ :: rest => authWarningsRendered rest

end LoginView

/-! ## Sample inputs -/

namespace Sample

open LoginView FormView

/-- A view of the untranslated catalog, signed in with a provider, whose page
data asks to hide the auth warnings. -/
def hiddenView : View :=
  { gettext := fun msgid => msgid
    formErrorsJsHook := "js-form-errors"
    providers := ["Google"]
    hasSecondaryProviders := false
    currentProvider := "Google"
    syncLearnerProfileData := false
    errorMessage := ""
    platformName := "Edraak"
    supportURL := "/support"
    passwordResetSupportUrl := "/support/reset"
    createAccountOption := true
    accountActivationMessages := []
    accountRecoveryMessages := []
    hideAuthWarnings := true
    enterpriseName := ""
    errors := [] }

/-- The same view with the auth warnings shown. -/
def providerView : View := { hiddenView with hideAuthWarnings := false }

/-- A view with no third-party provider. -/
def plainView : View := { providerView with currentProvider := "", providers := [] }

/-- The response that asks for account linking. -/
def linkError : XhrError := ⟨403, "third-party-auth"⟩

/-- A page with an empty feedback region and the submit button disabled by
the submit in flight. -/
def pendingPage : Page :=
  { passwordResetEmail := "learner@example.com"
    formFeedback := []
    submitDisabled := true
    triggered := []
    saves := 1 }

/-- The page after a login attempt was refused with status 400. -/
def failedPage : Page :=
  run providerView (saveError providerView ⟨400, "Email or password is incorrect."⟩).2 pendingPage

/-- The page after the linking warning was shown and the following attempt
was refused with status 400. -/
def warnedThenFailedPage : Page :=
  run providerView (saveError providerView ⟨400, "Email or password is incorrect."⟩).2
    (run providerView (saveError providerView linkError).2 pendingPage)

/-- Page data with a current provider. -/
def providerData : Data :=
  { thirdPartyAuth :=
      { providers := some ["Google"]
        secondaryProviders := none
        currentProvider := some "Google"
        syncLearnerProfileData := none
        errorMessage := none }
    platformName := "Edraak"
    supportURL := "/support"
    passwordResetSupportUrl := "/support/reset"
    createAccountOption := true
    accountActivationMessages := []
    accountRecoveryMessages := []
    hideAuthWarnings := false
    enterpriseName := "" }

end Sample

/-! ## Repeated handlers of the login view -/

namespace FormView

open LoginView

/-- One run of `resetEmail` on the page, as a `sync` of either reset model
causes it. -/
def applyResetEmail (this : View) (page : Page) : Page :=
  run this (resetEmail this page.passwordResetEmail) page

/-- One run of `renderAuthWarning` on the page. -/
def applyRenderAuthWarning (this : View) (page : Page) : Page :=
  run this (renderAuthWarning this) page

/-- The number of items of the feedback region that carry the class `hook`. -/
def countHook (page : Page) (hook : String) : Nat :=
  page.formFeedback.countP (fun item => item.context.jsHook == hook)

end FormView

/-! ## URI encoding and form decoding (ECMAScript, WHATWG URL) -/

namespace Utf8

/-- The UTF-8 bytes of a Unicode scalar value. -/
def encode (c : Char) : List Nat :=
  if c.toNat < 0x80 then [c.toNat]
  else if c.toNat < 0x800 then [0xC0 + c.toNat / 64, 0x80 + c.toNat % 64]
  else if c.toNat < 0x10000 then
    [0xE0 + c.toNat / 4096, 0x80 + c.toNat / 64 % 64, 0x80 + c.toNat % 64]
  else
    [0xF0 + c.toNat / 262144, 0x80 + c.toNat / 4096 % 64, 0x80 + c.toNat / 64 % 64,
      0x80 + c.toNat % 64]

/-- A continuation byte `10xxxxxx`. -/
def isCont (b : Nat) : Bool := 0x80 ≤ b && b < 0xC0

/-- A Unicode scalar value: a code point up to U+10FFFF that is not a
surrogate. -/
def isScalar (n : Nat) : Bool := n < 0xD800 || (0xDFFF < n && n < 0x110000)

/-- The UTF-8 decoder as a byte-at-a-time machine: `pending` continuation
bytes are still due for the code point whose upper bits are `acc` and which
must be at least `least` (shorter forms are not accepted).  The result is
`none` on a malformed sequence (a stray or missing continuation byte, an
overlong form, a surrogate, a value above U+10FFFF), where a lenient decoder
would substitute U+FFFD. -/
def decodeFrom : Nat → Nat → Nat → List Nat → Option (List Char)
  | 0, _, _, [] => some []
  | _ + 1, _, _, [] => none
  | 0, _, _, b :: rest =>
    if b < 0x80 then (decodeFrom 0 0 0 rest).map (fun cs => Char.ofNat b :: cs)
    else if b < 0xC0 then none
    else if b < 0xE0 then decodeFrom 1 (b - 0xC0) 0x80 rest
    else if b < 0xF0 then decodeFrom 2 (b - 0xE0) 0x800 rest
    else if b < 0xF8 then decodeFrom 3 (b - 0xF0) 0x10000 rest
    else none
  | pending + 1, acc, least, b :: rest =>
    if isCont b then
      if pending = 0 then
        if least ≤ acc * 64 + (b - 0x80) ∧ isScalar (acc * 64 + (b - 0x80)) then
          (decodeFrom 0 0 0 rest).map (fun cs => Char.ofNat (acc * 64 + (b - 0x80)) :: cs)
        else none
      else decodeFrom pending (acc * 64 + (b - 0x80)) least rest
    else none

/-- Decode a byte sequence as UTF-8. -/
def decode (bs : List Nat) : Option (List Char) := decodeFrom 0 0 0 bs

/-- The bytes of a string sent as a request body. -/
def bytes (s : String) : List Nat := s.data.flatMap encode

end Utf8

namespace Uri

/-- The characters `encodeURIComponent` leaves as they are: ASCII letters and
digits and `- _ . ! ~ * ' ( )`. -/
def isUnreserved (c : Char) : Bool :=
  c.isAlphanum || c == '-' || c == '_' || c == '.' || c == '!' || c == '~' || c == '*' ||
    c == '\x27' || c == '(' || c == ')'

/-- The upper-case hexadecimal digit of a value below 16. -/
def hexDigit (n : Nat) : Char :=
  if n < 10 then Char.ofNat (48 + n) else Char.ofNat (55 + n)

/-- The escape `%XX` of one byte. -/
def percentEncode (b : Nat) : List Char := ['%', hexDigit (b / 16), hexDigit (b % 16)]

/-- One character under `encodeURIComponent`. -/
def encodeChar (c : Char) : List Char :=
  if isUnreserved c then [c] else (Utf8.encode c).flatMap percentEncode

/-- The global function `encodeURIComponent` on a well-formed string: every
character that is not unreserved becomes the escapes of its UTF-8 bytes. -/
def encodeURIComponent (s : String) : String := String.mk (s.data.flatMap encodeChar)

/-- The value of an ASCII hexadecimal digit. -/
def hexValue (b : Nat) : Option Nat :=
  if 48 ≤ b ∧ b ≤ 57 then some (b - 48)
  else if 65 ≤ b ∧ b ≤ 70 then some (b - 55)
  else if 97 ≤ b ∧ b ≤ 102 then some (b - 87)
  else none

/-- Percent-decode a byte sequence: `%` followed by two hexadecimal digits is
one byte, every other byte stands for itself. -/
def percentDecode : List Nat → List Nat
  | [] => []
  | b :: h :: l :: rest =>
    if b = 37 then
      match hexValue h, hexValue l with
      | some x, some y => (16 * x + y) :: percentDecode rest
      | _, _ => 37 :: percentDecode (h :: l :: rest)
    else b :: percentDecode (h :: l :: rest)
  | b :: tail => b :: percentDecode tail

/-- Split a byte sequence on every occurrence of a separator byte. -/
def splitOn (sep : Nat) : List Nat → List (List Nat)
  | [] => [[]]
  | b :: rest =>
    if b = sep then [] :: splitOn sep rest
    else
      match splitOn sep rest with
      | seg :: segs => (b :: seg) :: segs
      | [] => [[b]]

/-- Split a byte sequence at the first occurrence of a separator byte; without
one the second part is empty. -/
def splitFirst (sep : Nat) : List Nat → List Nat × List Nat
  | [] => ([], [])
  | b :: rest =>
    if b = sep then ([], rest)
    else ((b :: (splitFirst sep rest).1), (splitFirst sep rest).2)

/-- Decode a name or a value: `+` is a space, then percent-decode, then read
as UTF-8. -/
def decodeComponent (bs : List Nat) : Option String :=
  (Utf8.decode (percentDecode (bs.map (fun b => if b = 43 then 32 else b)))).map String.mk

/-- The `application/x-www-form-urlencoded` parser run on a request body:
split on `&`, drop empty sequences, split each at its first `=`, decode name
and value. -/
def parseForm (body : String) : Option (List (String × String)) :=
  ((splitOn 38 (Utf8.bytes body)).filter (fun seg => !seg.isEmpty)).mapM
    (fun seg =>
      match decodeComponent (splitFirst 61 seg).1, decodeComponent (splitFirst 61 seg).2 with
      | some name, some value => some (name, value)
      | _, _ => none)

end Uri

/-! ## The accounts client -/

namespace AccountsClient

/-- The arguments of a `fetch` call; a header whose value is `undefined` is
`none`. -/
structure Request where
  url : String
  method : String
  credentials : String
  headers : List (String × Option String)
  body : String
  deriving DecidableEq, Repr

/-- The response `fetch` resolves with. -/
structure Response where
  status : Nat
  deriving DecidableEq, Repr

/-- The property `response.ok`: the status is in the range 200 to 299. -/
def Response.ok (response : Response) : Bool := 200 ≤ response.status && response.status ≤ 299

/-- The properties a handler reads from a rejection value: `message` and
`status`, `none` when the object has no such property. -/
structure RejectionValue where
  message : String
  status : Option Nat
  deriving DecidableEq, Repr

/-- What a `fetch` promise settles with: a response of any status, or a
rejection when the request could not be made. -/
inductive FetchResult where
  | response (response : Response)
  | failure (message : String)
  deriving DecidableEq, Repr

/-- The expression `new Error(response)`: an `Error` whose message is the
string form of the response object, with no `status` property. -/
def newError (_response : Response) : RejectionValue :=
  { message := "[object Response]", status := none }

/-- The `then` handler shared by the three calls: the response when
`response.ok`, otherwise `throw new Error(response)`. -/
def checkResponse (response : Response) : Except RejectionValue Response :=
  if response.ok then .ok response else .error (newError response)

/-- The promise a call returns, once its `fetch` has settled. -/
def settle : FetchResult → Except RejectionValue Response
  | .response response => checkResponse response
  | .failure message => .error { message := message, status := none }

/-- The request of `deactivate(password)`; `csrftoken` is
`Cookies.get('csrftoken')`. -/
def deactivate (csrftoken : Option String) (password : String) : Request :=
  { url := "/api/user/v1/accounts/deactivate_logout/"
    method := "POST"
    credentials := "same-origin"
    headers :=
      [("Content-Type", some "application/x-www-form-urlencoded; charset=UTF-8"),
       ("X-CSRFToken", csrftoken)]
    body := "password=" ++ Uri.encodeURIComponent password }

/-- The request of `unsubscribe(email)`. -/
def unsubscribe (csrftoken : Option String) (email : String) : Request :=
  { url := "/marketing_email/unsubscribe"
    method := "POST"
    credentials := "same-origin"
    headers :=
      [("Content-Type", some "application/x-www-form-urlencoded; charset=UTF-8"),
       ("X-CSRFToken", csrftoken)]
    body := "email=" ++ email }

/-- The request of `subscribe(email)`. -/
def subscribe (csrftoken : Option String) (email : String) : Request :=
  { url := "/marketing_email/subscribe"
    method := "POST"
    credentials := "same-origin"
    headers :=
      [("Content-Type", some "application/x-www-form-urlencoded; charset=UTF-8"),
       ("X-CSRFToken", csrftoken)]
    body := "email=" ++ email }

end AccountsClient

/-! ## The account deletion modal -/

namespace StudentAccountDeletionConfirmationModal

open AccountsClient

/-- The component state. -/
structure State where
  password : String
  passwordSubmitted : Bool
  passwordValid : Bool
  validationMessage : String
  validationErrorDetails : String
  accountQueuedForDeletion : Bool
  responseError : Bool
  supportDataDeleteCheck : Bool
  deriving DecidableEq, Repr

/-- The state set by the constructor. -/
def constructorState : State :=
  { password := ""
    passwordSubmitted := false
    passwordValid := true
    validationMessage := ""
    validationErrorDetails := ""
    accountQueuedForDeletion := false
    responseError := false
    supportDataDeleteCheck := false }

/-- The method `deleteAccount` up to the `fetch`: `passwordSubmitted` is set,
then `deactivate(this.state.password)` is called. -/
def deleteAccount (csrftoken : Option String) (state : State) : State × Request :=
  let state1 := { state with passwordSubmitted := true }
  (state1, deactivate csrftoken state1.password)

/-- The `then` callback of `deleteAccount`. -/
def deleteAccountResolved (state : State) : State :=
  { state with
    accountQueuedForDeletion := true
    responseError := false
    passwordSubmitted := false
    validationMessage := ""
    validationErrorDetails := "" }

/-- The method `failedSubmission`. -/
def failedSubmission (gettext : String → String) (state : State) (error : RejectionValue) : State :=
  let status := error.status
  let title :=
    if status = some 403 then gettext "Password is incorrect" else gettext "Unable to delete account"
  let body :=
    if status = some 403 then gettext "Please re-enter your password."
    else gettext "Sorry, there was an error trying to process your request. Please try again later."
  { state with
    passwordSubmitted := false
    responseError := true
    passwordValid := false
    validationMessage := title
    validationErrorDetails := body }

/-- The promise chain of `deleteAccount` once the `fetch` of `deactivate` has
settled: the `then` callback when `deactivate` resolves, `failedSubmission`
with the rejection value otherwise. -/
def deleteAccountSettled (gettext : String → String) (state : State) (result : FetchResult) : State :=
  match settle result with
  | .ok _ => deleteAccountResolved state
  | .error error => failedSubmission gettext state error

/-- The method `handlePasswordInputChange`. -/
def handlePasswordInputChange (state : State) (value : String) : State :=
  { state with password := value }

/-- The method `handleDataDeleteCheckChange`. -/
def handleDataDeleteCheckChange (state : State) : State :=
  { state with supportDataDeleteCheck := !state.supportDataDeleteCheck }

/-- The method `passwordFieldValidation`. -/
def passwordFieldValidation (gettext : String → String) (state : State) (value : String) : State :=
  if value.length < 1 then
    { state with
      passwordValid := false
      validationMessage := gettext "A Password is required"
      validationErrorDetails := "" }
  else { state with passwordValid := true }

/-- The parts of the confirmation modal that depend on the state: the error
alert (title, details) when shown, the props of the password input and the
`disabled` prop of the `Yes, Delete` button. -/
structure ConfirmationModal where
  errorAlert : Option (String × String)
  isValid : Bool
  validationMessage : String
  deleteDisabled : Bool
  deriving DecidableEq, Repr

/-- The method `renderConfirmationModal`. -/
def renderConfirmationModal (state : State) : ConfirmationModal :=
  { errorAlert :=
      if state.responseError then some (state.validationMessage, state.validationErrorDetails)
      else none
    isValid := state.passwordValid
    validationMessage := state.validationMessage
    deleteDisabled :=
      !state.supportDataDeleteCheck && (state.password.length == 0 || state.passwordSubmitted) }

/-- What `render` returns. -/
inductive Rendered where
  | successModal
  | confirmationModal (modal : ConfirmationModal)
  deriving DecidableEq, Repr

/-- The method `render`. -/
def render (state : State) : Rendered :=
  if state.accountQueuedForDeletion then .successModal
  else .confirmationModal (renderConfirmationModal state)

/-- The mounted component with the `deactivate` calls that have not settled
yet. -/
structure System where
  state : State
  inFlight : List Request
  deriving DecidableEq, Repr

/-- What can happen to the mounted component. -/
inductive Event where
  | clickDelete
  | settled (index : Nat) (result : FetchResult)
  | passwordInput (value : String)
  | passwordBlur (value : String)
  | consentChange
  | close
  deriving DecidableEq, Repr

/-- One event.  A control can be used only while it is rendered (and the
button only while it is not disabled), a call can settle only while it is in
flight; otherwise the event cannot happen (`none`). -/
def step (gettext : String → String) (csrftoken : Option String) (system : System) :
    Event → Option System
  | .clickDelete =>
    match render system.state with
    | .confirmationModal modal =>
      if modal.deleteDisabled then none
      else
        some { state := (deleteAccount csrftoken system.state).1
               inFlight := system.inFlight ++ [(deleteAccount csrftoken system.state).2] }
    | .successModal => none
  | .settled index result =>
    if index < system.inFlight.length then
      some { state := deleteAccountSettled gettext system.state result
             inFlight := system.inFlight.eraseIdx index }
    else none
  | .passwordInput value =>
    match render system.state with
    | .confirmationModal _ => some { system with state := handlePasswordInputChange system.state value }
    | .successModal => none
  | .passwordBlur value =>
    match render system.state with
    | .confirmationModal _ =>
      some { system with state := passwordFieldValidation gettext system.state value }
    | .successModal => none
  | .consentChange =>
    match render system.state with
    | .confirmationModal _ => some { system with state := handleDataDeleteCheckChange system.state }
    | .successModal => none
  | .close =>
    match render system.state with
    | .successModal => some system
    | .confirmationModal _ => none

/-- A sequence of events from a given system. -/
def exec (gettext : String → String) (csrftoken : Option String) :
    System → List Event → Option System
  | system, [] => some system
  | system, event :: events =>
    match step gettext csrftoken system event with
    | some next => exec gettext csrftoken next events
    | none => none

/-- The component as mounted. -/
def mounted : System := { state := constructorState, inFlight := [] }

/-- Whether the event is a `deactivate` call resolving, that is, its `fetch`
settling with a response that is `ok`. -/
def Event.resolvesDeactivate : Event → Bool
  | .settled _ (.response response) => response.ok
  | _ => false

end StudentAccountDeletionConfirmationModal

/-! ## The marketing email toggle -/

namespace UnsubscribeMarketingEmail

open AccountsClient

/-- The props of the component. -/
structure Props where
  isUserSubscribed : Bool
  userEmail : String
  deriving DecidableEq, Repr

/-- The component state. -/
structure State where
  checked : Bool
  deriving DecidableEq, Repr

/-- The state set by the constructor. -/
def constructorState (props : Props) : State := { checked := props.isUserSubscribed }

/-- The client function a click called. -/
inductive Call where
  | subscribe
  | unsubscribe
  deriving DecidableEq, Repr

/-- The method `subscribeMarketingEmail` up to the `fetch`. -/
def subscribeMarketingEmail (csrftoken : Option String) (props : Props) : Call × Request :=
  (.subscribe, subscribe csrftoken props.userEmail)

/-- The method `unsubscribeMarketingEmail` up to the `fetch`. -/
def unsubscribeMarketingEmail (csrftoken : Option String) (props : Props) : Call × Request :=
  (.unsubscribe, unsubscribe csrftoken props.userEmail)

/-- The method `handleCheckbox`: it calls one of the two methods and makes no
`setState` call. -/
def handleCheckbox (csrftoken : Option String) (props : Props) (state : State) : Call × Request :=
  if state.checked then unsubscribeMarketingEmail csrftoken props
  else subscribeMarketingEmail csrftoken props

/-- The promise chain of a call once its `fetch` has settled: the `then`
callback sets `checked`, the `catch` callback logs `error.message`.  The
result is the state and the line logged, if any. -/
def callSettled (call : Call) (state : State) (result : FetchResult) : State × Option String :=
  match settle result with
  | .ok _ =>
    match call with
    | .subscribe => ({ state with checked := true }, none)
    | .unsubscribe => ({ state with checked := false }, none)
  | .error error => (state, some error.message)

/-- The mounted component: its state, the calls that have not settled yet,
the console, and the history of the calls that resolved (oldest first). -/
structure System where
  state : State
  inFlight : List (Call × Request)
  console : List String
  resolved : List Call
  deriving DecidableEq, Repr

/-- What can happen to the mounted component. -/
inductive Event where
  | click
  | settled (index : Nat) (result : FetchResult)
  deriving DecidableEq, Repr

/-- One event; a call can settle only while it is in flight. -/
def step (csrftoken : Option String) (props : Props) (system : System) : Event → Option System
  | .click =>
    some { system with inFlight := system.inFlight ++ [handleCheckbox csrftoken props system.state] }
  | .settled index result =>
    match system.inFlight.get? index with
    | some (call, _) =>
      some { state := (callSettled call system.state result).1
             inFlight := system.inFlight.eraseIdx index
             console :=
               match (callSettled call system.state result).2 with
               | some line => system.console ++ [line]
               | none => system.console
             resolved :=
               match settle result with
               | .ok _ => system.resolved ++ [call]
               | .error _ => system.resolved }
    | none => none

/-- A sequence of events from a given system. -/
def exec (csrftoken : Option String) (props : Props) : System → List Event → Option System
  | system, [] => some system
  | system, event :: events =>
    match step csrftoken props system event with
    | some next => exec csrftoken props next events
    | none => none

/-- The component as mounted. -/
def mounted (props : Props) : System :=
  { state := constructorState props, inFlight := [], console := [], resolved := [] }

/-- The method `render`: the `checked` prop of the checkbox. -/
def render (state : State) : Bool := state.checked

end UnsubscribeMarketingEmail

namespace UnsubscribeMarketingEmail

/-- Whether the event is a call resolving, that is, its `fetch` settling with
a response that is `ok`. -/
def Event.resolves : Event → Bool
  | .settled _ (.response response) => response.ok
  | _ => false

end UnsubscribeMarketingEmail

/-! ## The Django JavaScript catalogs (`djangojs.js`) -/

namespace Djangojs

/-- A value of `django.catalog`: a translated string, or the list of its
plural forms. -/
inductive Entry where
  | text (value : String)
  | forms (values : List String)
  deriving DecidableEq, Repr

/-- The object `django.catalog`, newest assignment first: the first pair for a
key is the property of that key. -/
abbrev Catalog := List (String × Entry)

/-- What the variable `v` of `pluralidx` holds: a boolean or a number. -/
inductive PluralValue where
  | boolean (value : Bool)
  | number (value : Nat)
  deriving DecidableEq, Repr

/-- The tail of every `pluralidx`: a boolean `v` gives `v ? 1 : 0`, a number is
returned as it is. -/
def pluralidxOf : PluralValue → Nat
  | .boolean value => if value then 1 else 0
  | .number value => value

/-- The parts of the object `django` the gettext library reads. -/
structure Django where
  pluralidx : Int → Nat
  catalog : Catalog

/-- The head of a catalog file: `pluralidx` is replaced and every pair of
`newcatalog` is assigned into `django.catalog`. -/
def install (pluralidx : Int → Nat) (newcatalog : Catalog) (catalog : Catalog) : Django :=
  { pluralidx := pluralidx, catalog := newcatalog ++ catalog }

/-- The expression `value[index]`, `none` when it is `undefined`: an element
of a list of forms, or a character of a string (of the Basic Multilingual
Plane, where characters and UTF-16 units coincide). -/
def Entry.index : Entry → Nat → Option String
  | .forms values, index => values.get? index
  | .text value, index => (value.data.get? index).map (fun c => String.singleton c)

/-- The function `django.gettext`; `none` is `undefined`. -/
def gettext (django : Django) (msgid : String) : Option String :=
  match django.catalog.lookup msgid with
  | none => some msgid
  | some (.text value) => some value
  | some (.forms values) => values.get? 0

/-- The function `django.ngettext`; `none` is `undefined`. -/
def ngettext (django : Django) (singular plural : String) (count : Int) : Option String :=
  match django.catalog.lookup singular with
  | none => some (if count = 1 then singular else plural)
  | some value => value.index (django.pluralidx count)

/-- The function `django.gettext_noop`. -/
def gettext_noop (msgid : String) : String := msgid

/-- The test `value.indexOf('\x04') != -1`. -/
def hasSeparator (value : String) : Bool := value.data.contains '\x04'

/-- The function `django.pgettext`; `none` stands for the `TypeError` raised
when `gettext` returned `undefined`. -/
def pgettext (django : Django) (context msgid : String) : Option String :=
  match gettext django (context ++ "\x04" ++ msgid) with
  | none => none
  | some value => if hasSeparator value then some msgid else some value

/-- The function `django.npgettext`; `none` stands for `undefined` and for
the `TypeError` on it. -/
def npgettext (django : Django) (context singular plural : String) (count : Int) : Option String :=
  match ngettext django (context ++ "\x04" ++ singular) (context ++ "\x04" ++ plural) count with
  | none => none
  | some value => if hasSeparator value then ngettext django singular plural count else some value

/-- The expression `String(obj.shift())`: a missing element reads as
`undefined`. -/
def shift (obj : List String) : String := obj.headD "undefined"

/-- The call `fmt.replace(/%s/g, function(match){return String(obj.shift())})`:
the text, and the array as the calls of `shift` leave it. -/
def replacePositional : List Char → List String → List Char × List String
  | [], obj => ([], obj)
  | c :: d :: rest, obj =>
    if c = '%' ∧ d = 's' then
      ((shift obj).data ++ (replacePositional rest obj.tail).1, (replacePositional rest obj.tail).2)
    else (c :: (replacePositional (d :: rest) obj).1, (replacePositional (d :: rest) obj).2)
  | [c], obj => ([c], obj)

/-- The argument `obj` of `interpolate`: an object read by name when `named`
is set, an array consumed from the front otherwise. -/
@[reducible]
def InterpolateObj : Bool → Type
  | true => List (String × String)
  | false => List String

/-- The function `django.interpolate(fmt, obj, named)`: the text, and `obj` as
the call leaves it. -/
def interpolate (fmt : String) : (named : Bool) → InterpolateObj named → String × InterpolateObj named
  | true, obj =>
    (String.mk (Placeholder.replaceAll ['%', '('] [')', 's'] (Placeholder.param obj) 0 fmt.data), obj)
  | false, obj =>
    (String.mk (replacePositional fmt.data obj).1, (replacePositional fmt.data obj).2)

/-- Whether the text holds the placeholder `%s`. -/
def hasPlaceholder : List Char → Bool
  | c :: d :: rest => (c == '%' && d == 's') || hasPlaceholder (d :: rest)
  | _ => false

/-- The format made of the given pieces with one `%s` before each piece but the
first. -/
def formatOf (first : List Char) (pieces : List (List Char)) : List Char :=
  first ++ pieces.flatMap (fun piece => '%' :: 's' :: piece)

/-- The translation the catalog holds for a key, if any: the string, or the
first of the plural forms. -/
def translation (django : Django) (key : String) : Option String :=
  match django.catalog.lookup key with
  | none => none
  | some (.text value) => some value
  | some (.forms values) => values.head?

end Djangojs

/-! ### The catalog file `cms/static/js/i18n/az/djangojs.js` -/

namespace Az

open Djangojs

/-- The function `django.pluralidx` of the file. -/
def pluralidx (n : Int) : Nat :=
  let v : PluralValue := .boolean (decide (n ≠ 1))
  pluralidxOf v

/-- The object `newcatalog` of the file. -/
def newcatalog : Catalog :=
  [
   ("%(sel)s of %(cnt)s selected",
     .forms ["%(sel)s / %(cnt)s se\u00e7ilib",
       "%(sel)s / %(cnt)s se\u00e7ilib"]),
   ("6 a.m.",
     .text "6 a.m."),
   ("6 p.m.",
     .text "6 p.m."),
   ("April",
     .text "Aprel"),
   ("August",
     .text "Avqust"),
   ("Available %s",
     .text "M\u00fcmk\u00fcn %s"),
   ("Cancel",
     .text "L\u0259\u011fv et"),
   ("Choose",
     .text "Se\u00e7"),
   ("Choose a Date",
     .text "Tarix Se\u00e7in"),
   ("Choose a Time",
     .text "Vaxt Se\u00e7in"),
   ("Choose a time",
     .text "Vaxt\u0131 se\u00e7in"),
   ("Choose all",
     .text "Ham\u0131s\u0131n\u0131 se\u00e7"),
   ("Chosen %s",
     .text "Se\u00e7ilmi\u015f %s"),
   ("Click to choose all %s at once.",
     .text "B\u00fct\u00fcn %s siyah\u0131s\u0131n\u0131 se\u00e7m\u0259k \u00fc\u00e7\u00fcn t\u0131qlay\u0131n."),
   ("Click to remove all chosen %s at once.",
     .text "Se\u00e7ilmi\u015f %s siyah\u0131s\u0131n\u0131n ham\u0131s\u0131n\u0131 silm\u0259k \u00fc\u00e7\u00fcn t\u0131qlay\u0131n."),
   ("December",
     .text "Dekabr"),
   ("February",
     .text "Fevral"),
   ("Filter",
     .text "S\u00fczg\u0259c"),
   ("Hide",
     .text "Gizl\u0259t"),
   ("January",
     .text "Yanvar"),
   ("July",
     .text "\u0130yul"),
   ("June",
     .text "\u0130yun"),
   ("March",
     .text "Mart"),
   ("May",
     .text "May"),
   ("Midnight",
     .text "Gec\u0259 yar\u0131s\u0131"),
   ("Noon",
     .text "G\u00fcnorta"),
   ("Note: You are %s hour ahead of server time.",
     .forms ["Diqq\u0259t: Server vaxt\u0131ndan %s saat ir\u0259lid\u0259siniz.",
       "Diqq\u0259t: Server vaxt\u0131ndan %s saat ir\u0259lid\u0259siniz."]),
   ("Note: You are %s hour behind server time.",
     .forms ["Diqq\u0259t: Server vaxt\u0131ndan %s saat gerid\u0259siniz.",
       "Diqq\u0259t: Server vaxt\u0131ndan %s saat gerid\u0259siniz."]),
   ("November",
     .text "Noyabr"),
   ("Now",
     .text "\u0130ndi"),
   ("October",
     .text "Oktyabr"),
   ("Remove",
     .text "Y\u0131\u011f\u0131\u015fd\u0131r"),
   ("Remove all",
     .text "Ham\u0131s\u0131n\u0131 sil"),
   ("September",
     .text "Sentyabr"),
   ("Show",
     .text "G\u00f6st\u0259r"),
   ("This is the list of available %s. You may choose some by selecting them in the box below and then clicking the \"Choose\" arrow between the two boxes.",
     .text "Bu, m\u00fcmk\u00fcn %s siyah\u0131s\u0131d\u0131r. Onlardan bir ne\u00e7\u0259sini qar\u015f\u0131s\u0131ndak\u0131 xanaya i\u015far\u0259 qoymaq v\u0259 iki xana aras\u0131ndak\u0131 \"Se\u00e7\"i t\u0131qlamaqla se\u00e7m\u0259k olar."),
   ("This is the list of chosen %s. You may remove some by selecting them in the box below and then clicking the \"Remove\" arrow between the two boxes.",
     .text "Bu, se\u00e7ilmi\u015f %s siyah\u0131s\u0131d\u0131r. Onlardan bir ne\u00e7\u0259sini a\u015fa\u011f\u0131dak\u0131 xanaya i\u015far\u0259 qoymaq v\u0259 iki xana aras\u0131ndak\u0131 \"Sil\"i t\u0131qlamaqla silm\u0259k olar."),
   ("Today",
     .text "Bu g\u00fcn"),
   ("Tomorrow",
     .text "Sabah"),
   ("Type into this box to filter down the list of available %s.",
     .text "Bu xanaya yazmaqla m\u00fcmk\u00fcn %s siyah\u0131s\u0131n\u0131 filtrl\u0259y\u0259 bil\u0259rsiniz."),
   ("Yesterday",
     .text "D\u00fcn\u0259n"),
   ("You have selected an action, and you haven't made any changes on individual fields. You're probably looking for the Go button rather than the Save button.",
     .text "Siz \u0259m\u0259liyyat\u0131 se\u00e7misiniz v\u0259 he\u00e7 bir sah\u0259y\u0259 d\u0259yi\u015fiklik etm\u0259misiniz. Siz y\u0259qin ki, Yadda saxla d\u00fcym\u0259sini deyil, Getdik d\u00fcym\u0259sini axtar\u0131rs\u0131n\u0131z."),
   ("You have selected an action, but you haven't saved your changes to individual fields yet. Please click OK to save. You'll need to re-run the action.",
     .text "\u018fm\u0259liyyat\u0131 se\u00e7misiniz, amma b\u0259zi sah\u0259l\u0259rd\u0259ki d\u0259yi\u015fiklikl\u0259ri h\u0259l\u0259 yadda saxlamam\u0131\u015f\u0131q. Bunun \u00fc\u00e7\u00fcn OK se\u00e7m\u0259lisiniz. Ondan sonra \u0259m\u0259liyyat\u0131 yenid\u0259n i\u015f\u0259 salma\u011fa c\u0259hd edin."),
   ("You have unsaved changes on individual editable fields. If you run an action, your unsaved changes will be lost.",
     .text "B\u0259zi sah\u0259l\u0259rd\u0259 etdiyiniz d\u0259yi\u015fiklikl\u0259ri h\u0259l\u0259 yadda saxlamam\u0131\u015f\u0131q. \u018fg\u0259r \u0259m\u0259liyyat\u0131 i\u015f\u0259 salsan\u0131z, d\u0259yi\u015fiklikl\u0259r \u0259ld\u0259n ged\u0259c\u0259k."),
   ("one letter Friday\u0004F",
     .text "C"),
   ("one letter Monday\u0004M",
     .text "B"),
   ("one letter Saturday\u0004S",
     .text "\u015e"),
   ("one letter Sunday\u0004S",
     .text "B"),
   ("one letter Thursday\u0004T",
     .text "C"),
   ("one letter Tuesday\u0004T",
     .text "\u00c7"),
   ("one letter Wednesday\u0004W",
     .text "\u00c7")
  ]

/-- The object `django` after the file has run on a page with the given
catalog. -/
def django (catalog : Catalog) : Django := install pluralidx newcatalog catalog

end Az

/-! ### The catalog file `cms/static/js/i18n/sq/djangojs.js` -/

namespace Sq

open Djangojs

/-- The function `django.pluralidx` of the file. -/
def pluralidx (n : Int) : Nat :=
  let v : PluralValue := .boolean (decide (n ≠ 1))
  pluralidxOf v

/-- The object `newcatalog` of the file. -/
def newcatalog : Catalog :=
  [
   ("%(sel)s of %(cnt)s selected",
     .forms ["U p\u00ebrzgjodh %(sel)s nga %(cnt)s",
       "U p\u00ebrzgjodh\u00ebn %(sel)s nga %(cnt)s"]),
   ("6 a.m.",
     .text "6 a.m."),
   ("6 p.m.",
     .text "6 p.m."),
   ("Available %s",
     .text "%s i gatsh\u00ebm"),
   ("Cancel",
     .text "Anuloje"),
   ("Choose",
     .text "Zgjidhni"),
   ("Choose a Date",
     .text "Zgjidhni nj\u00eb Dat\u00eb"),
   ("Choose a Time",
     .text "Zgjidhni nj\u00eb Koh\u00eb"),
   ("Choose a time",
     .text "Zgjidhni nj\u00eb koh\u00eb"),
   ("Choose all",
     .text "Zgjidheni krejt"),
   ("Chosen %s",
     .text "U zgjodh %s"),
   ("Click to choose all %s at once.",
     .text "Klikoni q\u00eb t\u00eb zgjidhen krejt %s nj\u00ebher\u00ebsh."),
   ("Click to remove all chosen %s at once.",
     .text "Klikoni q\u00eb t\u00eb hiqen krejt %s e zgjedhura nj\u00ebher\u00ebsh."),
   ("Error",
     .text "Problem"),
   ("Filter",
     .text "Filtro"),
   ("Hide",
     .text "Fshihe"),
   ("Midnight",
     .text "Mesnat\u00eb"),
   ("Noon",
     .text "Mesdit\u00eb"),
   ("Not Selected",
     .text "E pa selektuar"),
   ("Note: You are %s hour ahead of server time.",
     .forms ["Sh\u00ebnim: Jeni %s or\u00eb para koh\u00ebs s\u00eb sh\u00ebrbyesit.",
       "Sh\u00ebnim: Jeni %s or\u00eb para koh\u00ebs s\u00eb sh\u00ebrbyesit."]),
   ("Note: You are %s hour behind server time.",
     .forms ["Sh\u00ebnim: Jeni %s or\u00eb pas koh\u00ebs s\u00eb sh\u00ebrbyesit.",
       "Sh\u00ebnim: Jeni %s or\u00eb pas koh\u00ebs s\u00eb sh\u00ebrbyesit."]),
   ("Now",
     .text "Tani"),
   ("Option Deleted",
     .text "Opsioni u fshia"),
   ("Remove",
     .text "Hiqe"),
   ("Remove all",
     .text "Hiqi krejt"),
   ("Saving...",
     .text "Ruaj..."),
   ("Show",
     .text "Shfaqe"),
   ("Status of Your Response",
     .text "Statusi i p\u00ebrgjigjjes suaj"),
   ("This is the list of available %s. You may choose some by selecting them in the box below and then clicking the \"Choose\" arrow between the two boxes.",
     .text "Kjo \u00ebsht\u00eb lista e %s t\u00eb gatsh\u00ebm. Mund t\u00eb zgjidhni disa duke i p\u00ebrzgjedhur te kutiza m\u00eb posht\u00eb dhe mandej duke klikuar mbi shigjet\u00ebn \"Zgjidhe\" mes dy kutizave."),
   ("This is the list of chosen %s. You may remove some by selecting them in the box below and then clicking the \"Remove\" arrow between the two boxes.",
     .text "Kjo \u00ebsht\u00eb lista e %s t\u00eb gatshme. Mund t\u00eb hiqni disa duke i p\u00ebrzgjedhur te kutiza m\u00eb posht\u00eb e mandej duke klikuar mbi shigjet\u00ebn \"Hiqe\" mes dy kutizave."),
   ("This response could not be saved.",
     .text "P\u00ebrgjigjja nuk mund t\u00eb ruhet."),
   ("This response has been saved but not submitted.",
     .text "Kjo p\u00ebrgjigjje \u00ebsht\u00eb ruajtur por nuk \u00ebsht\u00eb paraqitur."),
   ("This response has not been saved.",
     .text "Kjo p\u00ebrgjigjje nuk \u00ebsht\u00eb ruajtur."),
   ("Today",
     .text "Sot"),
   ("Tomorrow",
     .text "Nes\u00ebr"),
   ("Type into this box to filter down the list of available %s.",
     .text "Shkruani brenda kutiz\u00ebs q\u00eb t\u00eb filtrohet lista e %s t\u00eb passhme."),
   ("Unnamed Option",
     .text "Opsion i pa em\u00ebrtuar"),
   ("Warning",
     .text "Paralajm\u00ebrim"),
   ("Yesterday",
     .text "Dje"),
   ("You have selected an action, and you haven't made any changes on individual fields. You're probably looking for the Go button rather than the Save button.",
     .text "Keni p\u00ebrzgjedhur nj\u00eb veprim, dhe nuk keni b\u00ebr\u00eb ndonj\u00eb ndryshim te fusha individuale. Ndoshta po k\u00ebrkonit p\u00ebr butonin Shko, n\u00eb vend se p\u00ebr butonin Ruaje."),
   ("You have selected an action, but you haven't saved your changes to individual fields yet. Please click OK to save. You'll need to re-run the action.",
     .text "Keni p\u00ebrzgjedhur nj\u00eb veprim, por nuk keni ruajtur ende ndryshimet q\u00eb b\u00ebt\u00eb te fusha individuale. Ju lutemi, klikoni OK q\u00eb t\u00eb b\u00ebhet ruajtja. Do t\u2019ju duhet ta rib\u00ebni veprimin."),
   ("You have unsaved changes on individual editable fields. If you run an action, your unsaved changes will be lost.",
     .text "Keni ndryshime t\u00eb paruajtura te fusha individuale t\u00eb ndryshueshme. N\u00ebse kryeni nj\u00eb veprim, ndryshimet e paruajtura do t\u00eb humbin.")
  ]

/-- The object `django` after the file has run on a page with the given
catalog. -/
def django (catalog : Catalog) : Django := install pluralidx newcatalog catalog

end Sq

/-! ### The catalog file `lms/static/js/i18n/nl-nl/djangojs.js` -/

namespace NlNl

open Djangojs

/-- The function `django.pluralidx` of the file. -/
def pluralidx (n : Int) : Nat :=
  let v : PluralValue := .boolean (decide (n ≠ 1))
  pluralidxOf v

/-- The object `newcatalog` of the file. -/
def newcatalog : Catalog :=
  [
   ("%(sel)s of %(cnt)s selected",
     .forms ["%(sel)s van de %(cnt)s geselecteerd",
       "%(sel)s van de %(cnt)s geselecteerd"]),
   ("6 a.m.",
     .text "6 uur 's ochtends"),
   ("6 p.m.",
     .text "6 uur 's avonds"),
   ("April",
     .text "april"),
   ("August",
     .text "augustus"),
   ("Available %s",
     .text "Beschikbare %s"),
   ("Cancel",
     .text "Annuleren"),
   ("Choose",
     .text "Kiezen"),
   ("Choose a Date",
     .text "Kies een datum"),
   ("Choose a Time",
     .text "Kies een tijdstip"),
   ("Choose a time",
     .text "Kies een tijd"),
   ("Choose all",
     .text "Kies alle"),
   ("Chosen %s",
     .text "Gekozen %s"),
   ("Click to choose all %s at once.",
     .text "Klik om alle %s te kiezen."),
   ("Click to remove all chosen %s at once.",
     .text "Klik om alle gekozen %s tegelijk te verwijderen."),
   ("December",
     .text "december"),
   ("February",
     .text "februari"),
   ("Filter",
     .text "Filter"),
   ("Hide",
     .text "Verbergen"),
   ("January",
     .text "januari"),
   ("July",
     .text "juli"),
   ("June",
     .text "juni"),
   ("March",
     .text "maart"),
   ("May",
     .text "mei"),
   ("Midnight",
     .text "Middernacht"),
   ("Noon",
     .text "12 uur 's middags"),
   ("Note: You are %s hour ahead of server time.",
     .forms ["Let op: U ligt %s uur voor ten opzichte van de server-tijd.",
       "Let op: U ligt %s uren voor ten opzichte van de server-tijd."]),
   ("Note: You are %s hour behind server time.",
     .forms ["Let op: U ligt %s uur achter ten opzichte van de server-tijd.",
       "Let op: U ligt %s uren achter ten opzichte van de server-tijd."]),
   ("November",
     .text "november"),
   ("Now",
     .text "Nu"),
   ("October",
     .text "oktober"),
   ("Remove",
     .text "Verwijderen"),
   ("Remove all",
     .text "Verwijder alles"),
   ("September",
     .text "september"),
   ("Show",
     .text "Tonen"),
   ("This is the list of available %s. You may choose some by selecting them in the box below and then clicking the \"Choose\" arrow between the two boxes.",
     .text "Dit is de lijst met beschikbare %s. U kunt kiezen uit een aantal door ze te selecteren in het vak hieronder en vervolgens op de \"Kiezen\" pijl tussen de twee lijsten te klikken."),
   ("This is the list of chosen %s. You may remove some by selecting them in the box below and then clicking the \"Remove\" arrow between the two boxes.",
     .text "Dit is de lijst van de gekozen %s. Je kunt ze verwijderen door ze te selecteren in het vak hieronder en vervolgens op de \"Verwijderen\" pijl tussen de twee lijsten te klikken."),
   ("Today",
     .text "Vandaag"),
   ("Tomorrow",
     .text "Morgen"),
   ("Type into this box to filter down the list of available %s.",
     .text "Type in dit vak om te filteren in de lijst met beschikbare %s."),
   ("Yesterday",
     .text "Gisteren"),
   ("You have selected an action, and you haven't made any changes on individual fields. You're probably looking for the Go button rather than the Save button.",
     .text "U heeft een actie geselecteerd en heeft geen wijzigingen gemaakt op de individuele velden. U zoekt waarschijnlijk naar de Gaan knop in plaats van de Opslaan knop."),
   ("You have selected an action, but you haven't saved your changes to individual fields yet. Please click OK to save. You'll need to re-run the action.",
     .text "U heeft een actie geselecteerd, maar heeft de wijzigingen op de individuele velden nog niet opgeslagen. Klik alstublieft op OK om op te slaan. U zult vervolgens de actie opnieuw moeten uitvoeren."),
   ("You have unsaved changes on individual editable fields. If you run an action, your unsaved changes will be lost.",
     .text "U heeft niet opgeslagen wijzigingen op enkele indviduele velden. Als u nu een actie uitvoert zullen uw wijzigingen verloren gaan."),
   ("one letter Friday\u0004F",
     .text "F"),
   ("one letter Monday\u0004M",
     .text "M"),
   ("one letter Saturday\u0004S",
     .text "S"),
   ("one letter Sunday\u0004S",
     .text "S"),
   ("one letter Thursday\u0004T",
     .text "T"),
   ("one letter Tuesday\u0004T",
     .text "T"),
   ("one letter Wednesday\u0004W",
     .text "W")
  ]

/-- The object `django` after the file has run on a page with the given
catalog. -/
def django (catalog : Catalog) : Django := install pluralidx newcatalog catalog

end NlNl

/-! ### The catalog file `lms/static/js/i18n/sr/djangojs.js` -/

namespace Sr

open Djangojs

/-- The function `django.pluralidx` of the file; `%` of JavaScript is the
remainder of the division that truncates. -/
def pluralidx (n : Int) : Nat :=
  let v : PluralValue :=
    .number
      (if n.tmod 10 = 1 ∧ n.tmod 100 ≠ 11 then 0
       else if n.tmod 10 ≥ 2 ∧ n.tmod 10 ≤ 4 ∧ (n.tmod 100 < 10 ∨ n.tmod 100 ≥ 20) then 1
       else 2)
  pluralidxOf v

/-- The object `newcatalog` of the file. -/
def newcatalog : Catalog :=
  [
   ("%(sel)s of %(cnt)s selected",
     .forms ["%(sel)s \u043e\u0434 %(cnt)s \u0438\u0437\u0430\u0431\u0440\u0430\u043d",
       "%(sel)s \u043e\u0434 %(cnt)s \u0438\u0437\u0430\u0431\u0440\u0430\u043d\u0430",
       "%(sel)s \u043e\u0434 %(cnt)s \u0438\u0437\u0430\u0431\u0440\u0430\u043d\u0438\u0445"]),
   ("6 a.m.",
     .text "18\u0447"),
   ("Available %s",
     .text "\u0414\u043e\u0441\u0442\u0443\u043f\u043d\u0438 %s"),
   ("Cancel",
     .text "\u041f\u043e\u043d\u0438\u0448\u0442\u0438"),
   ("Choose",
     .text "\u0418\u0437\u0430\u0431\u0435\u0440\u0438"),
   ("Choose a time",
     .text "\u041e\u0434\u0430\u0431\u0438\u0440 \u0432\u0440\u0435\u043c\u0435\u043d\u0430"),
   ("Choose all",
     .text "\u0418\u0437\u0430\u0431\u0435\u0440\u0438 \u0441\u0432\u0435"),
   ("Chosen %s",
     .text "\u0418\u0437\u0430\u0431\u0440\u0430\u043d\u043e \u201e%s\u201c"),
   ("Click to choose all %s at once.",
     .text "\u0418\u0437\u0430\u0431\u0435\u0440\u0438\u0442\u0435 \u0441\u0432\u0435 \u201e%s\u201c \u043e\u0434\u0458\u0435\u0434\u043d\u043e\u043c."),
   ("Click to remove all chosen %s at once.",
     .text "\u0423\u043a\u043b\u043e\u043d\u0438\u0442\u0435 \u0441\u0432\u0435 \u0438\u0437\u0430\u0431\u0440\u0430\u043d\u0435 \u201e%s\u201c \u043e\u0434\u0458\u0435\u0434\u043d\u043e\u043c."),
   ("Filter",
     .text "\u0424\u0438\u043b\u0442\u0435\u0440"),
   ("Hide",
     .text "\u0421\u0430\u043a\u0440\u0438\u0458"),
   ("Midnight",
     .text "\u041f\u043e\u043d\u043e\u045b"),
   ("Noon",
     .text "\u041f\u043e\u0434\u043d\u0435"),
   ("Now",
     .text "\u0422\u0440\u0435\u043d\u0443\u0442\u043d\u043e \u0432\u0440\u0435\u043c\u0435"),
   ("Remove",
     .text "\u0423\u043a\u043b\u043e\u043d\u0438"),
   ("Remove all",
     .text "\u0423\u043a\u043b\u043e\u043d\u0438 \u0441\u0432\u0435"),
   ("Show",
     .text "\u041f\u043e\u043a\u0430\u0436\u0438"),
   ("This is the list of available %s. You may choose some by selecting them in the box below and then clicking the \"Choose\" arrow between the two boxes.",
     .text "\u041e\u0432\u043e \u0458\u0435 \u043b\u0438\u0441\u0442\u0430 \u0434\u043e\u0441\u0442\u0443\u043f\u043d\u0438\u0445 \u201e%s\u201c. \u041c\u043e\u0436\u0435\u0442\u0435 \u0438\u0437\u0430\u0431\u0440\u0430\u0442\u0438 \u0435\u043b\u0435\u043c\u0435\u043d\u0442\u0435 \u0442\u0430\u043a\u043e \u0448\u0442\u043e \u045b\u0435\u0442\u0435 \u0438\u0445 \u0438\u0437\u0430\u0431\u0440\u0430\u0442\u0438 \u0443 \u043b\u0438\u0441\u0442\u0438 \u0438 \u043a\u043b\u0438\u043a\u043d\u0443\u0442\u0438 \u043d\u0430 \u201e\u0418\u0437\u0430\u0431\u0435\u0440\u0438\u201c."),
   ("This is the list of chosen %s. You may remove some by selecting them in the box below and then clicking the \"Remove\" arrow between the two boxes.",
     .text "\u041e\u0432\u043e \u0458\u0435 \u043b\u0438\u0441\u0442\u0430 \u0438\u0437\u0430\u0431\u0440\u0430\u043d\u0438\u0445 \u201e%s\u201c. \u041c\u043e\u0436\u0435\u0442\u0435 \u0443\u043a\u043b\u043e\u043d\u0438\u0442\u0438 \u0435\u043b\u0435\u043c\u0435\u043d\u0442\u0435 \u0442\u0430\u043a\u043e \u0448\u0442\u043e \u045b\u0435\u0442\u0435 \u0438\u0445 \u0438\u0437\u0430\u0431\u0440\u0430\u0442\u0438 \u0443 \u043b\u0438\u0441\u0442\u0438 \u0438 \u043a\u043b\u0438\u043a\u043d\u0443\u0442\u0438 \u043d\u0430 \u201e\u0423\u043a\u043b\u043e\u043d\u0438\u201c."),
   ("Today",
     .text "\u0414\u0430\u043d\u0430\u0441"),
   ("Tomorrow",
     .text "\u0421\u0443\u0442\u0440\u0430"),
   ("Type into this box to filter down the list of available %s.",
     .text "\u0424\u0438\u043b\u0442\u0440\u0438\u0440\u0430\u0458\u0442\u0435 \u043b\u0438\u0441\u0442\u0443 \u0434\u043e\u0441\u0442\u0443\u043f\u043d\u0438\u0445 \u0435\u043b\u0435\u043c\u0435\u043d\u0430\u0442\u0430 \u201e%s\u201c."),
   ("Yesterday",
     .text "\u0408\u0443\u0447\u0435"),
   ("You have selected an action, and you haven't made any changes on individual fields. You're probably looking for the Go button rather than the Save button.",
     .text "\u0418\u0437\u0430\u0431\u0440\u0430\u043b\u0438 \u0441\u0442\u0435 \u0430\u043a\u0446\u0438\u0458\u0443 \u0430\u043b\u0438 \u043d\u0438\u0441\u0442\u0435 \u0438\u0437\u043c\u0435\u043d\u0438\u043b\u0438 \u043d\u0438 \u0458\u0435\u0434\u043d\u043e \u043f\u043e\u0459\u0435."),
   ("You have selected an action, but you haven't saved your changes to individual fields yet. Please click OK to save. You'll need to re-run the action.",
     .text "\u0418\u0437\u0430\u0431\u0440\u0430\u043b\u0438 \u0441\u0442\u0435 \u0430\u043a\u0446\u0438\u0458\u0443 \u0430\u043b\u0438 \u043d\u0438\u0441\u0442\u0435 \u0441\u0430\u0447\u0443\u0432\u0430\u043b\u0438 \u043f\u0440\u043e\u043c\u0435\u043d\u0435 \u043f\u043e\u0459\u0430."),
   ("You have unsaved changes on individual editable fields. If you run an action, your unsaved changes will be lost.",
     .text "\u0418\u043c\u0430\u0442\u0435 \u043d\u0435\u0441\u0430\u0447\u0438\u0432\u0430\u043d\u0435 \u0438\u0437\u043c\u0435\u043d\u0435. \u0410\u043a\u043e \u043f\u043e\u043a\u0440\u0435\u043d\u0435\u0442\u0435 \u0430\u043a\u0446\u0438\u0458\u0443, \u0438\u0437\u043c\u0435\u043d\u0435 \u045b\u0435 \u0431\u0438\u0442\u0438 \u0438\u0437\u0433\u0443\u0431\u0459\u0435\u043d\u0435.")
  ]

/-- The object `django` after the file has run on a page with the given
catalog. -/
def django (catalog : Catalog) : Django := install pluralidx newcatalog catalog

end Sr

/-! ## The rest of the login view: `postRender` -/

namespace Underscore

/-- The function `_.sprintf(format, ...args)` on formats whose directives are
all of the form `%s`, with an argument for each: the directives become the
arguments, in order. -/
def sprintfArgs (format : String) (args : List String) : String :=
  String.mk (Djangojs.replacePositional format.data args).1

end Underscore

namespace LoginView

/-- The method `renderMessage`. -/
def renderMessage (_this : View) (message : Message) : List Effect :=
  [.renderFormFeedback .formStatusTpl ⟨message.tags, none, message.message⟩]

/-- The method `renderAccountActivationMessages`. -/
def renderAccountActivationMessages (this : View) : List Effect :=
  this.accountActivationMessages.flatMap (renderMessage this)

/-- The method `renderAccountRecoveryMessages`. -/
def renderAccountRecoveryMessages (this : View) : List Effect :=
  this.accountRecoveryMessages.flatMap (renderMessage this)

/-- The method `postRender`, after the element lookups: the calls made. -/
def postRender (this : View) : List Effect :=
  (if this.errorMessage ≠ "" then
    let formErrorsTitle :=
      Underscore.sprintfArgs (this.gettext "An error occurred when signing you in to %s.")
        [this.platformName]
    [.renderErrors formErrorsTitle [this.errorMessage]]
  else if this.currentProvider ≠ "" then
    [.modelSave]
  else []) ++
  renderAccountActivationMessages this ++
  renderAccountRecoveryMessages this

/-- The number of `model.save()` calls of a handler. -/
def modelSaves (effects : List Effect) : Nat := effects.count .modelSave

end LoginView

/-! ## The marketing email initializer -/

namespace UnsubscribeMarketingEmailInitializer

/-- The constant `maxWait`. -/
def maxWait : Nat := 60000

/-- The constant `interval`. -/
def interval : Nat := 50

/-- The variable `currentWait`, whether `clearInterval(wrapperRendered)` has
been called, the number of `ReactRenderer` objects made, and the number of
times the callback has run. -/
structure State where
  currentWait : Nat
  cleared : Bool
  rendered : Nat
  ticks : Nat
  deriving DecidableEq, Repr

/-- The module as loaded: `currentWait` is 0 and the interval is set. -/
def loaded : State := { currentWait := 0, cleared := false, rendered := 0, ticks := 0 }

/-- The callback of `setInterval`; `wrapper` says whether
`document.getElementById` found the element. -/
def callback (wrapper : Bool) (state : State) : State :=
  let state1 :=
    if wrapper then { state with cleared := true, rendered := state.rendered + 1 } else state
  let state2 := { state1 with currentWait := state1.currentWait + interval, ticks := state1.ticks + 1 }
  if state2.currentWait ≥ maxWait then { state2 with cleared := true } else state2

/-- One period of the timer: the callback runs unless the interval has been
cleared. -/
def tick (state : State) (wrapper : Bool) : State :=
  if state.cleared then state else callback wrapper state

/-- The periods of the timer, with the presence of the wrapper at each. -/
def run (state : State) (wrappers : List Bool) : State := wrappers.foldl tick state

end UnsubscribeMarketingEmailInitializer

/-! ## The MathJax loader (`mathjax_include.js`) -/

namespace MathjaxInclude

/-- A configuration object assigned to `window.MathJax`. -/
structure Config where
  menuSettings : List (String × Bool)
  deriving DecidableEq, Repr

/-- The script element the loader makes. -/
structure ScriptElement where
  src : String
  onload : Bool
  deriving DecidableEq, Repr

/-- The page as the loader sees it: `window.MathJax` (`none` when `typeof
MathJax` is `undefined`) and the script elements appended to the body by the
loader. -/
structure Page where
  MathJax : Option Config
  appended : List ScriptElement
  deriving DecidableEq, Repr

/-- The address of the vendor script. -/
def vendorSrc : String :=
  "https://cdnjs.cloudflare.com/ajax/libs/mathjax/2.7.1/MathJax.js?config=TeX-MML-AM_HTMLorMML-full"

/-- The first statement of the branch: the fast preview setting. -/
def fastPreview (disableFastPreview : Bool) (page : Page) : Page :=
  if disableFastPreview then
    { page with MathJax := some { menuSettings := [("CHTMLpreview", false)] } }
  else page

/-- The whole script; `disableFastPreview` is its first variable. -/
def mathjax_include (disableFastPreview : Bool) (page : Page) : Page :=
  if page.MathJax = none then
    let page1 := fastPreview disableFastPreview page
    let vendorScript : ScriptElement := { src := "", onload := true }
    let page2 :=
      { page1 with
        MathJax :=
          some { menuSettings := [("collapsible", true), ("autocollapse", true), ("explorer", true)] } }
    let vendorScript := { vendorScript with src := vendorSrc }
    { page2 with appended := page2.appended ++ [vendorScript] }
  else page

end MathjaxInclude

/-! ## Properties of the login view -/

namespace LoginView

open FormView Sample

/-! ### Helper lemmas -/

theorem interpolate_li (msg : String) :
    StringUtils.interpolate "<li>{msg}</li>" [("msg", msg)] = "<li>" ++ msg ++ "</li>" := by
  apply String.ext
  simp [StringUtils.interpolate, Placeholder.replaceAll, Placeholder.matchAt,
    Placeholder.dropLiteral, Placeholder.param, Placeholder.isWordChar, List.lookup]

set_option maxRecDepth 100000 in
theorem sprintf_authWarning (cp pn : String) :
    Underscore.sprintf ("You have successfully signed into %(currentProvider)s, but your %(currentProvider)s" ++
      " account does not have a linked %(platformName)s account. To link your accounts," ++
      " sign in now using your %(platformName)s password.")
      [("currentProvider", cp), ("platformName", pn)]
    = "You have successfully signed into " ++ cp ++ ", but your " ++ cp ++
      " account does not have a linked " ++ pn ++ " account. To link your accounts," ++
      " sign in now using your " ++ pn ++ " password." := by
  apply String.ext
  simp [Underscore.sprintf, Placeholder.replaceAll, Placeholder.matchAt, Placeholder.dropLiteral,
    Placeholder.param, Placeholder.isWordChar, List.lookup]

theorem saveError_calls (this : View) (error : XhrError) :
    (saveError this error).2 =
      [.clearFormFeedbackItems ".js-password-reset-success"] ++
      (if error.status = 403 ∧ error.responseText = "third-party-auth" ∧ this.currentProvider ≠ "" then
        if this.hideAuthWarnings = true then []
        else [.clearFormErrors, .clearFormFeedbackItems ".js-auth-warning",
              .renderFormFeedback .formStatusTpl ⟨"js-auth-warning", none, authWarningMessage this⟩]
      else
        [.renderErrors (this.gettext "We couldn't sign you in.")
          ["<li>" ++
            (if error.status = 0 then
              this.gettext "An error has occurred. Check your Internet connection and try again."
            else if error.status = 500 then
              this.gettext "An error has occurred. Try refreshing the page, or check your Internet connection."
            else error.responseText) ++ "</li>"]]) ++
      [.toggleDisableButton false] := by
  have h1 : "." ++ passwordResetSuccessJsHook = ".js-password-reset-success" := by decide
  have h2 : "." ++ authWarningJsHook = ".js-auth-warning" := by decide
  have h3 : authWarningJsHook = "js-auth-warning" := rfl
  simp only [saveError, clearPasswordResetSuccess, renderAuthWarning, clearAuthWarning,
    defaultFormErrorsTitle, interpolate_li, h1, h2, h3, authWarningMessage]
  split_ifs <;> simp_all

/-! ### Error handling of the login form -/

/-- C1 (counterexample): a 403 response with body `third-party-auth`, received
by a view that has a current provider but whose page data sets
`hideAuthWarnings`, renders no auth warning: the handler only clears the
password-reset success item and re-enables the button. -/
theorem saveError_linking_hidden_renders_no_warning :
    linkError.status = 403 ∧ linkError.responseText = "third-party-auth" ∧
    hiddenView.currentProvider ≠ "" ∧
    authWarningsRendered (saveError hiddenView linkError).2 = [] ∧
    (saveError hiddenView linkError).2 =
      [.clearFormFeedbackItems ".js-password-reset-success", .toggleDisableButton false] := by
  decide

/-- C1 (amended): for a 403 response with body `third-party-auth` and a view
with a non-empty `currentProvider`, the generic error is never rendered; and
when `hideAuthWarnings` is not set, the handler clears the form errors and
any earlier auth warning and renders exactly one status item with hook
`js-auth-warning`, whose message (under the untranslated catalog) names
`currentProvider` and `platformName`; when `hideAuthWarnings` is set, no
auth warning is rendered. -/
theorem saveError_linking_renders_warning (this : View) (error : XhrError)
    (hstatus : error.status = 403) (hbody : error.responseText = "third-party-auth")
    (hprovider : this.currentProvider ≠ "") :
    renderErrorsCalls (saveError this error).2 = [] ∧
    (this.hideAuthWarnings = false →
      (saveError this error).2 =
        [.clearFormFeedbackItems ".js-password-reset-success",
         .clearFormErrors,
         .clearFormFeedbackItems ".js-auth-warning",
         .renderFormFeedback .formStatusTpl ⟨"js-auth-warning", none, authWarningMessage this⟩,
         .toggleDisableButton false] ∧
      authWarningsRendered (saveError this error).2 =
        [⟨"js-auth-warning", none, authWarningMessage this⟩]) ∧
    (this.hideAuthWarnings = true → authWarningsRendered (saveError this error).2 = []) ∧
    (this.gettext ("You have successfully signed into %(currentProvider)s, but your %(currentProvider)s" ++
        " account does not have a linked %(platformName)s account. To link your accounts," ++
        " sign in now using your %(platformName)s password.") =
      "You have successfully signed into %(currentProvider)s, but your %(currentProvider)s" ++
        " account does not have a linked %(platformName)s account. To link your accounts," ++
        " sign in now using your %(platformName)s password." →
      authWarningMessage this =
        "You have successfully signed into " ++ this.currentProvider ++ ", but your " ++
        this.currentProvider ++ " account does not have a linked " ++ this.platformName ++
        " account. To link your accounts," ++ " sign in now using your " ++ this.platformName ++
        " password.") := by
  rw [saveError_calls]
  refine ⟨?_, ?_, ?_, ?_⟩
  · cases hh : this.hideAuthWarnings <;>
      simp [hstatus, hbody, hprovider, renderErrorsCalls]
  · intro hh
    simp [hstatus, hbody, hprovider, hh, authWarningsRendered, authWarningJsHook]
  · intro hh
    simp [hstatus, hbody, hprovider, hh, authWarningsRendered]
  · intro hg
    rw [authWarningMessage, hg, sprintf_authWarning]

/-- C1 (witness): the amended statement at the sample view with the warnings
shown. -/
theorem saveError_linking_renders_warning_witness :
    linkError.status = 403 ∧ linkError.responseText = "third-party-auth" ∧
    providerView.currentProvider ≠ "" ∧
    renderErrorsCalls (saveError providerView linkError).2 = [] ∧
    authWarningsRendered (saveError providerView linkError).2 =
      [⟨"js-auth-warning", none,
        "You have successfully signed into Google, but your Google account does not have a linked Edraak account. To link your accounts, sign in now using your Edraak password."⟩] := by
  have h := saveError_linking_renders_warning providerView linkError rfl rfl (by decide)
  refine ⟨rfl, rfl, by decide, h.1, ?_⟩
  rw [(h.2.1 rfl).2, h.2.2.2 rfl]
  rfl

/-- C2: a 403 response whose body is not `third-party-auth`, or one received
by a view without a current provider, takes the generic error path: the one
`renderErrors` call has the default title (the catalog entry of
`We couldn't sign you in.`) and the one-element error list, and no auth
warning is rendered. -/
theorem saveError_403_generic (this : View) (error : XhrError)
    (hstatus : error.status = 403)
    (hgeneric : error.responseText ≠ "third-party-auth" ∨ this.currentProvider = "") :
    (saveError this error).2 =
      [.clearFormFeedbackItems ".js-password-reset-success",
       .renderErrors (this.gettext "We couldn't sign you in.")
         ["<li>" ++ error.responseText ++ "</li>"],
       .toggleDisableButton false] ∧
    renderErrorsCalls (saveError this error).2 =
      [(defaultFormErrorsTitle this, ["<li>" ++ error.responseText ++ "</li>"])] ∧
    authWarningsRendered (saveError this error).2 = [] := by
  have hcond : ¬ (error.status = 403 ∧ error.responseText = "third-party-auth" ∧
      this.currentProvider ≠ "") := by
    rintro ⟨_, hb, hp⟩
    rcases hgeneric with h | h
    · exact h hb
    · exact hp h
  rw [saveError_calls, if_neg hcond]
  simp [hstatus, renderErrorsCalls, authWarningsRendered, defaultFormErrorsTitle]

/-- C2 (witness): a 403 with the marker body at a view without a provider,
under the untranslated catalog. -/
theorem saveError_403_generic_witness :
    linkError.status = 403 ∧
    (linkError.responseText ≠ "third-party-auth" ∨ plainView.currentProvider = "") ∧
    renderErrorsCalls (saveError plainView linkError).2 =
      [("We couldn't sign you in.", ["<li>third-party-auth</li>"])] ∧
    authWarningsRendered (saveError plainView linkError).2 = [] := by
  have h := saveError_403_generic plainView linkError rfl (Or.inr rfl)
  exact ⟨rfl, Or.inr rfl, h.2.1, h.2.2⟩

/-- C3: for a status other than 0 and 500, off the auth-warning branch, the
error list passed to `renderErrors` (and stored in `errors`) is exactly the
single item `<li>` + `responseText` + `</li>`. -/
theorem saveError_other_status_shows_body (this : View) (error : XhrError)
    (h0 : error.status ≠ 0) (h500 : error.status ≠ 500)
    (hbranch : ¬ (error.status = 403 ∧ error.responseText = "third-party-auth" ∧
      this.currentProvider ≠ "")) :
    renderErrorsCalls (saveError this error).2 =
      [(defaultFormErrorsTitle this, ["<li>" ++ error.responseText ++ "</li>"])] ∧
    (saveError this error).1.errors = ["<li>" ++ error.responseText ++ "</li>"] := by
  constructor
  · rw [saveError_calls, if_neg hbranch]
    simp [h0, h500, renderErrorsCalls, defaultFormErrorsTitle]
  · simp [saveError, h0, h500, interpolate_li]

/-- C3 (witness): a 400 response with a body. -/
theorem saveError_other_status_shows_body_witness :
    (400 : Nat) ≠ 0 ∧ (400 : Nat) ≠ 500 ∧
    renderErrorsCalls (saveError providerView ⟨400, "Email or password is incorrect."⟩).2 =
      [("We couldn't sign you in.", ["<li>Email or password is incorrect.</li>"])] ∧
    (saveError providerView ⟨400, "Email or password is incorrect."⟩).1.errors =
      ["<li>Email or password is incorrect.</li>"] := by
  have h := saveError_other_status_shows_body providerView ⟨400, "Email or password is incorrect."⟩
    (by decide) (by decide) (by decide)
  exact ⟨by decide, by decide, h.1, h.2⟩

/-- C4: network and server failures are classified by status alone: status 0
shows the fixed connectivity message, status 500 the fixed server message, and
two errors with the same status in {0, 500} produce the same calls (title and
error list included) and the same `errors`, whatever their bodies. -/
theorem saveError_status_only (this : View) (e1 e2 : XhrError)
    (hsame : e1.status = e2.status) (hclass : e1.status = 0 ∨ e1.status = 500) :
    (e1.status = 0 →
      renderErrorsCalls (saveError this e1).2 =
        [(defaultFormErrorsTitle this,
          ["<li>" ++ this.gettext "An error has occurred. Check your Internet connection and try again." ++
            "</li>"])]) ∧
    (e1.status = 500 →
      renderErrorsCalls (saveError this e1).2 =
        [(defaultFormErrorsTitle this,
          ["<li>" ++
            this.gettext "An error has occurred. Try refreshing the page, or check your Internet connection." ++
            "</li>"])]) ∧
    (saveError this e1).2 = (saveError this e2).2 ∧
    renderErrorsCalls (saveError this e1).2 = renderErrorsCalls (saveError this e2).2 ∧
    (saveError this e1).1.errors = (saveError this e2).1.errors := by
  have heq : (saveError this e1).2 = (saveError this e2).2 := by
    rw [saveError_calls, saveError_calls]
    rcases hclass with h | h <;> simp [← hsame, h]
  refine ⟨?_, ?_, heq, by rw [heq], ?_⟩
  · intro h
    rw [saveError_calls]
    simp [h, renderErrorsCalls, defaultFormErrorsTitle]
  · intro h
    rw [saveError_calls]
    simp [h, renderErrorsCalls, defaultFormErrorsTitle]
  · rcases hclass with h | h <;> simp [saveError, ← hsame, h]

/-- C4 (witness): two status-500 responses with different bodies, under the
untranslated catalog. -/
theorem saveError_status_only_witness :
    renderErrorsCalls (saveError providerView ⟨500, "<html>stack trace</html>"⟩).2 =
      [("We couldn't sign you in.",
        ["<li>An error has occurred. Try refreshing the page, or check your Internet connection.</li>"])] ∧
    (saveError providerView ⟨500, "<html>stack trace</html>"⟩).2 =
      (saveError providerView ⟨500, "third-party-auth"⟩).2 := by
  have h := saveError_status_only providerView ⟨500, "<html>stack trace</html>"⟩
    ⟨500, "third-party-auth"⟩ rfl (Or.inr rfl)
  exact ⟨h.2.1 rfl, h.2.2.1⟩

/-- C5: on every path of `saveError` (any status, any body, any view) the
last call is `toggleDisableButton(false)`, so the submit button is enabled
on the page after the handler has run. -/
theorem saveError_reenables_submit (this : View) (error : XhrError) :
    (saveError this error).2.getLast? = some (.toggleDisableButton false) ∧
    ∀ page : Page, (run this (saveError this error).2 page).submitDisabled = false := by
  constructor
  · rw [saveError_calls, List.getLast?_append]
    simp
  · intro page
    rw [saveError_calls, run, List.foldl_append]
    simp [step, toggleDisableButton]

/-! ### The success path of the login form -/

theorem preRender_listeners (this : View) (data : Data) :
    (preRender this data).2 =
      [⟨.model, "sync", .saveSuccess⟩, ⟨.resetModel, "sync", .resetEmail⟩,
       ⟨.accountRecoveryModel, "sync", .resetEmail⟩] := rfl

theorem saveSuccess_calls (this : View) :
    saveSuccess this =
      [.trigger "auth-complete", .clearFormFeedbackItems ".js-password-reset-success"] := by
  simp only [saveSuccess, clearPasswordResetSuccess]
  decide

theorem dot_append_ne (a b : String) : ("." ++ a != "." ++ b) = (a != b) := by
  have h : ("." ++ a = "." ++ b) ↔ a = b := by
    constructor
    · intro h
      have h2 := congrArg String.data h
      simp only [String.data_append, List.append_cancel_left_eq] at h2
      exact String.ext h2
    · intro h; rw [h]
  by_cases hab : a = b
  · simp [hab]
  · have : ¬ ("." ++ a = "." ++ b) := fun hh => hab (h.mp hh)
    simp [bne, hab, this]

theorem clearFormFeedbackItems_formFeedback (hook : String) (page : Page) :
    (FormView.clearFormFeedbackItems ("." ++ hook) page).formFeedback =
      page.formFeedback.filter (fun item => item.context.jsHook != hook) := by
  simp only [FormView.clearFormFeedbackItems, dot_append_ne]

theorem callbacks_model_sync (this : View) (data : Data) :
    callbacks (preRender this data).2 .model "sync" = [.saveSuccess] := by
  rw [preRender_listeners]; decide

theorem run_saveSuccess (this : View) (page : Page) :
    run this (saveSuccess this) page =
      { page with
        triggered := page.triggered ++ ["auth-complete"]
        formFeedback :=
          page.formFeedback.filter (fun item => item.context.jsHook != "js-password-reset-success") } := by
  have h := clearFormFeedbackItems_formFeedback "js-password-reset-success"
    { page with triggered := page.triggered ++ ["auth-complete"] }
  have hdot : "." ++ "js-password-reset-success" = ".js-password-reset-success" := by decide
  rw [hdot] at h
  rw [saveSuccess_calls]
  simp only [run, List.foldl, step]
  simp only [FormView.clearFormFeedbackItems] at h ⊢
  rw [h]

theorem deliver_model_sync (this : View) (data : Data) (page : Page) :
    deliver this (preRender this data).2 .model "sync" page = run this (saveSuccess this) page := by
  rw [deliver, callbacks_model_sync]
  rfl

/-- C6 (counterexample): the submit button disabled for the request in flight
is still disabled after the login model's `sync` event has been handled:
`saveSuccess` makes no `toggleDisableButton` call. -/
theorem saveSuccess_leaves_submit_disabled :
    pendingPage.submitDisabled = true ∧
    (∀ disabled, Effect.toggleDisableButton disabled ∉ saveSuccess providerView) ∧
    (run providerView (saveSuccess providerView) pendingPage).submitDisabled = true ∧
    (deliver providerView (preRender providerView providerData).2 .model "sync"
      pendingPage).submitDisabled = true := by
  refine ⟨rfl, ?_, ?_, ?_⟩
  · intro disabled
    rw [saveSuccess_calls]
    simp
  · rw [run_saveSuccess]
    rfl
  · rw [deliver_model_sync, run_saveSuccess]
    rfl

/-- C6 (amended): handling the login model's `sync` event leaves the submit
control as it was: `saveSuccess` makes no `toggleDisableButton` call, so a
button disabled for the request in flight stays disabled. -/
theorem saveSuccess_keeps_submit_state (this : View) (data : Data) (page : Page) :
    (∀ disabled, Effect.toggleDisableButton disabled ∉ saveSuccess this) ∧
    (run this (saveSuccess this) page).submitDisabled = page.submitDisabled ∧
    (deliver this (preRender this data).2 .model "sync" page).submitDisabled =
      page.submitDisabled := by
  refine ⟨?_, ?_, ?_⟩
  · intro disabled
    rw [saveSuccess_calls]
    simp
  · rw [run_saveSuccess]
  · rw [deliver_model_sync, run_saveSuccess]

/-- C7: each `sync` event of the login model runs `saveSuccess` exactly once,
which triggers `auth-complete` exactly once and renders neither an error nor
an auth warning (it makes no render call at all). -/
theorem saveSuccess_auth_complete_once (this : View) (data : Data) (page : Page) :
    callbacks (preRender this data).2 .model "sync" = [.saveSuccess] ∧
    (saveSuccess this).count (.trigger "auth-complete") = 1 ∧
    renderErrorsCalls (saveSuccess this) = [] ∧
    authWarningsRendered (saveSuccess this) = [] ∧
    (∀ template context, Effect.renderFormFeedback template context ∉ saveSuccess this) ∧
    (deliver this (preRender this data).2 .model "sync" page).triggered =
      page.triggered ++ ["auth-complete"] := by
  refine ⟨callbacks_model_sync this data, ?_, ?_, ?_, ?_, ?_⟩
  · rw [saveSuccess_calls]; decide
  · rw [saveSuccess_calls]; rfl
  · rw [saveSuccess_calls]; rfl
  · intro template context
    rw [saveSuccess_calls]
    simp
  · rw [deliver_model_sync, run_saveSuccess]

/-- C8 (counterexample): the error item left by a refused attempt is still in
the feedback region after `saveSuccess`. -/
theorem saveSuccess_keeps_error_item :
    visible providerView failedPage .error = true ∧
    visible providerView (run providerView (saveSuccess providerView) failedPage) .error = true ∧
    (run providerView (saveSuccess providerView) failedPage).formFeedback =
      [⟨.formErrorsTpl, ⟨"js-form-errors", some "We couldn't sign you in.",
        "<li>Email or password is incorrect.</li>"⟩⟩] := by
  decide

/-- C8 (amended): on the login success path only the password-reset success
items are cleared: after `saveSuccess` the feedback region holds exactly the
earlier items whose hook is not `js-password-reset-success`, so no success
item is visible and every other item, error items included, is still
there. -/
theorem saveSuccess_clears_only_reset_success (this : View) (page : Page) :
    (run this (saveSuccess this) page).formFeedback =
      page.formFeedback.filter (fun item => item.context.jsHook != passwordResetSuccessJsHook) ∧
    visible this (run this (saveSuccess this) page) .success = false ∧
    (∀ item ∈ page.formFeedback, item.context.jsHook ≠ passwordResetSuccessJsHook →
      item ∈ (run this (saveSuccess this) page).formFeedback) := by
  rw [run_saveSuccess]
  refine ⟨rfl, ?_, ?_⟩
  · simp [visible, hasHook, Kind.jsHook, passwordResetSuccessJsHook]
  · intro item hmem hne
    simp only [List.mem_filter]
    exact ⟨hmem, by simpa [passwordResetSuccessJsHook] using hne⟩

/-! ### The feedback region after a submit cycle -/

theorem hasHook_filter (l : List FeedbackItem) (hook k : String) :
    hasHook (l.filter (fun item => item.context.jsHook != hook)) k = (hasHook l k && (k != hook)) := by
  rw [Bool.eq_iff_iff]
  simp only [hasHook, List.any_eq_true, List.mem_filter, Bool.and_eq_true, bne_iff_ne, beq_iff_eq,
    ne_eq]
  constructor
  · rintro ⟨x, ⟨hx, hne⟩, hk⟩
    exact ⟨⟨x, hx, hk⟩, hk ▸ hne⟩
  · rintro ⟨⟨x, hx, hk⟩, hne⟩
    exact ⟨x, ⟨hx, hk ▸ hne⟩, hk⟩

theorem hasHook_cons (item : FeedbackItem) (l : List FeedbackItem) (k : String) :
    hasHook (item :: l) k = (item.context.jsHook == k || hasHook l k) := by
  simp only [hasHook, List.any_cons]

theorem visibleKinds_eq (this : View) (page : Page) :
    visibleKinds this page =
      (if visible this page .success then [Kind.success] else []) ++
      ((if visible this page .error then [Kind.error] else []) ++
      (if visible this page .authWarning then [Kind.authWarning] else [])) := by
  simp only [visibleKinds, List.filter]
  cases visible this page .success <;> cases visible this page .error <;>
    cases visible this page .authWarning <;> rfl

theorem query_success (hook : String) :
    ("." ++ hook != ".js-password-reset-success") = (hook != "js-password-reset-success") :=
  dot_append_ne hook "js-password-reset-success"

theorem query_warning (hook : String) :
    ("." ++ hook != ".js-auth-warning") = (hook != "js-auth-warning") :=
  dot_append_ne hook "js-auth-warning"

theorem saveError_errors (this : View) (error : XhrError) :
    (saveError this error).1.errors =
      ["<li>" ++
        (if error.status = 0 then
          this.gettext "An error has occurred. Check your Internet connection and try again."
        else if error.status = 500 then
          this.gettext "An error has occurred. Try refreshing the page, or check your Internet connection."
        else error.responseText) ++ "</li>"] := by
  simp only [saveError, interpolate_li]

theorem run_saveError_formFeedback (this : View) (error : XhrError) (page : Page) :
    (run this (saveError this error).2 page).formFeedback =
      if error.status = 403 ∧ error.responseText = "third-party-auth" ∧ this.currentProvider ≠ "" then
        if this.hideAuthWarnings = true then
          page.formFeedback.filter (fun item => item.context.jsHook != "js-password-reset-success")
        else
          ⟨.formStatusTpl, ⟨"js-auth-warning", none, authWarningMessage this⟩⟩ ::
            (((page.formFeedback.filter (fun item => item.context.jsHook != "js-password-reset-success")).filter
              (fun item => item.context.jsHook != this.formErrorsJsHook)).filter
              (fun item => item.context.jsHook != "js-auth-warning"))
      else
        ⟨.formErrorsTpl, ⟨this.formErrorsJsHook, some (this.gettext "We couldn't sign you in."),
          String.join (saveError this error).1.errors⟩⟩ ::
          ((page.formFeedback.filter (fun item => item.context.jsHook != "js-password-reset-success")).filter
            (fun item => item.context.jsHook != this.formErrorsJsHook)) := by
  rw [saveError_calls, saveError_errors]
  split_ifs with hb hh <;>
    simp only [run, List.foldl, List.cons_append, List.nil_append, List.append_nil, step,
      FormView.clearFormFeedbackItems, FormView.clearFormErrors, FormView.renderFormFeedback,
      FormView.renderErrors, FormView.toggleDisableButton, query_success, query_warning,
      dot_append_ne]

theorem visible_after_saveSuccess (this : View) (page : Page) (kind : Kind) :
    visible this (run this (saveSuccess this) page) kind =
      (visible this page kind && (kind.jsHook this != "js-password-reset-success")) := by
  rw [run_saveSuccess]
  simp only [visible, hasHook_filter]

theorem visible_after_saveError (this : View) (error : XhrError) (page : Page) (kind : Kind) :
    visible this (run this (saveError this error).2 page) kind =
      if error.status = 403 ∧ error.responseText = "third-party-auth" ∧ this.currentProvider ≠ "" then
        if this.hideAuthWarnings = true then
          (visible this page kind && (kind.jsHook this != "js-password-reset-success"))
        else
          ("js-auth-warning" == kind.jsHook this ||
            (visible this page kind && (kind.jsHook this != "js-password-reset-success") &&
              (kind.jsHook this != this.formErrorsJsHook) && (kind.jsHook this != "js-auth-warning")))
      else
        (this.formErrorsJsHook == kind.jsHook this ||
          (visible this page kind && (kind.jsHook this != "js-password-reset-success") &&
            (kind.jsHook this != this.formErrorsJsHook))) := by
  simp only [visible, run_saveError_formFeedback]
  split_ifs <;> simp only [hasHook_cons, hasHook_filter]

/-- C9 (counterexample): after `saveSuccess` on a page with an empty feedback
region none of the three kinds is visible, and after a linking warning
followed by a refused attempt two kinds (error and auth warning) are visible
together. -/
theorem feedback_not_exactly_one_kind :
    visibleKinds providerView
      (deliver providerView (preRender providerView providerData).2 .model "sync" pendingPage) = [] ∧
    visibleKinds hiddenView (run hiddenView (saveError hiddenView linkError).2 pendingPage) = [] ∧
    visibleKinds providerView
      (run providerView (saveError providerView ⟨400, "Email or password is incorrect."⟩).2
        (run providerView (saveError providerView linkError).2 pendingPage)) =
      [.error, .authWarning] := by
  decide

/-- C9 (amended): after a completed submit cycle no password-reset success
item is visible.  After `saveError` off the linking branch the error kind is
visible, and it is the only visible kind when no auth warning was shown
before; after `saveError` on the linking branch with `hideAuthWarnings` unset
the auth warning is the only visible kind.  `saveSuccess`, and `saveError` on
the linking branch with `hideAuthWarnings` set, render nothing and leave the
visibility of errors and auth warnings as it was. -/
theorem feedback_after_submit_cycle (this : View) (error : XhrError) (page : Page)
    (hs : this.formErrorsJsHook ≠ passwordResetSuccessJsHook)
    (hw : this.formErrorsJsHook ≠ authWarningJsHook) :
    (visible this (run this (saveSuccess this) page) .success = false ∧
      visible this (run this (saveSuccess this) page) .error = visible this page .error ∧
      visible this (run this (saveSuccess this) page) .authWarning =
        visible this page .authWarning) ∧
    visible this (run this (saveError this error).2 page) .success = false ∧
    (¬ (error.status = 403 ∧ error.responseText = "third-party-auth" ∧ this.currentProvider ≠ "") →
      visible this (run this (saveError this error).2 page) .error = true ∧
      visible this (run this (saveError this error).2 page) .authWarning =
        visible this page .authWarning ∧
      (visible this page .authWarning = false →
        visibleKinds this (run this (saveError this error).2 page) = [.error])) ∧
    (error.status = 403 ∧ error.responseText = "third-party-auth" ∧ this.currentProvider ≠ "" →
      (this.hideAuthWarnings = false →
        visibleKinds this (run this (saveError this error).2 page) = [.authWarning]) ∧
      (this.hideAuthWarnings = true →
        visible this (run this (saveError this error).2 page) .error = visible this page .error ∧
        visible this (run this (saveError this error).2 page) .authWarning =
          visible this page .authWarning)) := by
  have e1 : (this.formErrorsJsHook != "js-password-reset-success") = true := by
    simpa [passwordResetSuccessJsHook] using hs
  have e2 : (this.formErrorsJsHook != "js-auth-warning") = true := by
    simpa [authWarningJsHook] using hw
  have e3 : (this.formErrorsJsHook == "js-password-reset-success") = false := by
    simpa [passwordResetSuccessJsHook] using hs
  have e4 : (this.formErrorsJsHook == "js-auth-warning") = false := by
    simpa [authWarningJsHook] using hw
  have e6 : ¬ ("js-auth-warning" = this.formErrorsJsHook) := fun h => hw h.symm
  have e5 : ("js-auth-warning" == this.formErrorsJsHook) = false := by
    simpa using e6
  have d1 : ("js-auth-warning" != "js-password-reset-success") = true := by decide
  have d2 : ("js-auth-warning" == "js-password-reset-success") = false := by decide
  have d3 : ("js-password-reset-success" != "js-password-reset-success") = false := by decide
  have k1 : Kind.jsHook this .success = "js-password-reset-success" := rfl
  have k2 : Kind.jsHook this .error = this.formErrorsJsHook := rfl
  have k3 : Kind.jsHook this .authWarning = "js-auth-warning" := rfl
  refine ⟨?_, ?_, ?_, ?_⟩
  · refine ⟨?_, ?_, ?_⟩
    · rw [visible_after_saveSuccess, k1, d3, Bool.and_false]
    · rw [visible_after_saveSuccess, k2, e1, Bool.and_true]
    · rw [visible_after_saveSuccess, k3, d1, Bool.and_true]
  · rw [visible_after_saveError]
    split_ifs <;> simp [k1, e3, d2]
  · intro hb
    have v1 : visible this (run this (saveError this error).2 page) .success = false := by
      rw [visible_after_saveError, if_neg hb]; simp [k1, e3]
    have v2 : visible this (run this (saveError this error).2 page) .error = true := by
      rw [visible_after_saveError, if_neg hb]; simp [k2]
    have v3 : visible this (run this (saveError this error).2 page) .authWarning =
        visible this page .authWarning := by
      rw [visible_after_saveError, if_neg hb]; simp [k3, e4, d1, e6]
    refine ⟨v2, v3, ?_⟩
    intro h
    rw [visibleKinds_eq, v1, v2, v3, h]
    rfl
  · intro hb
    constructor
    · intro hh
      have v1 : visible this (run this (saveError this error).2 page) .success = false := by
        rw [visible_after_saveError, if_pos hb]; simp [hh, k1, d2]
      have v2 : visible this (run this (saveError this error).2 page) .error = false := by
        rw [visible_after_saveError, if_pos hb]; simp [hh, k2, e5]
      have v3 : visible this (run this (saveError this error).2 page) .authWarning = true := by
        rw [visible_after_saveError, if_pos hb]; simp [hh, k3]
      rw [visibleKinds_eq, v1, v2, v3]
      rfl
    · intro hh
      constructor
      · rw [visible_after_saveError, if_pos hb]; simp [hh, k2, e1]
      · rw [visible_after_saveError, if_pos hb]; simp [hh, k3, d1]

/-- C9 (witness): at the sample view, a refused attempt on a page without
feedback shows the error only, and a linking response after it shows the
auth warning only. -/
theorem feedback_after_submit_cycle_witness :
    providerView.formErrorsJsHook ≠ passwordResetSuccessJsHook ∧
    providerView.formErrorsJsHook ≠ authWarningJsHook ∧
    visibleKinds providerView
      (run providerView (saveError providerView ⟨400, "Email or password is incorrect."⟩).2
        pendingPage) = [.error] ∧
    visibleKinds providerView (run providerView (saveError providerView linkError).2 failedPage) =
      [.authWarning] := by
  have h400 := feedback_after_submit_cycle providerView ⟨400, "Email or password is incorrect."⟩
    pendingPage (by decide) (by decide)
  have hlink := feedback_after_submit_cycle providerView linkError failedPage (by decide) (by decide)
  exact ⟨by decide, by decide, (h400.2.2.1 (by decide)).2.2 (by decide),
    (hlink.2.2.2 (by decide)).1 rfl⟩

/-! ### Password reset and account recovery -/

theorem interpolate_anchor (url : String) :
    StringUtils.interpolate "<a href=\"{passwordResetSupportUrl}\">" [("passwordResetSupportUrl", url)] =
      "<a href=\"" ++ url ++ "\">" := by
  apply String.ext
  simp [StringUtils.interpolate, Placeholder.replaceAll, Placeholder.matchAt,
    Placeholder.dropLiteral, Placeholder.param, Placeholder.isWordChar, List.lookup]

set_option maxRecDepth 1000000 in
theorem escape_resetFormat :
    Underscore.escape ("{paragraphStart}You entered {boldStart}{email}{boldEnd}. If this email address is associated with your {platform_name} account, we will send a message with password reset instructions to this email address.{paragraphEnd}" ++
      "{paragraphStart}If you do not receive a password reset message, verify that you entered the correct email address, or check your spam folder.{paragraphEnd}" ++
      "{paragraphStart}If you need further assistance, {anchorStart}contact technical support{anchorEnd}.{paragraphEnd}") =
    "{paragraphStart}You entered {boldStart}{email}{boldEnd}. If this email address is associated with your {platform_name} account, we will send a message with password reset instructions to this email address.{paragraphEnd}{paragraphStart}If you do not receive a password reset message, verify that you entered the correct email address, or check your spam folder.{paragraphEnd}{paragraphStart}If you need further assistance, {anchorStart}contact technical support{anchorEnd}.{paragraphEnd}" := by
  decide

set_option maxRecDepth 1000000 in
set_option maxHeartbeats 4000000 in
theorem interpolate_resetFormat (email platform anchor : String) :
    StringUtils.interpolate "{paragraphStart}You entered {boldStart}{email}{boldEnd}. If this email address is associated with your {platform_name} account, we will send a message with password reset instructions to this email address.{paragraphEnd}{paragraphStart}If you do not receive a password reset message, verify that you entered the correct email address, or check your spam folder.{paragraphEnd}{paragraphStart}If you need further assistance, {anchorStart}contact technical support{anchorEnd}.{paragraphEnd}"
      [("boldStart", "<b>"), ("boldEnd", "</b>"), ("paragraphStart", "<p>"), ("paragraphEnd", "</p>"),
       ("email", email), ("platform_name", platform), ("anchorStart", anchor), ("anchorEnd", "</a>")] =
    "<p>You entered <b>" ++ email ++ "</b>. If this email address is associated with your " ++ platform ++
      " account, we will send a message with password reset instructions to this email address.</p>" ++
      "<p>If you do not receive a password reset message, verify that you entered the correct email address, or check your spam folder.</p>" ++
      "<p>If you need further assistance, " ++ anchor ++ "contact technical support</a>.</p>" := by
  apply String.ext
  simp [StringUtils.interpolate, Placeholder.replaceAll, Placeholder.matchAt,
    Placeholder.dropLiteral, Placeholder.param, Placeholder.isWordChar, List.lookup]

theorem resetEmail_calls (this : View) (email : String) :
    resetEmail this email =
      [.clearFormErrors,
       .clearFormFeedbackItems ".js-password-reset-success",
       .renderFormFeedback .formSuccessTpl
         ⟨"js-password-reset-success", some (this.gettext "Check Your Email"),
          successMessageHtml this email⟩] := by
  have h1 : "." ++ passwordResetSuccessJsHook = ".js-password-reset-success" := by decide
  simp only [resetEmail, clearPasswordResetSuccess, h1, passwordResetSuccessJsHook]
  rfl

theorem run_resetEmail_formFeedback (this : View) (email : String) (page : Page) :
    (run this (resetEmail this email) page).formFeedback =
      ⟨.formSuccessTpl, ⟨"js-password-reset-success", some (this.gettext "Check Your Email"),
        successMessageHtml this email⟩⟩ ::
        ((page.formFeedback.filter (fun item => item.context.jsHook != this.formErrorsJsHook)).filter
          (fun item => item.context.jsHook != "js-password-reset-success")) := by
  rw [resetEmail_calls]
  simp only [run, List.foldl, step, FormView.clearFormFeedbackItems, FormView.clearFormErrors,
    FormView.renderFormFeedback, query_success, dot_append_ne]

theorem callbacks_reset_sync (this : View) (data : Data) :
    callbacks (preRender this data).2 .resetModel "sync" = [.resetEmail] ∧
    callbacks (preRender this data).2 .accountRecoveryModel "sync" = [.resetEmail] := by
  rw [preRender_listeners]; decide

theorem escape_plain (text : String)
    (hplain : ∀ c ∈ text.data, c ∉ ['&', '<', '>', '"', '\x27', '\x60']) :
    Underscore.escape text = text := by
  apply String.ext
  simp only [Underscore.escape]
  suffices h : ∀ l : List Char, (∀ c ∈ l, c ∉ ['&', '<', '>', '"', '\x27', '\x60']) →
      l.flatMap Underscore.escapeChar = l from h text.data hplain
  intro l
  induction l with
  | nil => intro _; rfl
  | cons c cs ih =>
    intro hl
    have hc := hl c (List.mem_cons_self c cs)
    simp only [List.mem_cons, List.mem_singleton, not_or, List.not_mem_nil, not_false_eq_true,
      and_true] at hc
    obtain ⟨h1, h2, h3, h4, h5, h6⟩ := hc
    rw [List.flatMap_cons, ih (fun d hd => hl d (List.mem_cons_of_mem c hd))]
    simp [Underscore.escapeChar, h1, h2, h3, h4, h5, h6]

/-- C10: the password-reset model and the account-recovery model share one
success handler with the same result.  A `sync` event from either runs
`resetEmail` once; it clears the form errors and the earlier password-reset
success items and then renders one success panel with hook
`js-password-reset-success`, the title `Check Your Email` and a body built
from the email read from the reset form (HTML-escaped; unchanged when it has
none of the six special characters).  The page after delivery is the same
whichever of the two models fired. -/
theorem resetEmail_shared_by_both_models (this : View) (data : Data) (page : Page) :
    callbacks (preRender this data).2 .resetModel "sync" = [.resetEmail] ∧
    callbacks (preRender this data).2 .accountRecoveryModel "sync" = [.resetEmail] ∧
    deliver this (preRender this data).2 .resetModel "sync" page =
      deliver this (preRender this data).2 .accountRecoveryModel "sync" page ∧
    resetEmail this page.passwordResetEmail =
      [.clearFormErrors,
       .clearFormFeedbackItems ".js-password-reset-success",
       .renderFormFeedback .formSuccessTpl
         ⟨"js-password-reset-success", some (this.gettext "Check Your Email"),
          successMessageHtml this page.passwordResetEmail⟩] ∧
    (deliver this (preRender this data).2 .resetModel "sync" page).formFeedback =
      ⟨.formSuccessTpl, ⟨"js-password-reset-success", some (this.gettext "Check Your Email"),
        successMessageHtml this page.passwordResetEmail⟩⟩ ::
        ((page.formFeedback.filter (fun item => item.context.jsHook != this.formErrorsJsHook)).filter
          (fun item => item.context.jsHook != "js-password-reset-success")) ∧
    ((deliver this (preRender this data).2 .resetModel "sync" page).formFeedback.filter
      (fun item => item.context.jsHook == "js-password-reset-success")).length = 1 ∧
    (this.gettext ("{paragraphStart}You entered {boldStart}{email}{boldEnd}. If this email address is associated with your {platform_name} account, we will send a message with password reset instructions to this email address.{paragraphEnd}" ++
        "{paragraphStart}If you do not receive a password reset message, verify that you entered the correct email address, or check your spam folder.{paragraphEnd}" ++
        "{paragraphStart}If you need further assistance, {anchorStart}contact technical support{anchorEnd}.{paragraphEnd}") =
      "{paragraphStart}You entered {boldStart}{email}{boldEnd}. If this email address is associated with your {platform_name} account, we will send a message with password reset instructions to this email address.{paragraphEnd}" ++
        "{paragraphStart}If you do not receive a password reset message, verify that you entered the correct email address, or check your spam folder.{paragraphEnd}" ++
        "{paragraphStart}If you need further assistance, {anchorStart}contact technical support{anchorEnd}.{paragraphEnd}" →
      successMessageHtml this page.passwordResetEmail =
        "<p>You entered <b>" ++ Underscore.escape page.passwordResetEmail ++
          "</b>. If this email address is associated with your " ++
          Underscore.escape this.platformName ++
          " account, we will send a message with password reset instructions to this email address.</p>" ++
          "<p>If you do not receive a password reset message, verify that you entered the correct email address, or check your spam folder.</p>" ++
          "<p>If you need further assistance, " ++
          ("<a href=\"" ++ this.passwordResetSupportUrl ++ "\">") ++
          "contact technical support</a>.</p>") ∧
    ((∀ c ∈ page.passwordResetEmail.data, c ∉ ['&', '<', '>', '"', '\x27', '\x60']) →
      Underscore.escape page.passwordResetEmail = page.passwordResetEmail) := by
  have hcb := callbacks_reset_sync this data
  have hd1 : deliver this (preRender this data).2 .resetModel "sync" page =
      run this (resetEmail this page.passwordResetEmail) page := by
    rw [deliver, hcb.1]; rfl
  have hd2 : deliver this (preRender this data).2 .accountRecoveryModel "sync" page =
      run this (resetEmail this page.passwordResetEmail) page := by
    rw [deliver, hcb.2]; rfl
  refine ⟨hcb.1, hcb.2, by rw [hd1, hd2], resetEmail_calls this _, ?_, ?_, ?_, escape_plain _⟩
  · rw [hd1, run_resetEmail_formFeedback]
  · rw [hd1, run_resetEmail_formFeedback]
    simp [List.filter_cons, List.filter_filter]
    intro a _ h1 h2
    exact absurd h1 h2
  · intro hg
    simp only [successMessageHtml, HtmlUtils.interpolateHtml, HtmlUtils.ensureHtml, hg,
      escape_resetFormat, List.map, interpolate_anchor, interpolate_resetFormat]

set_option maxRecDepth 1000000 in
/-- C10 (witness): at the sample view, on a page with an earlier error, a
`sync` from either model leaves the one success panel, with the email of the
reset form in its body. -/
theorem resetEmail_shared_by_both_models_witness :
    (deliver providerView (preRender providerView providerData).2 .accountRecoveryModel "sync"
      failedPage).formFeedback =
      [⟨.formSuccessTpl, ⟨"js-password-reset-success", some "Check Your Email",
        "<p>You entered <b>learner@example.com</b>. If this email address is associated with your Edraak account, we will send a message with password reset instructions to this email address.</p><p>If you do not receive a password reset message, verify that you entered the correct email address, or check your spam folder.</p><p>If you need further assistance, <a href=\"/support/reset\">contact technical support</a>.</p>"⟩⟩] := by
  have h := resetEmail_shared_by_both_models providerView providerData failedPage
  rw [← h.2.2.1, h.2.2.2.2.1, h.2.2.2.2.2.2.1 rfl]
  decide

end LoginView

/-! ## Feedback items are replaced, not appended -/

namespace LoginView

open FormView Sample

theorem applyResetEmail_eq (this : View) (page : Page) :
    applyResetEmail this page =
      { page with
        formFeedback :=
          ⟨.formSuccessTpl, ⟨"js-password-reset-success", some (this.gettext "Check Your Email"),
            successMessageHtml this page.passwordResetEmail⟩⟩ ::
            ((page.formFeedback.filter (fun item => item.context.jsHook != this.formErrorsJsHook)).filter
              (fun item => item.context.jsHook != "js-password-reset-success")) } := by
  rw [applyResetEmail, resetEmail_calls]
  simp only [run, List.foldl, step, FormView.clearFormFeedbackItems, FormView.clearFormErrors,
    FormView.renderFormFeedback, query_success, dot_append_ne]

theorem renderAuthWarning_calls (this : View) :
    renderAuthWarning this =
      [.clearFormFeedbackItems ".js-auth-warning",
       .renderFormFeedback .formStatusTpl ⟨"js-auth-warning", none, authWarningMessage this⟩] := by
  have h2 : "." ++ authWarningJsHook = ".js-auth-warning" := by decide
  simp only [renderAuthWarning, clearAuthWarning, h2, authWarningJsHook]
  rfl

theorem applyRenderAuthWarning_eq (this : View) (page : Page) :
    applyRenderAuthWarning this page =
      { page with
        formFeedback :=
          ⟨.formStatusTpl, ⟨"js-auth-warning", none, authWarningMessage this⟩⟩ ::
            page.formFeedback.filter (fun item => item.context.jsHook != "js-auth-warning") } := by
  rw [applyRenderAuthWarning, renderAuthWarning_calls]
  simp only [run, List.foldl, step, FormView.clearFormFeedbackItems, FormView.renderFormFeedback,
    query_warning]

theorem countP_filter_ne (l : List FeedbackItem) (hook : String) :
    (l.filter (fun item => item.context.jsHook != hook)).countP
      (fun item => item.context.jsHook == hook) = 0 := by
  rw [List.countP_eq_zero]
  intro item hmem
  simp only [List.mem_filter, bne_iff_ne, ne_eq] at hmem
  simpa using hmem.2

theorem iterate_of_idempotent {α : Type} (f : α → α) (hidem : ∀ x, f (f x) = f x) (n : Nat)
    (hn : 1 ≤ n) (x : α) : f^[n] x = f x := by
  induction n with
  | zero => omega
  | succ k ih =>
    rcases Nat.eq_zero_or_pos k with hk | hk
    · subst hk; rfl
    · rw [Function.iterate_succ_apply', ih hk, hidem]

theorem applyResetEmail_idempotent (this : View) (page : Page) :
    applyResetEmail this (applyResetEmail this page) = applyResetEmail this page := by
  rw [applyResetEmail_eq this (applyResetEmail this page), applyResetEmail_eq this page]
  simp only [List.filter_cons, List.filter_filter]
  by_cases h : "js-password-reset-success" = this.formErrorsJsHook
  · simp [h]
  · simp [h]
    refine List.filter_congr ?_
    intro a _
    cases (a.context.jsHook != "js-password-reset-success") <;>
      cases (a.context.jsHook != this.formErrorsJsHook) <;> rfl

theorem applyRenderAuthWarning_idempotent (this : View) (page : Page) :
    applyRenderAuthWarning this (applyRenderAuthWarning this page) =
      applyRenderAuthWarning this page := by
  rw [applyRenderAuthWarning_eq this (applyRenderAuthWarning this page),
    applyRenderAuthWarning_eq this page]
  simp [List.filter_cons, List.filter_filter]

/-- C11: feedback messages are replaced, not appended.  From any page, running
`resetEmail` n ≥ 1 times leaves exactly one item with the password-reset
success hook, running `renderAuthWarning` n ≥ 1 times leaves exactly one item
with the auth-warning hook, and each handler is idempotent on the page: n
runs leave the page that one run leaves. -/
theorem feedback_replaced_not_appended (this : View) (page : Page) (n : Nat) (hn : 1 ≤ n) :
    countHook ((applyResetEmail this)^[n] page) passwordResetSuccessJsHook = 1 ∧
    countHook ((applyRenderAuthWarning this)^[n] page) authWarningJsHook = 1 ∧
    (applyResetEmail this)^[n] page = applyResetEmail this page ∧
    (applyRenderAuthWarning this)^[n] page = applyRenderAuthWarning this page := by
  have h1 := iterate_of_idempotent (applyResetEmail this) (applyResetEmail_idempotent this) n hn page
  have h2 := iterate_of_idempotent (applyRenderAuthWarning this)
    (applyRenderAuthWarning_idempotent this) n hn page
  refine ⟨?_, ?_, h1, h2⟩
  · rw [h1, applyResetEmail_eq]
    simp only [countHook, passwordResetSuccessJsHook, List.countP_cons, countP_filter_ne]
    simp
  · rw [h2, applyRenderAuthWarning_eq]
    simp only [countHook, authWarningJsHook, List.countP_cons, countP_filter_ne]
    simp

set_option maxRecDepth 1000000 in
/-- C11 (witness): three password-reset responses in a row, and three linking
warnings in a row, on the page left by a refused attempt. -/
theorem feedback_replaced_not_appended_witness :
    1 ≤ 3 ∧
    countHook ((applyResetEmail providerView)^[3] failedPage) "js-password-reset-success" = 1 ∧
    countHook ((applyRenderAuthWarning providerView)^[3] failedPage) "js-auth-warning" = 1 ∧
    ((applyRenderAuthWarning providerView)^[3] failedPage).formFeedback.length = 2 := by
  have h := feedback_replaced_not_appended providerView failedPage 3 (by decide)
  refine ⟨by decide, h.1, h.2.1, ?_⟩
  rw [h.2.2.2]
  decide

end LoginView

/-! ## Properties of the account deletion modal -/

namespace StudentAccountDeletionConfirmationModal

open AccountsClient

theorem settle_ok_iff (result : FetchResult) :
    (∃ response, settle result = .ok response) ↔
      ∃ response, result = .response response ∧ response.ok = true := by
  cases result with
  | response r =>
    by_cases h : r.ok = true <;> simp [settle, checkResponse, h]
  | failure m => simp [settle]

theorem deleteAccountSettled_queued (gettext : String → String) (state : State)
    (result : FetchResult) :
    (deleteAccountSettled gettext state result).accountQueuedForDeletion =
      (state.accountQueuedForDeletion || (Event.settled 0 result).resolvesDeactivate) := by
  cases result with
  | response r =>
    by_cases h : r.ok = true <;>
      simp [deleteAccountSettled, settle, checkResponse, h, deleteAccountResolved, failedSubmission,
        Event.resolvesDeactivate]
  | failure m =>
    simp [deleteAccountSettled, settle, failedSubmission, Event.resolvesDeactivate]

theorem step_queued (gettext : String → String) (csrftoken : Option String) (system next : System)
    (event : Event) (hstep : step gettext csrftoken system event = some next) :
    next.state.accountQueuedForDeletion =
      (system.state.accountQueuedForDeletion || event.resolvesDeactivate) := by
  cases event with
  | clickDelete =>
    simp only [step, render] at hstep
    split at hstep
    · split at hstep
      · exact absurd hstep (by simp)
      · cases hstep
        simp [deleteAccount, Event.resolvesDeactivate]
    · exact absurd hstep (by simp)
  | settled index result =>
    simp only [step] at hstep
    split at hstep
    · cases hstep
      rw [deleteAccountSettled_queued]
      cases result <;> rfl
    · exact absurd hstep (by simp)
  | passwordInput value =>
    simp only [step] at hstep
    split at hstep
    · cases hstep; simp [handlePasswordInputChange, Event.resolvesDeactivate]
    · exact absurd hstep (by simp)
  | passwordBlur value =>
    simp only [step] at hstep
    split at hstep
    · cases hstep
      simp only [passwordFieldValidation, Event.resolvesDeactivate, Bool.or_false]
      split <;> rfl
    · exact absurd hstep (by simp)
  | consentChange =>
    simp only [step] at hstep
    split at hstep
    · cases hstep; simp [handleDataDeleteCheckChange, Event.resolvesDeactivate]
    · exact absurd hstep (by simp)
  | close =>
    simp only [step] at hstep
    split at hstep
    · cases hstep; simp [Event.resolvesDeactivate]
    · exact absurd hstep (by simp)

theorem exec_queued (gettext : String → String) (csrftoken : Option String) (events : List Event) :
    ∀ system final : System, exec gettext csrftoken system events = some final →
      final.state.accountQueuedForDeletion =
        (system.state.accountQueuedForDeletion || events.any Event.resolvesDeactivate) := by
  induction events with
  | nil =>
    intro system final h
    simp only [exec, Option.some.injEq] at h
    simp [h]
  | cons event events ih =>
    intro system final h
    simp only [exec] at h
    split at h
    · rename_i next hstep
      rw [ih next final h, step_queued gettext csrftoken system next event hstep]
      simp [Bool.or_assoc]
    · exact absurd h (by simp)

/-- C12: the modal is a two-state display driven by `accountQueuedForDeletion`.
It is mounted in the confirmation state; `render` returns the success modal
exactly when `accountQueuedForDeletion` is true; after every sequence of
events that can happen to the mounted component, `accountQueuedForDeletion`
is true exactly when one of the events is a `deactivate` call resolving; no
event takes a queued state back; and the resolution also sets
`responseError` and `passwordSubmitted` to false and empties both validation
texts. -/
theorem deletion_modal_two_states (gettext : String → String) (csrftoken : Option String)
    (events : List Event) (final : System)
    (hexec : exec gettext csrftoken mounted events = some final) :
    render mounted.state = .confirmationModal (renderConfirmationModal constructorState) ∧
    (∀ state : State, render state = .successModal ↔ state.accountQueuedForDeletion = true) ∧
    (final.state.accountQueuedForDeletion = true ↔
      ∃ event ∈ events, event.resolvesDeactivate = true) ∧
    (∀ (system next : System) (event : Event), step gettext csrftoken system event = some next →
      system.state.accountQueuedForDeletion = true → next.state.accountQueuedForDeletion = true) ∧
    (∀ (state : State) (response : Response), response.ok = true →
      deleteAccountSettled gettext state (.response response) =
        { state with
          accountQueuedForDeletion := true
          responseError := false
          passwordSubmitted := false
          validationMessage := ""
          validationErrorDetails := "" }) := by
  refine ⟨rfl, ?_, ?_, ?_, ?_⟩
  · intro state
    cases h : state.accountQueuedForDeletion <;> simp [render, h]
  · rw [exec_queued gettext csrftoken events mounted final hexec]
    simp [mounted, constructorState]
  · intro system next event hstep hq
    rw [step_queued gettext csrftoken system next event hstep, hq]
    rfl
  · intro state response hok
    simp [deleteAccountSettled, settle, checkResponse, hok, deleteAccountResolved]

/-- C12 (witness): a password is typed, the button is clicked and the call
resolves with status 200; the modal shows the success state. -/
theorem deletion_modal_two_states_witness :
    exec (fun msgid => msgid) (some "token") mounted
        [.passwordInput "secret", .clickDelete, .settled 0 (.response ⟨200⟩)] =
      some { state := { constructorState with
                        password := "secret", accountQueuedForDeletion := true }
             inFlight := [] } ∧
    render ({ constructorState with
              password := "secret", accountQueuedForDeletion := true } : State) = .successModal ∧
    ∃ event ∈ [Event.passwordInput "secret", .clickDelete, .settled 0 (.response ⟨200⟩)],
      event.resolvesDeactivate = true := by
  have hexec : exec (fun msgid => msgid) (some "token") mounted
      [.passwordInput "secret", .clickDelete, .settled 0 (.response ⟨200⟩)] =
      some { state := { constructorState with
                        password := "secret", accountQueuedForDeletion := true }
             inFlight := [] } := by decide
  have h := deletion_modal_two_states (fun msgid => msgid) (some "token") _ _ hexec
  exact ⟨hexec, (h.2.1 _).mpr rfl, h.2.2.1.mp rfl⟩

/-- C13: `failedSubmission` chooses the title and the body by the status
alone: 403 gives the messages `Password is incorrect` and `Please re-enter
your password.`, every other status (a missing one included) gives `Unable to
delete account` and the generic apology; the two pairs of message ids differ.
In both cases `passwordSubmitted` becomes false, `responseError` true and
`passwordValid` false, and `password`, `accountQueuedForDeletion` and
`supportDataDeleteCheck` are unchanged. -/
theorem failedSubmission_by_status (gettext : String → String) (state : State)
    (error : RejectionValue) :
    (error.status = some 403 →
      (failedSubmission gettext state error).validationMessage = gettext "Password is incorrect" ∧
      (failedSubmission gettext state error).validationErrorDetails =
        gettext "Please re-enter your password.") ∧
    (error.status ≠ some 403 →
      (failedSubmission gettext state error).validationMessage =
        gettext "Unable to delete account" ∧
      (failedSubmission gettext state error).validationErrorDetails =
        gettext "Sorry, there was an error trying to process your request. Please try again later.") ∧
    (∀ other : RejectionValue, other.status = error.status →
      failedSubmission gettext state other = failedSubmission gettext state error) ∧
    ((failedSubmission (fun msgid => msgid) state ⟨"", some 403⟩).validationMessage ≠
        (failedSubmission (fun msgid => msgid) state ⟨"", some 500⟩).validationMessage ∧
      (failedSubmission (fun msgid => msgid) state ⟨"", some 403⟩).validationErrorDetails ≠
        (failedSubmission (fun msgid => msgid) state ⟨"", some 500⟩).validationErrorDetails) ∧
    (failedSubmission gettext state error).passwordSubmitted = false ∧
    (failedSubmission gettext state error).responseError = true ∧
    (failedSubmission gettext state error).passwordValid = false ∧
    (failedSubmission gettext state error).password = state.password ∧
    (failedSubmission gettext state error).accountQueuedForDeletion =
      state.accountQueuedForDeletion ∧
    (failedSubmission gettext state error).supportDataDeleteCheck =
      state.supportDataDeleteCheck := by
  refine ⟨?_, ?_, ?_, ⟨by simp [failedSubmission], by simp [failedSubmission]⟩,
    rfl, rfl, rfl, rfl, rfl, rfl⟩
  · intro h
    simp [failedSubmission, h]
  · intro h
    simp [failedSubmission, h]
  · intro other h
    simp [failedSubmission, h]

/-- C14 (the code at the failing input): a `deactivate` call answered with
status 403 ends in the generic pair, not in `Password is incorrect`: the
response is not `ok`, `deactivate` throws `new Error(response)`, which has no
`status`, and `failedSubmission` compares that missing status with 403. -/
theorem deactivate_403_shown_as_generic_failure :
    Response.ok ⟨403⟩ = false ∧
    settle (.response ⟨403⟩) = .error ⟨"[object Response]", none⟩ ∧
    (∀ (gettext : String → String) (state : State),
      (deleteAccountSettled gettext state (.response ⟨403⟩)).validationMessage =
        gettext "Unable to delete account" ∧
      (deleteAccountSettled gettext state (.response ⟨403⟩)).validationErrorDetails =
        gettext "Sorry, there was an error trying to process your request. Please try again later.") ∧
    (exec (fun msgid => msgid) (some "token") mounted
        [.passwordInput "wrong", .clickDelete, .settled 0 (.response ⟨403⟩)]).map
      (fun system => (system.state.validationMessage, system.state.validationErrorDetails)) =
      some ("Unable to delete account",
        "Sorry, there was an error trying to process your request. Please try again later.") := by
  refine ⟨by decide, rfl, ?_, by decide⟩
  intro gettext state
  simp [deleteAccountSettled, settle, checkResponse, Response.ok, newError, failedSubmission]

/-- C15: the `Yes, Delete` button is active only if the consent checkbox is
checked or the password is not empty. -/
theorem delete_enabled_needs_consent_or_password (state : State)
    (henabled : (renderConfirmationModal state).deleteDisabled = false) :
    state.supportDataDeleteCheck = true ∨ 0 < state.password.length := by
  simp only [renderConfirmationModal, Bool.and_eq_false_iff, Bool.not_eq_false', Bool.or_eq_false_iff,
    beq_eq_false_iff_ne, ne_eq] at henabled
  rcases henabled with h | ⟨h, _⟩
  · exact Or.inl h
  · exact Or.inr (Nat.pos_of_ne_zero h)

/-- C15 (witness): a typed password with the checkbox unchecked. -/
theorem delete_enabled_needs_consent_or_password_witness :
    (renderConfirmationModal { constructorState with password := "secret" }).deleteDisabled = false ∧
    (({ constructorState with password := "secret" } : State).supportDataDeleteCheck = true ∨
      0 < ({ constructorState with password := "secret" } : State).password.length) :=
  ⟨by decide, delete_enabled_needs_consent_or_password _ (by decide)⟩

/-- C16 (counterexample): after a password is typed into the mounted modal
the consent checkbox is unchecked and the `Yes, Delete` button is enabled. -/
theorem delete_enabled_without_consent :
    (exec (fun msgid => msgid) (some "token") mounted [.passwordInput "secret"]).map
      (fun system =>
        (system.state.supportDataDeleteCheck, (renderConfirmationModal system.state).deleteDisabled)) =
      some (false, false) := by
  decide

/-- C16 (amended): with the consent checkbox unchecked the `Yes, Delete`
button is disabled exactly when the password is empty or a request is in
flight (`passwordSubmitted`). -/
theorem delete_disabled_when_unchecked (state : State)
    (hunchecked : state.supportDataDeleteCheck = false) :
    (renderConfirmationModal state).deleteDisabled =
      (state.password.length == 0 || state.passwordSubmitted) := by
  simp [renderConfirmationModal, hunchecked]

/-- C16 (witness): the state set by the constructor, where the button is
disabled. -/
theorem delete_disabled_when_unchecked_witness :
    constructorState.supportDataDeleteCheck = false ∧
    (renderConfirmationModal constructorState).deleteDisabled = true := by
  have h := delete_disabled_when_unchecked constructorState rfl
  exact ⟨rfl, by rw [h]; decide⟩

end StudentAccountDeletionConfirmationModal

/-! ## Properties of the marketing email toggle -/

namespace UnsubscribeMarketingEmail

open AccountsClient

theorem settle_response (response : Response) :
    settle (.response response) =
      if response.ok then .ok response else .error ⟨"[object Response]", none⟩ := by
  simp only [settle, checkResponse, newError]

theorem step_settled_checked (csrftoken : Option String) (props : Props) (system next : System)
    (index : Nat) (result : FetchResult)
    (hstep : step csrftoken props system (.settled index result) = some next) :
    ∃ call request, system.inFlight.get? index = some (call, request) ∧
      next.state.checked =
        (if (Event.settled index result).resolves then decide (call = .subscribe)
         else system.state.checked) ∧
      next.resolved =
        (if (Event.settled index result).resolves then system.resolved ++ [call]
         else system.resolved) := by
  simp only [step] at hstep
  split at hstep
  · rename_i call request hget
    cases hstep
    refine ⟨call, request, hget, ?_, ?_⟩
    · cases result with
      | response r =>
        by_cases h : r.ok = true <;> cases call <;>
          simp [callSettled, settle_response, h, Event.resolves]
      | failure m => simp [callSettled, settle, Event.resolves]
    · cases result with
      | response r =>
        by_cases h : r.ok = true <;> simp [settle_response, h, Event.resolves]
      | failure m => simp [settle, Event.resolves]
  · exact absurd hstep (by simp)

theorem step_unresolved_checked (csrftoken : Option String) (props : Props) (system next : System)
    (event : Event) (hstep : step csrftoken props system event = some next)
    (hun : event.resolves = false) :
    next.state.checked = system.state.checked ∧ next.resolved = system.resolved := by
  cases event with
  | click =>
    simp only [step, Option.some.injEq] at hstep
    subst hstep
    exact ⟨rfl, rfl⟩
  | settled index result =>
    obtain ⟨call, request, _, h1, h2⟩ :=
      step_settled_checked csrftoken props system next index result hstep
    rw [hun] at h1 h2
    exact ⟨by simpa using h1, by simpa using h2⟩

theorem exec_unresolved_checked (csrftoken : Option String) (props : Props) (events : List Event) :
    ∀ system final : System, exec csrftoken props system events = some final →
      (∀ event ∈ events, event.resolves = false) →
      final.state.checked = system.state.checked := by
  induction events with
  | nil =>
    intro system final h _
    simp only [exec, Option.some.injEq] at h
    rw [h]
  | cons event events ih =>
    intro system final h hun
    simp only [exec] at h
    split at h
    · rename_i next hstep
      rw [ih next final h (fun e he => hun e (List.mem_cons_of_mem _ he)),
        (step_unresolved_checked csrftoken props system next event hstep
          (hun event (List.mem_cons_self _ _))).1]
    · exact absurd h (by simp)

/-- The value of `checked` that the history of resolved calls stands for. -/
theorem checked_of_history (csrftoken : Option String) (props : Props) (events : List Event) :
    ∀ system final : System, exec csrftoken props system events = some final →
      (system.state.checked =
        match system.resolved.getLast? with
        | none => props.isUserSubscribed
        | some call => decide (call = .subscribe)) →
      (final.state.checked =
        match final.resolved.getLast? with
        | none => props.isUserSubscribed
        | some call => decide (call = .subscribe)) ∧
      final.resolved.length = system.resolved.length + events.countP Event.resolves := by
  induction events with
  | nil =>
    intro system final h hinv
    simp only [exec, Option.some.injEq] at h
    subst h
    exact ⟨hinv, by simp⟩
  | cons event events ih =>
    intro system final h hinv
    simp only [exec] at h
    split at h
    · rename_i next hstep
      have hnext : (next.state.checked =
          match next.resolved.getLast? with
          | none => props.isUserSubscribed
          | some call => decide (call = .subscribe)) ∧
          next.resolved.length = system.resolved.length + (if event.resolves then 1 else 0) := by
        cases hres : event.resolves with
        | false =>
          have := step_unresolved_checked csrftoken props system next event hstep hres
          rw [this.1, this.2]
          exact ⟨hinv, by simp⟩
        | true =>
          cases event with
          | click => simp [Event.resolves] at hres
          | settled index result =>
            obtain ⟨call, request, _, h1, h2⟩ :=
              step_settled_checked csrftoken props system next index result hstep
            rw [hres] at h1 h2
            simp only [if_true] at h1 h2
            rw [h1, h2]
            simp
      obtain ⟨h1, h2⟩ := ih next final h hnext.1
      refine ⟨h1, ?_⟩
      rw [h2, hnext.2, List.countP_cons]
      omega
    · exact absurd h (by simp)

/-- C17: the toggle is not optimistic and a failure leaves it as it was.
`handleCheckbox` (a click) never changes the state; when the settling of a
call changes `checked`, the call has resolved, and it is a `subscribe` call
if `checked` became true and an `unsubscribe` call if it became false; and
over any sequence of clicks and settlings none of which is a call resolving
(calls pending, calls rejected), `checked` keeps the value it had before. -/
theorem toggle_changes_only_on_resolution (csrftoken : Option String) (props : Props)
    (system final : System) (events : List Event)
    (hexec : exec csrftoken props system events = some final)
    (hunresolved : ∀ event ∈ events, event.resolves = false) :
    final.state.checked = system.state.checked ∧
    (∀ sys : System, (step csrftoken props sys .click).map (fun next => next.state) =
      some sys.state) ∧
    (∀ (sys next : System) (index : Nat) (result : FetchResult),
      step csrftoken props sys (.settled index result) = some next →
      next.state.checked ≠ sys.state.checked →
      (Event.settled index result).resolves = true ∧
      ∃ request, sys.inFlight.get? index =
        some (if next.state.checked then Call.subscribe else Call.unsubscribe, request)) := by
  refine ⟨exec_unresolved_checked csrftoken props events system final hexec hunresolved, ?_, ?_⟩
  · intro sys
    rfl
  · intro sys next index result hstep hne
    obtain ⟨call, request, hget, h1, _⟩ :=
      step_settled_checked csrftoken props sys next index result hstep
    cases hres : (Event.settled index result).resolves with
    | false =>
      rw [hres] at h1
      exact absurd (by simpa using h1) hne
    | true =>
      rw [hres] at h1
      simp only [if_true] at h1
      refine ⟨rfl, request, ?_⟩
      rw [hget, h1]
      cases call <;> simp

/-- C17 (witness): a subscriber-to-be clicks twice; the first call is answered
with status 500 and the second cannot be made; `checked` is still false and
both failures went to the console only. -/
theorem toggle_changes_only_on_resolution_witness :
    exec none ⟨false, "learner@example.com"⟩ (mounted ⟨false, "learner@example.com"⟩)
        [.click, .settled 0 (.response ⟨500⟩), .click, .settled 0 (.failure "Network request failed")] =
      some { state := ⟨false⟩, inFlight := [],
             console := ["[object Response]", "Network request failed"], resolved := [] } ∧
    (∀ event ∈ [Event.click, .settled 0 (.response ⟨500⟩), .click,
        .settled 0 (.failure "Network request failed")], event.resolves = false) ∧
    ({ state := ⟨false⟩, inFlight := [],
       console := ["[object Response]", "Network request failed"],
       resolved := [] } : System).state.checked =
      (mounted ⟨false, "learner@example.com"⟩).state.checked := by
  have hexec : exec none ⟨false, "learner@example.com"⟩ (mounted ⟨false, "learner@example.com"⟩)
      [.click, .settled 0 (.response ⟨500⟩), .click, .settled 0 (.failure "Network request failed")] =
      some { state := ⟨false⟩, inFlight := [],
             console := ["[object Response]", "Network request failed"], resolved := [] } := by
    decide
  have hun : ∀ event ∈ [Event.click, .settled 0 (.response ⟨500⟩), .click,
      .settled 0 (.failure "Network request failed")], event.resolves = false := by decide
  exact ⟨hexec, hun, (toggle_changes_only_on_resolution none _ _ _ _ hexec hun).1⟩

/-- C18: for every interleaving of clicks and settlings that can happen to the
mounted toggle, `checked` reflects the last resolved call and not the last
click: it is the initial `isUserSubscribed` when no call has resolved, and
otherwise it is true exactly when the call that resolved last was a
`subscribe`.  The history holds one entry for each event that is a call
resolving. -/
theorem toggle_reflects_last_resolved (csrftoken : Option String) (props : Props)
    (events : List Event) (final : System)
    (hexec : exec csrftoken props (mounted props) events = some final) :
    (final.state.checked =
      match final.resolved.getLast? with
      | none => props.isUserSubscribed
      | some call => decide (call = .subscribe)) ∧
    final.resolved.length = events.countP Event.resolves ∧
    ((∀ event ∈ events, event.resolves = false) →
      final.resolved = [] ∧ final.state.checked = props.isUserSubscribed) := by
  have h := checked_of_history csrftoken props events (mounted props) final hexec rfl
  have hlen : final.resolved.length = events.countP Event.resolves := by
    rw [h.2]; simp [mounted]
  refine ⟨h.1, hlen, ?_⟩
  intro hun
  have h0 : events.countP Event.resolves = 0 := by
    rw [List.countP_eq_zero]
    intro e he
    simp [hun e he]
  have hnil : final.resolved = [] := List.eq_nil_of_length_eq_zero (by rw [hlen, h0])
  refine ⟨hnil, ?_⟩
  have := h.1
  rw [hnil] at this
  exact this

/-- C18 (witness): a click subscribes and the call resolves; a second click
asks to unsubscribe and its call is still in flight: `checked` is true, as
the last resolved call says, not false as the last click asked. -/
theorem toggle_reflects_last_resolved_witness :
    exec (some "token") ⟨false, "learner@example.com"⟩ (mounted ⟨false, "learner@example.com"⟩)
        [.click, .settled 0 (.response ⟨200⟩), .click] =
      some { state := ⟨true⟩
             inFlight := [(.unsubscribe, unsubscribe (some "token") "learner@example.com")]
             console := []
             resolved := [.subscribe] } ∧
    ({ state := ⟨true⟩
       inFlight := [(.unsubscribe, unsubscribe (some "token") "learner@example.com")]
       console := []
       resolved := [.subscribe] } : System).state.checked =
      decide (Call.subscribe = Call.subscribe) := by
  have hexec : exec (some "token") ⟨false, "learner@example.com"⟩
      (mounted ⟨false, "learner@example.com"⟩)
      [.click, .settled 0 (.response ⟨200⟩), .click] =
      some { state := ⟨true⟩
             inFlight := [(.unsubscribe, unsubscribe (some "token") "learner@example.com")]
             console := []
             resolved := [.subscribe] } := by decide
  exact ⟨hexec, (toggle_reflects_last_resolved _ _ _ _ hexec).1⟩

end UnsubscribeMarketingEmail

/-! ## Properties of the accounts client -/

namespace AccountsClient

open Uri

/-! ### UTF-8 -/

theorem char_toNat_valid (c : Char) :
    c.toNat < 0xD800 ∨ (0xDFFF < c.toNat ∧ c.toNat < 0x110000) := c.valid

theorem utf8_encode_lt (c : Char) : ∀ b ∈ Utf8.encode c, b < 256 := by
  have hv := char_toNat_valid c
  intro b hb
  simp only [Utf8.encode] at hb
  split_ifs at hb <;> simp only [List.mem_cons, List.mem_singleton, List.not_mem_nil, or_false] at hb <;>
    omega

theorem isCont_low (n : Nat) : Utf8.isCont (0x80 + n % 64) = true := by
  simp only [Utf8.isCont, Bool.and_eq_true, decide_eq_true_eq]; omega

theorem utf8_decode_encode (c : Char) (rest : List Nat) :
    Utf8.decodeFrom 0 0 0 (Utf8.encode c ++ rest) =
      (Utf8.decodeFrom 0 0 0 rest).map (fun cs => c :: cs) := by
  have hv := char_toNat_valid c
  have hc : Char.ofNat c.toNat = c := Char.ofNat_toNat c
  have hs : Utf8.isScalar c.toNat = true := by
    simp only [Utf8.isScalar, Bool.or_eq_true, Bool.and_eq_true, decide_eq_true_eq]; exact hv
  by_cases h1 : c.toNat < 0x80
  · rw [Utf8.encode, if_pos h1, List.singleton_append, Utf8.decodeFrom, if_pos h1, hc]
  · by_cases h2 : c.toNat < 0x800
    · have e : (0xC0 + c.toNat / 64 - 0xC0) * 64 + (0x80 + c.toNat % 64 - 0x80) = c.toNat := by omega
      rw [Utf8.encode, if_neg h1, if_pos h2]
      simp only [List.cons_append, List.nil_append]
      rw [Utf8.decodeFrom, if_neg (by omega), if_neg (by omega), if_pos (by omega), Utf8.decodeFrom,
        if_pos (isCont_low _), if_pos rfl, e, if_pos ⟨by omega, hs⟩, hc]
    · by_cases h3 : c.toNat < 0x10000
      · have e : ((0xE0 + c.toNat / 4096 - 0xE0) * 64 + (0x80 + c.toNat / 64 % 64 - 0x80)) * 64 +
            (0x80 + c.toNat % 64 - 0x80) = c.toNat := by omega
        rw [Utf8.encode, if_neg h1, if_neg h2, if_pos h3]
        simp only [List.cons_append, List.nil_append]
        rw [Utf8.decodeFrom, if_neg (by omega), if_neg (by omega), if_neg (by omega),
          if_pos (by omega), Utf8.decodeFrom, if_pos (isCont_low _), if_neg (by decide),
          Utf8.decodeFrom, if_pos (isCont_low _), if_pos rfl, e, if_pos ⟨by omega, hs⟩, hc]
      · have e : (((0xF0 + c.toNat / 262144 - 0xF0) * 64 + (0x80 + c.toNat / 4096 % 64 - 0x80)) * 64 +
            (0x80 + c.toNat / 64 % 64 - 0x80)) * 64 + (0x80 + c.toNat % 64 - 0x80) = c.toNat := by
          omega
        rw [Utf8.encode, if_neg h1, if_neg h2, if_neg h3]
        simp only [List.cons_append, List.nil_append]
        rw [Utf8.decodeFrom, if_neg (by omega), if_neg (by omega), if_neg (by omega),
          if_neg (by omega), if_pos (by omega), Utf8.decodeFrom, if_pos (isCont_low _),
          if_neg (by decide), Utf8.decodeFrom, if_pos (isCont_low _), if_neg (by decide),
          Utf8.decodeFrom, if_pos (isCont_low _), if_pos rfl, e, if_pos ⟨by omega, hs⟩, hc]

theorem utf8_decode_bytes (cs : List Char) :
    Utf8.decode (cs.flatMap Utf8.encode) = some cs := by
  rw [Utf8.decode]
  induction cs with
  | nil => rfl
  | cons c cs ih =>
    rw [List.flatMap_cons, utf8_decode_encode, ih]
    rfl

end AccountsClient
namespace AccountsClient

open Uri

/-! ### Percent-encoding -/

theorem hexDigit_bytes (n : Nat) (hn : n < 16) :
    Utf8.encode (hexDigit n) = [if n < 10 then 48 + n else 55 + n] := by
  interval_cases n <;> rfl

theorem hexValue_hexDigit (n : Nat) (hn : n < 16) :
    hexValue (if n < 10 then 48 + n else 55 + n) = some n := by
  interval_cases n <;> rfl

theorem percentEncode_bytes (b : Nat) (hb : b < 256) :
    (percentEncode b).flatMap Utf8.encode =
      [37, if b / 16 < 10 then 48 + b / 16 else 55 + b / 16,
        if b % 16 < 10 then 48 + b % 16 else 55 + b % 16] := by
  have h1 : b / 16 < 16 := by omega
  have h2 : b % 16 < 16 := by omega
  have h3 : Utf8.encode '%' = [37] := rfl
  simp only [percentEncode, List.flatMap_cons, List.flatMap_nil, hexDigit_bytes _ h1,
    hexDigit_bytes _ h2, h3, List.singleton_append, List.append_nil]

theorem percentDecode_escape (b : Nat) (hb : b < 256) (rest : List Nat) :
    percentDecode ((percentEncode b).flatMap Utf8.encode ++ rest) = b :: percentDecode rest := by
  have h1 : b / 16 < 16 := by omega
  have h2 : b % 16 < 16 := by omega
  rw [percentEncode_bytes b hb]
  simp only [List.cons_append, List.nil_append]
  rw [percentDecode, if_pos rfl, hexValue_hexDigit _ h1, hexValue_hexDigit _ h2]
  simp only
  congr 1
  omega

theorem percentDecode_escapes (bs : List Nat) (hbs : ∀ b ∈ bs, b < 256) (rest : List Nat) :
    percentDecode ((bs.flatMap percentEncode).flatMap Utf8.encode ++ rest) =
      bs ++ percentDecode rest := by
  induction bs with
  | nil => rfl
  | cons b bs ih =>
    rw [List.flatMap_cons, List.flatMap_append, List.append_assoc,
      percentDecode_escape b (hbs b (List.mem_cons_self _ _)),
      ih (fun x hx => hbs x (List.mem_cons_of_mem _ hx))]
    rfl

theorem percentDecode_plain (b : Nat) (hb : b ≠ 37) (rest : List Nat) :
    percentDecode (b :: rest) = b :: percentDecode rest := by
  match rest with
  | [] => rfl
  | [x] => rfl
  | x :: y :: r => rw [percentDecode, if_neg hb]

end AccountsClient
namespace AccountsClient

open Uri

theorem unreserved_toNat (c : Char) (h : isUnreserved c = true) :
    (65 ≤ c.toNat ∧ c.toNat ≤ 90) ∨ (97 ≤ c.toNat ∧ c.toNat ≤ 122) ∨ (48 ≤ c.toNat ∧ c.toNat ≤ 57) ∨
    c.toNat = 45 ∨ c.toNat = 95 ∨ c.toNat = 46 ∨ c.toNat = 33 ∨ c.toNat = 126 ∨ c.toNat = 42 ∨
    c.toNat = 39 ∨ c.toNat = 40 ∨ c.toNat = 41 := by
  simp only [isUnreserved, Char.isAlphanum, Char.isAlpha, Char.isUpper, Char.isLower, Char.isDigit,
    Bool.or_eq_true, Bool.and_eq_true, decide_eq_true_eq, beq_iff_eq, ge_iff_le, UInt32.le_def,
    BitVec.le_def] at h
  have hn : c.toNat = c.val.toBitVec.toNat := rfl
  rw [hn]
  rcases h with (((((((((((h | h) | h) | h) | h) | h) | h) | h) | h) | h) | h) | h)
  · left; exact h
  · right; left; exact h
  · right; right; left; exact h
  all_goals (subst h; decide)

end AccountsClient
namespace AccountsClient

open Uri

theorem escapes_bytes (bs : List Nat) (hbs : ∀ b ∈ bs, b < 256) :
    ∀ x ∈ (bs.flatMap percentEncode).flatMap Utf8.encode,
      x = 37 ∨ (48 ≤ x ∧ x ≤ 57) ∨ (65 ≤ x ∧ x ≤ 70) := by
  induction bs with
  | nil => intro x hx; simp at hx
  | cons b bs ih =>
    intro x hx
    have hb := hbs b (List.mem_cons_self _ _)
    rw [List.flatMap_cons, List.flatMap_append, percentEncode_bytes b hb, List.mem_append] at hx
    rcases hx with hx | hx
    · simp only [List.mem_cons, List.mem_singleton, List.not_mem_nil, or_false] at hx
      rcases hx with hx | hx | hx
      · exact Or.inl hx
      · right; split_ifs at hx <;> omega
      · right; split_ifs at hx <;> omega
    · exact ih (fun y hy => hbs y (List.mem_cons_of_mem _ hy)) x hx

theorem encodeChar_bytes_safe (c : Char) :
    ∀ x ∈ (encodeChar c).flatMap Utf8.encode, x ≠ 38 ∧ x ≠ 61 ∧ x ≠ 43 ∧ x ≠ 32 := by
  intro x hx
  by_cases hu : isUnreserved c = true
  · have hr := unreserved_toNat c hu
    have hlt : c.toNat < 0x80 := by omega
    rw [encodeChar, if_pos hu] at hx
    simp only [List.flatMap_cons, List.flatMap_nil, List.append_nil, Utf8.encode, if_pos hlt,
      List.mem_singleton] at hx
    omega
  · rw [encodeChar, if_neg hu] at hx
    have := escapes_bytes (Utf8.encode c) (utf8_encode_lt c) x hx
    omega

theorem percentDecode_encodeChar (c : Char) (rest : List Nat) :
    percentDecode ((encodeChar c).flatMap Utf8.encode ++ rest) =
      Utf8.encode c ++ percentDecode rest := by
  by_cases hu : isUnreserved c = true
  · have hr := unreserved_toNat c hu
    have hlt : c.toNat < 0x80 := by omega
    rw [encodeChar, if_pos hu]
    simp only [List.flatMap_cons, List.flatMap_nil, List.append_nil, Utf8.encode, if_pos hlt,
      List.singleton_append]
    exact percentDecode_plain _ (by omega) _
  · rw [encodeChar, if_neg hu]
    exact percentDecode_escapes _ (utf8_encode_lt c) _

theorem bytes_encodeURIComponent (value : String) :
    Utf8.bytes (encodeURIComponent value) =
      (value.data.flatMap encodeChar).flatMap Utf8.encode := rfl

theorem encoded_bytes_safe (cs : List Char) :
    ∀ x ∈ (cs.flatMap encodeChar).flatMap Utf8.encode, x ≠ 38 ∧ x ≠ 61 ∧ x ≠ 43 ∧ x ≠ 32 := by
  intro x hx
  simp only [List.mem_flatMap] at hx
  obtain ⟨ch, ⟨c, _, hch⟩, hx⟩ := hx
  exact encodeChar_bytes_safe c x (List.mem_flatMap.mpr ⟨ch, hch, hx⟩)

theorem percentDecode_encoded (cs : List Char) :
    percentDecode ((cs.flatMap encodeChar).flatMap Utf8.encode) = cs.flatMap Utf8.encode := by
  induction cs with
  | nil => rfl
  | cons c cs ih =>
    rw [List.flatMap_cons, List.flatMap_append, percentDecode_encodeChar, ih, List.flatMap_cons]

theorem decodeComponent_encoded (value : String) :
    decodeComponent (Utf8.bytes (encodeURIComponent value)) = some value := by
  have hmap : (Utf8.bytes (encodeURIComponent value)).map (fun b => if b = 43 then 32 else b) =
      Utf8.bytes (encodeURIComponent value) := by
    conv => rhs; rw [← List.map_id (Utf8.bytes (encodeURIComponent value))]
    apply List.map_congr_left
    intro b hb
    have := encoded_bytes_safe value.data b hb
    simp [this.2.2.1]
  rw [decodeComponent, hmap, bytes_encodeURIComponent, percentDecode_encoded, utf8_decode_bytes]
  rfl

theorem splitOn_absent (sep : Nat) (l : List Nat) (h : sep ∉ l) : splitOn sep l = [l] := by
  induction l with
  | nil => rfl
  | cons b rest ih =>
    have hb : b ≠ sep := fun e => h (e ▸ List.mem_cons_self _ _)
    rw [splitOn, if_neg hb, ih (fun hm => h (List.mem_cons_of_mem _ hm))]

theorem encodeChar_chars (c : Char) :
    ∀ ch ∈ encodeChar c, ch ≠ '&' ∧ ch ≠ '=' ∧ ch ≠ '+' ∧ ch ≠ ' ' := by
  intro ch hch
  have hb := encodeChar_bytes_safe c
  have hmem : ∀ x ∈ Utf8.encode ch, x ∈ (encodeChar c).flatMap Utf8.encode :=
    fun x hx => List.mem_flatMap.mpr ⟨ch, hch, hx⟩
  refine ⟨?_, ?_, ?_, ?_⟩ <;> intro e <;> subst e
  · exact (hb 38 (hmem 38 (by decide))).1 rfl
  · exact (hb 61 (hmem 61 (by decide))).2.1 rfl
  · exact (hb 43 (hmem 43 (by decide))).2.2.1 rfl
  · exact (hb 32 (hmem 32 (by decide))).2.2.2 rfl

/-- C20: `deactivate` sends the password form-encoded.  For every password
the request body is `password=` followed by `encodeURIComponent(password)`;
the encoded part contains none of `&`, `=`, `+` and the space; and the form
parser reads the body as the single field `password` whose value is the
password itself. -/
theorem deactivate_body_round_trip (csrftoken : Option String) (password : String) :
    (deactivate csrftoken password).body = "password=" ++ encodeURIComponent password ∧
    (∀ ch ∈ (encodeURIComponent password).data, ch ≠ '&' ∧ ch ≠ '=' ∧ ch ≠ '+' ∧ ch ≠ ' ') ∧
    parseForm (deactivate csrftoken password).body = some [("password", password)] := by
  refine ⟨rfl, ?_, ?_⟩
  · intro ch hch
    simp only [encodeURIComponent, List.mem_flatMap] at hch
    obtain ⟨c, _, hc⟩ := hch
    exact encodeChar_chars c ch hc
  · have hbytes : Utf8.bytes (deactivate csrftoken password).body =
        [112, 97, 115, 115, 119, 111, 114, 100, 61] ++ Utf8.bytes (encodeURIComponent password) := by
      simp only [deactivate, Utf8.bytes, String.data_append, List.flatMap_append]
      rfl
    have h38 : 38 ∉ [112, 97, 115, 115, 119, 111, 114, 100, 61] ++
        Utf8.bytes (encodeURIComponent password) := by
      simp only [List.mem_append, not_or]
      exact ⟨by decide, fun h => (encoded_bytes_safe password.data 38 h).1 rfl⟩
    have hname : decodeComponent [112, 97, 115, 115, 119, 111, 114, 100] = some "password" := by
      decide
    rw [parseForm, hbytes, splitOn_absent 38 _ h38]
    simp only [List.cons_append, List.nil_append, List.filter_cons, List.filter_nil, List.isEmpty_cons,
      Bool.not_false, if_true, List.mapM_cons, List.mapM_nil, splitFirst]
    simp [hname, decodeComponent_encoded]

end AccountsClient

namespace AccountsClient

open Uri

/-- C20 (witness): a password with every character the parser treats
specially, and some outside ASCII. -/
theorem deactivate_body_round_trip_witness :
    (deactivate none "p&ss=w+rd 100% é€").body =
      "password=p%26ss%3Dw%2Brd%20100%25%20%C3%A9%E2%82%AC" ∧
    parseForm "password=p%26ss%3Dw%2Brd%20100%25%20%C3%A9%E2%82%AC" =
      some [("password", "p&ss=w+rd 100% é€")] := by
  have h := deactivate_body_round_trip none "p&ss=w+rd 100% é€"
  have hbody : (deactivate none "p&ss=w+rd 100% é€").body =
      "password=p%26ss%3Dw%2Brd%20100%25%20%C3%A9%E2%82%AC" := by decide
  exact ⟨hbody, hbody ▸ h.2.2⟩

/-- C19 (the code at failing inputs): `subscribe` and `unsubscribe` put the
email into the body as it is (`deactivate` encodes its password).  The form
parser then reads `a+b@example.com` as `a b@example.com`, splits
`a&b@example.com` into two fields, and reads `50%25off@example.com` as
`50%off@example.com`; with `encodeURIComponent` the first would be read
back unchanged. -/
theorem subscribe_body_not_encoded :
    (∀ (csrftoken : Option String) (email : String),
      (subscribe csrftoken email).body = "email=" ++ email ∧
      (unsubscribe csrftoken email).body = "email=" ++ email) ∧
    parseForm (subscribe none "a+b@example.com").body = some [("email", "a b@example.com")] ∧
    parseForm (unsubscribe none "a+b@example.com").body = some [("email", "a b@example.com")] ∧
    parseForm (unsubscribe none "a&b@example.com").body =
      some [("email", "a"), ("b@example.com", "")] ∧
    parseForm (subscribe none "50%25off@example.com").body = some [("email", "50%off@example.com")] ∧
    parseForm ("email=" ++ encodeURIComponent "a+b@example.com") =
      some [("email", "a+b@example.com")] := by
  refine ⟨fun _ _ => ⟨rfl, rfl⟩, ?_, ?_, ?_, ?_, ?_⟩ <;> decide

end AccountsClient

/-! ## Requests of the accounts client -/

namespace AccountsClient

/-- C21: the three requests are POSTs with credentials `same-origin`, the
form-urlencoded content type and the header `X-CSRFToken` holding the value
of the `csrftoken` cookie, sent to the deactivation, subscription and
unsubscription addresses; and the promise resolves with the response exactly
when `response.ok`, and is rejected otherwise (also when `fetch` fails). -/
theorem requests_are_csrf_protected_posts (csrftoken : Option String) (value : String)
    (response : Response) :
    (∀ request ∈ [deactivate csrftoken value, subscribe csrftoken value, unsubscribe csrftoken value],
      request.method = "POST" ∧ request.credentials = "same-origin" ∧
      request.headers.lookup "Content-Type" =
        some (some "application/x-www-form-urlencoded; charset=UTF-8") ∧
      request.headers.lookup "X-CSRFToken" = some csrftoken) ∧
    (deactivate csrftoken value).url = "/api/user/v1/accounts/deactivate_logout/" ∧
    (subscribe csrftoken value).url = "/marketing_email/subscribe" ∧
    (unsubscribe csrftoken value).url = "/marketing_email/unsubscribe" ∧
    (settle (.response response) = .ok response ↔ response.ok = true) ∧
    (response.ok = false → settle (.response response) = .error (newError response)) ∧
    (∀ message, settle (.failure message) = .error ⟨message, none⟩) := by
  refine ⟨?_, rfl, rfl, rfl, ?_, ?_, fun _ => rfl⟩
  · intro request hmem
    simp only [List.mem_cons, List.mem_singleton, List.not_mem_nil, or_false] at hmem
    rcases hmem with h | h | h <;> subst h <;>
      exact ⟨rfl, rfl, by simp [deactivate, subscribe, unsubscribe, List.lookup],
        by simp [deactivate, subscribe, unsubscribe, List.lookup]⟩
  · by_cases h : response.ok = true <;> simp [settle, checkResponse, h]
  · intro h
    simp [settle, checkResponse, h]

end AccountsClient

/-! ## The consent checkbox of the deletion modal -/

namespace StudentAccountDeletionConfirmationModal

/-- C23: with the consent checkbox checked the `Yes, Delete` button is enabled
in every state, with an empty password and with a request in flight too; the
guard on `passwordSubmitted` counts only when the checkbox is unchecked. -/
theorem delete_enabled_when_checked (state : State)
    (hchecked : state.supportDataDeleteCheck = true) :
    (renderConfirmationModal state).deleteDisabled = false ∧
    (renderConfirmationModal { state with password := "", passwordSubmitted := true }).deleteDisabled =
      false ∧
    (renderConfirmationModal
      { state with supportDataDeleteCheck := false, passwordSubmitted := true }).deleteDisabled =
      true := by
  simp [renderConfirmationModal, hchecked]

/-- C23 (witness): on the mounted modal the checkbox is checked and the button
is clicked twice without a password: both clicks are accepted, the second
while the first request is in flight. -/
theorem delete_enabled_when_checked_witness :
    (renderConfirmationModal
      { constructorState with supportDataDeleteCheck := true, passwordSubmitted := true }).deleteDisabled =
      false ∧
    (exec (fun msgid => msgid) none mounted [.consentChange, .clickDelete, .clickDelete]).map
      (fun system => (system.state.passwordSubmitted, system.inFlight.map (fun request => request.body))) =
      some (true, ["password=", "password="]) :=
  ⟨(delete_enabled_when_checked
      { constructorState with supportDataDeleteCheck := true, passwordSubmitted := true } rfl).1,
    by decide⟩

end StudentAccountDeletionConfirmationModal

/-! ## The login view after rendering -/

namespace LoginView

open FormView Sample

theorem sprintfArgs_signing_in (platformName : String) :
    Underscore.sprintfArgs "An error occurred when signing you in to %s." [platformName] =
      "An error occurred when signing you in to " ++ platformName ++ "." := by
  apply String.ext
  simp [Underscore.sprintfArgs, Djangojs.replacePositional, Djangojs.shift]

theorem count_modelSave_messages (this : View) (messages : List Message) :
    (messages.flatMap (renderMessage this)).count Effect.modelSave = 0 := by
  induction messages with
  | nil => rfl
  | cons m ms ih =>
    rw [List.flatMap_cons, List.count_append, ih]
    rfl

theorem renderErrorsCalls_append (a b : List Effect) :
    renderErrorsCalls (a ++ b) = renderErrorsCalls a ++ renderErrorsCalls b := by
  induction a with
  | nil => rfl
  | cons e rest ih => cases e <;> simp [renderErrorsCalls, ih]

theorem renderErrorsCalls_messages (this : View) (messages : List Message) :
    renderErrorsCalls (messages.flatMap (renderMessage this)) = [] := by
  induction messages with
  | nil => rfl
  | cons m ms ih =>
    rw [List.flatMap_cons, renderErrorsCalls_append, ih]
    rfl

/-- C22: `postRender` submits the form by itself exactly when there is no
provider error and a current provider: `model.save()` is called (once) if and
only if `errorMessage` is empty and `currentProvider` is not.  With a
non-empty `errorMessage` it makes no `model.save()` call and one
`renderErrors` call, with that message under the title made from the catalog
entry of `An error occurred when signing you in to %s.` and the platform
name. -/
theorem postRender_submits_for_provider (this : View) :
    (0 < modelSaves (postRender this) ↔ this.errorMessage = "" ∧ this.currentProvider ≠ "") ∧
    modelSaves (postRender this) ≤ 1 ∧
    (this.errorMessage ≠ "" →
      modelSaves (postRender this) = 0 ∧
      renderErrorsCalls (postRender this) =
        [(Underscore.sprintfArgs (this.gettext "An error occurred when signing you in to %s.")
            [this.platformName], [this.errorMessage])] ∧
      (this.gettext "An error occurred when signing you in to %s." =
          "An error occurred when signing you in to %s." →
        renderErrorsCalls (postRender this) =
          [("An error occurred when signing you in to " ++ this.platformName ++ ".",
            [this.errorMessage])])) ∧
    (this.errorMessage = "" → renderErrorsCalls (postRender this) = []) := by
  have hsaves : modelSaves (postRender this) =
      if this.errorMessage ≠ "" then 0 else if this.currentProvider ≠ "" then 1 else 0 := by
    simp only [modelSaves, postRender, renderAccountActivationMessages,
      renderAccountRecoveryMessages, List.count_append, count_modelSave_messages, Nat.add_zero]
    split_ifs <;> rfl
  have herrs : renderErrorsCalls (postRender this) =
      if this.errorMessage ≠ "" then
        [(Underscore.sprintfArgs (this.gettext "An error occurred when signing you in to %s.")
            [this.platformName], [this.errorMessage])]
      else [] := by
    simp only [postRender, renderAccountActivationMessages, renderAccountRecoveryMessages,
      renderErrorsCalls_append, renderErrorsCalls_messages, List.append_nil]
    split_ifs <;> rfl
  refine ⟨?_, ?_, ?_, ?_⟩
  · rw [hsaves]
    by_cases he : this.errorMessage = "" <;> by_cases hp : this.currentProvider = "" <;>
      simp [he, hp]
  · rw [hsaves]
    split_ifs <;> omega
  · intro he
    refine ⟨by rw [hsaves, if_pos he], by rw [herrs, if_pos he], ?_⟩
    intro hg
    rw [herrs, if_pos he, hg, sprintfArgs_signing_in]
  · intro he
    rw [herrs, if_neg (by simpa using he)]

/-- C22 (witness): the view made by `preRender` from page data with a current
provider and no error submits once; with a provider error it renders the
error and does not submit. -/
theorem postRender_submits_for_provider_witness :
    modelSaves (postRender (preRender plainView providerData).1) = 1 ∧
    modelSaves (postRender { providerView with errorMessage := "Provider refused." }) = 0 ∧
    renderErrorsCalls (postRender { providerView with errorMessage := "Provider refused." }) =
      [("An error occurred when signing you in to Edraak.", ["Provider refused."])] := by
  have h := postRender_submits_for_provider { providerView with errorMessage := "Provider refused." }
  exact ⟨by decide, (h.2.2.1 (by decide)).1, (h.2.2.1 (by decide)).2.2 rfl⟩

end LoginView

/-! ## Properties of the Django catalogs -/

namespace Djangojs

theorem sr_lookup_selected (catalog : Catalog) :
    (Sr.django catalog).catalog.lookup "%(sel)s of %(cnt)s selected" =
      some (.forms ["%(sel)s од %(cnt)s изабран",
        "%(sel)s од %(cnt)s изабрана",
        "%(sel)s од %(cnt)s изабраних"]) := rfl

theorem sr_pluralidx_eq (n : Int) :
    Sr.pluralidx n =
      if n.tmod 10 = 1 ∧ n.tmod 100 ≠ 11 then 0
      else if n.tmod 10 ≥ 2 ∧ n.tmod 10 ≤ 4 ∧ (n.tmod 100 < 10 ∨ n.tmod 100 ≥ 20) then 1
      else 2 := rfl

/-- C24: the Serbian plural index.  For every integer `n` (with `%` the
remainder of JavaScript, which for `n ≥ 0` is the usual one), `pluralidx(n)`
is 0 when `n % 10 = 1` and `n % 100 ≠ 11`, 1 when `n % 10` is in 2..4 and
`n % 100` is not in 10..19, and 2 otherwise; it is at most 2, so `ngettext`
on the three-form entry `%(sel)s of %(cnt)s selected` returns one of the
three forms and never `undefined`. -/
theorem sr_pluralidx_within_forms (n : Int) (plural : String) (catalog : Catalog) :
    (n.tmod 10 = 1 ∧ n.tmod 100 ≠ 11 → Sr.pluralidx n = 0) ∧
    ((2 ≤ n.tmod 10 ∧ n.tmod 10 ≤ 4) ∧ ¬ (10 ≤ n.tmod 100 ∧ n.tmod 100 ≤ 19) → Sr.pluralidx n = 1) ∧
    (¬ (n.tmod 10 = 1 ∧ n.tmod 100 ≠ 11) →
      ¬ ((2 ≤ n.tmod 10 ∧ n.tmod 10 ≤ 4) ∧ ¬ (10 ≤ n.tmod 100 ∧ n.tmod 100 ≤ 19)) →
      Sr.pluralidx n = 2) ∧
    (0 ≤ n → n.tmod 10 = n % 10 ∧ n.tmod 100 = n % 100) ∧
    Sr.pluralidx n ≤ 2 ∧
    ngettext (Sr.django catalog) "%(sel)s of %(cnt)s selected" plural n ∈
      [some "%(sel)s од %(cnt)s изабран",
       some "%(sel)s од %(cnt)s изабрана",
       some "%(sel)s од %(cnt)s изабраних"] := by
  have hle : Sr.pluralidx n ≤ 2 := by
    rw [sr_pluralidx_eq]; split_ifs <;> omega
  refine ⟨?_, ?_, ?_, ?_, hle, ?_⟩
  · intro h
    rw [sr_pluralidx_eq, if_pos h]
  · intro h
    rw [sr_pluralidx_eq, if_neg (by omega), if_pos (by omega)]
  · intro h1 h2
    rw [sr_pluralidx_eq, if_neg h1, if_neg (by omega)]
  · intro h
    exact ⟨Int.tmod_eq_emod h (by decide), Int.tmod_eq_emod h (by decide)⟩
  · have hidx : (Sr.django catalog).pluralidx n = Sr.pluralidx n := rfl
    rw [ngettext, sr_lookup_selected]
    simp only [Entry.index, hidx]
    have h3 : Sr.pluralidx n = 0 ∨ Sr.pluralidx n = 1 ∨ Sr.pluralidx n = 2 := by omega
    rcases h3 with h | h | h <;> rw [h] <;> simp

/-- C24 (examples): the three forms at 21, 22 and 25, the teens, and a
negative count. -/
theorem sr_pluralidx_within_forms_witness :
    Sr.pluralidx 21 = 0 ∧ Sr.pluralidx 22 = 1 ∧ Sr.pluralidx 25 = 2 ∧ Sr.pluralidx 11 = 2 ∧
    Sr.pluralidx 12 = 2 ∧ Sr.pluralidx (-1) = 2 ∧
    ngettext (Sr.django []) "%(sel)s of %(cnt)s selected" "%(sel)s of %(cnt)s selected" 22 =
      some "%(sel)s од %(cnt)s изабрана" := by
  have h := sr_pluralidx_within_forms 22 "%(sel)s of %(cnt)s selected" []
  refine ⟨by decide, h.2.1 (by decide), by decide, by decide, by decide, by decide, by decide⟩

/-- C25: `gettext` falls back to the message id.  A msgid absent from the
catalog is returned unchanged, a string value is returned, a list of plural
forms gives its first form, and `gettext(gettext_noop(m))` is `gettext(m)`. -/
theorem gettext_falls_back_to_msgid (django : Django) (msgid : String) :
    (django.catalog.lookup msgid = none → gettext django msgid = some msgid) ∧
    (∀ value, django.catalog.lookup msgid = some (.text value) →
      gettext django msgid = some value) ∧
    (∀ values, django.catalog.lookup msgid = some (.forms values) →
      gettext django msgid = values.head?) ∧
    gettext django (gettext_noop msgid) = gettext django msgid := by
  refine ⟨?_, ?_, ?_, rfl⟩
  · intro h; simp [gettext, h]
  · intro value h; simp [gettext, h]
  · intro values h
    simp only [gettext, h]
    cases values <;> rfl

/-- C25 (examples): under the az catalog an absent msgid, a translated one and
a plural entry. -/
theorem gettext_falls_back_to_msgid_witness :
    gettext (Az.django []) "Sign in" = some "Sign in" ∧
    gettext (Az.django []) "Cancel" = some "Ləğv et" ∧
    gettext (Az.django []) "%(sel)s of %(cnt)s selected" = some "%(sel)s / %(cnt)s seçilib" ∧
    gettext (Az.django []) (gettext_noop "Cancel") = gettext (Az.django []) "Cancel" := by
  have h := gettext_falls_back_to_msgid (Az.django []) "Sign in"
  exact ⟨h.1 (by decide), by decide, by decide, rfl⟩

/-- C26: `ngettext` in the two-form catalogs az, sq and nl-nl, whose
`pluralidx(n)` is 0 for `n = 1` and 1 otherwise.  For a singular key absent
from the catalog it returns `singular` when the count is 1 and `plural`
otherwise; for a key whose value is a list of two forms it returns the first
when the count is 1 and the second otherwise; and every list of forms of the
three files has two elements, so the index is within the list. -/
theorem ngettext_two_forms (catalog : Catalog) (singular plural : String) (count : Int) :
    ∀ django ∈ [Az.django catalog, Sq.django catalog, NlNl.django catalog],
      django.pluralidx count = (if count = 1 then 0 else 1) ∧
      (django.catalog.lookup singular = none →
        ngettext django singular plural count = some (if count = 1 then singular else plural)) ∧
      (∀ first second, django.catalog.lookup singular = some (.forms [first, second]) →
        ngettext django singular plural count = some (if count = 1 then first else second)) ∧
      (∀ key values, (key, Entry.forms values) ∈ Az.newcatalog ++ Sq.newcatalog ++ NlNl.newcatalog →
        values.length = 2) := by
  have hidx : ∀ n : Int, Az.pluralidx n = (if n = 1 then 0 else 1) := by
    intro n
    simp only [Az.pluralidx, pluralidxOf]
    by_cases h : n = 1 <;> simp [h]
  have hlen : ∀ key values,
      (key, Entry.forms values) ∈ Az.newcatalog ++ Sq.newcatalog ++ NlNl.newcatalog →
      values.length = 2 := by
    intro key values hmem
    simp only [Az.newcatalog, Sq.newcatalog, NlNl.newcatalog, List.cons_append, List.nil_append,
      List.mem_cons, Prod.mk.injEq, List.not_mem_nil, or_false, reduceCtorEq, and_false,
      false_or, Entry.forms.injEq] at hmem
    rcases hmem with h | h | h | h | h | h | h | h | h <;> (rw [h.2]; rfl)
  intro django hmem
  have hd : django.pluralidx count = (if count = 1 then 0 else 1) := by
    simp only [List.mem_cons, List.mem_singleton, List.not_mem_nil, or_false] at hmem
    rcases hmem with h | h | h <;> subst h <;> exact hidx count
  refine ⟨hd, ?_, ?_, hlen⟩
  · intro h
    simp [ngettext, h]
  · intro first second h
    simp only [ngettext, h, Entry.index, hd]
    by_cases hc : count = 1 <;> simp [hc]

/-- C26 (witness): the Dutch entry for the hour note at counts 1 and 2, and an
absent key. -/
theorem ngettext_two_forms_witness :
    NlNl.django [] ∈ [Az.django [], Sq.django [], NlNl.django []] ∧
    ngettext (NlNl.django []) "Note: You are %s hour ahead of server time." "hours" 1 =
      some "Let op: U ligt %s uur voor ten opzichte van de server-tijd." ∧
    ngettext (NlNl.django []) "Note: You are %s hour ahead of server time." "hours" 2 =
      some "Let op: U ligt %s uren voor ten opzichte van de server-tijd." ∧
    ngettext (NlNl.django []) "%s course" "%s courses" 1 = some "%s course" := by
  have hmem : NlNl.django [] ∈ [Az.django [], Sq.django [], NlNl.django []] := by simp
  have h1 := ngettext_two_forms [] "Note: You are %s hour ahead of server time." "hours" 1
    (NlNl.django []) hmem
  have h3 := ngettext_two_forms [] "%s course" "%s courses" 1 (NlNl.django []) hmem
  exact ⟨hmem,
    h1.2.2.1 "Let op: U ligt %s uur voor ten opzichte van de server-tijd."
      "Let op: U ligt %s uren voor ten opzichte van de server-tijd." (by decide),
    by decide, h3.2.1 (by decide)⟩

theorem hasSeparator_key (context msgid : String) :
    hasSeparator (context ++ "\x04" ++ msgid) = true := by
  simp [hasSeparator]

/-- C27: `pgettext` never leaks the context separator.  Whenever the catalog
value of the key `context + U+0004 + msgid` is not an empty list of forms,
`pgettext` returns a string; the string holds U+0004 only if `msgid` does; it
is the translation of the key when there is one without U+0004, and `msgid`
otherwise. -/
theorem pgettext_hides_separator (django : Django) (context msgid : String)
    (hforms : django.catalog.lookup (context ++ "\x04" ++ msgid) ≠ some (.forms [])) :
    ∃ result, pgettext django context msgid = some result ∧
      (hasSeparator result = true → hasSeparator msgid = true) ∧
      (∀ value, translation django (context ++ "\x04" ++ msgid) = some value →
        hasSeparator value = false → result = value) ∧
      ((translation django (context ++ "\x04" ++ msgid) = none ∨
        ∃ value, translation django (context ++ "\x04" ++ msgid) = some value ∧
          hasSeparator value = true) → result = msgid) := by
  have hkey := hasSeparator_key context msgid
  cases hl : django.catalog.lookup (context ++ "\x04" ++ msgid) with
  | none =>
    refine ⟨msgid, by simp [pgettext, gettext, hl, hkey], fun h => h, ?_, fun _ => rfl⟩
    intro value hv
    simp [translation, hl] at hv
  | some entry =>
    cases entry with
    | text value =>
      by_cases hs : hasSeparator value = true
      · refine ⟨msgid, by simp [pgettext, gettext, hl, hs], fun h => h, ?_, fun _ => rfl⟩
        intro v hv hns
        simp only [translation, hl, Option.some.injEq] at hv
        rw [← hv, hs] at hns
        exact absurd hns (by simp)
      · refine ⟨value, by simp [pgettext, gettext, hl, hs], fun h => absurd h hs, ?_, ?_⟩
        · intro v hv _
          simp only [translation, hl, Option.some.injEq] at hv
          exact hv
        · rintro (h | ⟨v, hv, hvs⟩)
          · simp [translation, hl] at h
          · simp only [translation, hl, Option.some.injEq] at hv
            rw [← hv] at hvs
            exact absurd hvs hs
    | forms values =>
      cases values with
      | nil => exact absurd hl hforms
      | cons value rest =>
        by_cases hs : hasSeparator value = true
        · refine ⟨msgid, by simp [pgettext, gettext, hl, hs], fun h => h, ?_, fun _ => rfl⟩
          intro v hv hns
          simp only [translation, hl, List.head?_cons, Option.some.injEq] at hv
          rw [← hv, hs] at hns
          exact absurd hns (by simp)
        · refine ⟨value, by simp [pgettext, gettext, hl, hs], fun h => absurd h hs, ?_, ?_⟩
          · intro v hv _
            simp only [translation, hl, List.head?_cons, Option.some.injEq] at hv
            exact hv
          · rintro (h | ⟨v, hv, hvs⟩)
            · simp [translation, hl] at h
            · simp only [translation, hl, List.head?_cons, Option.some.injEq] at hv
              rw [← hv] at hvs
              exact absurd hvs hs

theorem lookup_mem (key : String) (entry : Entry) :
    ∀ catalog : Catalog, catalog.lookup key = some entry → ∃ k, (k, entry) ∈ catalog := by
  intro catalog
  induction catalog with
  | nil => intro h; simp [List.lookup] at h
  | cons pair rest ih =>
    intro h
    obtain ⟨k, v⟩ := pair
    simp only [List.lookup] at h
    split at h
    · simp only [Option.some.injEq] at h
      exact ⟨k, by rw [h]; exact List.mem_cons_self _ _⟩
    · obtain ⟨k2, hk2⟩ := ih h
      exact ⟨k2, List.mem_cons_of_mem _ hk2⟩

theorem forms_nonempty_here :
    ∀ django ∈ [Az.django [], Sq.django [], NlNl.django [], Sr.django []],
      ∀ key, django.catalog.lookup key ≠ some (.forms []) := by
  have hall : ∀ catalog ∈ [Az.newcatalog, Sq.newcatalog, NlNl.newcatalog, Sr.newcatalog],
      ∀ pair ∈ catalog, pair.2 ≠ Entry.forms [] := by decide
  intro django hmem key hl
  obtain ⟨k, hk⟩ := lookup_mem key _ _ hl
  simp only [List.mem_cons, List.mem_singleton, List.not_mem_nil, or_false] at hmem
  rcases hmem with h | h | h | h <;> subst h
  · exact hall Az.newcatalog (by simp) (k, _) (by simpa [Az.django, install] using hk) rfl
  · exact hall Sq.newcatalog (by simp) (k, _) (by simpa [Sq.django, install] using hk) rfl
  · exact hall NlNl.newcatalog (by simp) (k, _) (by simpa [NlNl.django, install] using hk) rfl
  · exact hall Sr.newcatalog (by simp) (k, _) (by simpa [Sr.django, install] using hk) rfl

/-- C27 (witness): under each of the four catalogs `pgettext` returns a string
for every context and msgid, with U+0004 only if the msgid has it; the
pagination labels of the data table are returned as they are, and the
one-letter Friday is `C` under the az catalog. -/
theorem pgettext_hides_separator_witness :
    (∀ django ∈ [Az.django [], Sq.django [], NlNl.django [], Sr.django []],
      (∀ context msgid, ∃ result, pgettext django context msgid = some result ∧
        (hasSeparator result = true → hasSeparator msgid = true)) ∧
      pgettext django "pagination" "First" = some "First" ∧
      pgettext django "pagination" "Previous" = some "Previous" ∧
      pgettext django "pagination" "Next" = some "Next" ∧
      pgettext django "pagination" "Last" = some "Last") ∧
    pgettext (Az.django []) "one letter Friday" "F" = some "C" := by
  refine ⟨?_, by decide⟩
  intro django hmem
  refine ⟨?_, ?_⟩
  · intro context msgid
    obtain ⟨result, h1, h2, _⟩ :=
      pgettext_hides_separator django context msgid (forms_nonempty_here django hmem _)
    exact ⟨result, h1, h2⟩
  · simp only [List.mem_cons, List.mem_singleton, List.not_mem_nil, or_false] at hmem
    rcases hmem with h | h | h | h <;> subst h <;> decide

theorem replacePositional_piece (piece : List Char) (hpiece : hasPlaceholder piece = false) :
    ∀ (rest : List Char) (obj : List String), (rest = [] ∨ ∃ tail, rest = '%' :: 's' :: tail) →
      replacePositional (piece ++ rest) obj =
        (piece ++ (replacePositional rest obj).1, (replacePositional rest obj).2) := by
  induction piece with
  | nil => intro rest obj _; rfl
  | cons c piece ih =>
    intro rest obj hrest
    have hp : hasPlaceholder piece = false := by
      cases piece with
      | nil => rfl
      | cons d piece2 =>
        simp only [hasPlaceholder, Bool.or_eq_false_iff] at hpiece
        exact hpiece.2
    have hih := ih hp rest obj hrest
    cases hpr : piece ++ rest with
    | nil =>
      have h1 : piece = [] := (List.append_eq_nil.mp hpr).1
      have h2 : rest = [] := (List.append_eq_nil.mp hpr).2
      subst h1; subst h2
      rfl
    | cons d tl =>
      have hne : ¬ (c = '%' ∧ d = 's') := by
        cases piece with
        | nil =>
          simp only [List.nil_append] at hpr
          rcases hrest with h | ⟨tail, h⟩
          · rw [h] at hpr; cases hpr
          · rw [h] at hpr
            injection hpr with hd _
            intro hcd
            rw [← hd] at hcd
            exact absurd hcd.2 (by decide)
        | cons d2 piece2 =>
          simp only [List.cons_append, List.cons.injEq] at hpr
          simp only [hasPlaceholder, Bool.or_eq_false_iff, Bool.and_eq_false_iff, beq_eq_false_iff_ne,
            ne_eq] at hpiece
          rw [hpr.1] at hpiece
          intro hcd
          rcases hpiece.1 with h | h
          · exact h hcd.1
          · exact h hcd.2
      rw [List.cons_append, hpr, replacePositional, if_neg hne, ← hpr, hih]
      rfl

theorem replacePositional_placeholder (tail : List Char) (obj : List String) :
    replacePositional ('%' :: 's' :: tail) obj =
      ((shift obj).data ++ (replacePositional tail obj.tail).1,
        (replacePositional tail obj.tail).2) := by
  rw [replacePositional, if_pos ⟨rfl, rfl⟩]

theorem formatOf_cons (first piece : List Char) (pieces : List (List Char)) :
    formatOf first (piece :: pieces) = first ++ '%' :: 's' :: formatOf piece pieces := by
  simp [formatOf]

theorem replacePositional_formatOf (pieces : List (List Char)) :
    ∀ (first : List Char) (obj : List String), hasPlaceholder first = false →
      (∀ piece ∈ pieces, hasPlaceholder piece = false) → pieces.length ≤ obj.length →
      replacePositional (formatOf first pieces) obj =
        (first ++ (List.zipWith (fun (arg : String) piece => arg.data ++ piece) obj pieces).flatMap id,
          obj.drop pieces.length) := by
  induction pieces with
  | nil =>
    intro first obj hfirst _ _
    have := replacePositional_piece first hfirst [] obj (Or.inl rfl)
    simp only [List.append_nil] at this
    simp only [formatOf, List.flatMap_nil, List.append_nil, List.zipWith_nil_right, List.drop_zero]
    rw [this]
    simp [replacePositional]
  | cons piece pieces ih =>
    intro first obj hfirst hpieces hlen
    cases obj with
    | nil => simp at hlen
    | cons arg args =>
      have hih := ih piece args (hpieces piece (List.mem_cons_self _ _))
        (fun p hp => hpieces p (List.mem_cons_of_mem _ hp)) (by simpa using hlen)
      rw [formatOf_cons, replacePositional_piece first hfirst _ _ (Or.inr ⟨_, rfl⟩),
        replacePositional_placeholder, List.tail_cons, hih]
      simp [shift]

theorem exists_pieces (n : Nat) :
    ∀ fmt : List Char, fmt.length ≤ n →
      ∃ first pieces, fmt = formatOf first pieces ∧ hasPlaceholder first = false ∧
        ∀ piece ∈ pieces, hasPlaceholder piece = false := by
  induction n with
  | zero =>
    intro fmt h
    have : fmt = [] := List.eq_nil_of_length_eq_zero (by omega)
    subst this
    exact ⟨[], [], rfl, rfl, by simp⟩
  | succ n ih =>
    intro fmt h
    match fmt, h with
    | [], _ => exact ⟨[], [], rfl, rfl, by simp⟩
    | [c], _ => exact ⟨[c], [], rfl, rfl, by simp⟩
    | c :: d :: rest, h =>
      by_cases hcd : c = '%' ∧ d = 's'
      · obtain ⟨first, pieces, hf, h1, h2⟩ := ih rest (by simp at h; omega)
        refine ⟨[], first :: pieces, ?_, rfl, ?_⟩
        · rw [formatOf_cons, ← hf, hcd.1, hcd.2]; rfl
        · intro p hp
          rcases List.mem_cons.mp hp with h | h
          · rw [h]; exact h1
          · exact h2 p h
      · obtain ⟨first, pieces, hf, h1, h2⟩ := ih (d :: rest) (by simp at h ⊢; omega)
        refine ⟨c :: first, pieces, ?_, ?_, h2⟩
        · simp only [formatOf, List.cons_append] at hf ⊢
          rw [hf]
        · cases first with
          | nil => rfl
          | cons d2 first2 =>
            have hd : d = d2 := by
              simp only [formatOf, List.cons_append, List.cons.injEq] at hf
              exact hf.1
            simp only [hasPlaceholder, Bool.or_eq_false_iff, Bool.and_eq_false_iff,
              beq_eq_false_iff_ne, ne_eq]
            refine ⟨?_, h1⟩
            rw [← hd]
            by_cases hc : c = '%'
            · exact Or.inr (fun hds => hcd ⟨hc, hds⟩)
            · exact Or.inl hc

/-- C28: `interpolate` in positional mode.  Every format is a sequence of
k + 1 pieces without `%s` joined by k placeholders `%s`; for every argument
list of length at least k the result is the pieces with the i-th argument in
place of the i-th placeholder, in order (the arguments are inserted as they
are, whatever they hold), and the array is left without its first k
elements.  A format without `%s` is returned unchanged and leaves the array
as it was. -/
theorem interpolate_positional (fmt : String) :
    ∃ first pieces, fmt.data = formatOf first pieces ∧ hasPlaceholder first = false ∧
      (∀ piece ∈ pieces, hasPlaceholder piece = false) ∧
      (∀ obj : List String, pieces.length ≤ obj.length →
        interpolate fmt false obj =
          (String.mk (first ++
              (List.zipWith (fun (arg : String) piece => arg.data ++ piece) obj pieces).flatMap id),
            obj.drop pieces.length)) ∧
      (hasPlaceholder fmt.data = false →
        ∀ obj : List String, interpolate fmt false obj = (fmt, obj)) := by
  obtain ⟨first, pieces, hf, h1, h2⟩ := exists_pieces fmt.data.length fmt.data (Nat.le_refl _)
  refine ⟨first, pieces, hf, h1, h2, ?_, ?_⟩
  · intro obj hlen
    have h := replacePositional_formatOf pieces first obj h1 h2 hlen
    simp only [interpolate, hf, h]
  · intro hno obj
    have h := replacePositional_piece fmt.data hno [] obj (Or.inl rfl)
    simp only [List.append_nil] at h
    simp only [interpolate, h]
    simp [replacePositional]

/-- C28 (examples): two placeholders, an argument that itself holds `%s`, and
an argument left over. -/
theorem interpolate_positional_witness :
    interpolate "Chosen %s of %s." false ["%s", "3", "left"] = ("Chosen %s of 3.", ["left"]) ∧
    interpolate "No placeholder" false ["1"] = ("No placeholder", ["1"]) ∧
    ∃ first pieces, "Chosen %s of %s.".data = formatOf first pieces ∧ pieces.length = 2 := by
  have h := interpolate_positional "No placeholder"
  obtain ⟨_, _, _, _, _, _, hno⟩ := h
  exact ⟨by decide, hno (by decide) ["1"], "Chosen ".data, [" of ".data, ".".data], by decide, rfl⟩

end Djangojs

/-! ## Properties of the marketing email initializer -/

namespace UnsubscribeMarketingEmailInitializer

theorem run_append (state : State) (a b : List Bool) :
    run state (a ++ b) = run (run state a) b := by
  simp [run, List.foldl_append]

theorem run_cleared (wrappers : List Bool) :
    ∀ state : State, state.cleared = true → run state wrappers = state := by
  induction wrappers with
  | nil => intro state _; rfl
  | cons w ws ih =>
    intro state h
    have ht : tick state w = state := by simp [tick, h]
    show run (tick state w) ws = state
    rw [ht, ih state h]

theorem run_absent (k : Nat) :
    k < 1200 →
      run loaded (List.replicate k false) =
        { currentWait := 50 * k, cleared := false, rendered := 0, ticks := k } := by
  induction k with
  | zero => intro _; rfl
  | succ k ih =>
    intro hk
    have : List.replicate (k + 1) false = List.replicate k false ++ [false] := by
      rw [List.replicate_succ']
    rw [this, run_append, ih (by omega)]
    simp only [run, List.foldl, tick, callback, interval, maxWait]
    simp only [Bool.false_eq_true, if_false, ge_iff_le]
    rw [if_neg (by omega)]
    congr 1

/-- C29: the polling loop is bounded and renders at most once.  If the wrapper
is absent at the first t - 1 ticks and present at tick t ≤ 1200, the interval
is still set before tick t, and after it the component has been rendered
exactly once, the interval is cleared and the callback has run t times,
whatever the later periods bring.  If the wrapper is absent at the first 1200
ticks, the interval is still set after 1199 of them and is cleared at tick
1200 = 60000 / 50, where `currentWait` reaches `maxWait`; nothing is rendered
and the callback never runs again. -/
theorem polling_is_bounded (t : Nat) (later : List Bool) (ht1 : 1 ≤ t) (ht : t ≤ 1200) :
    (run loaded (List.replicate (t - 1) false)).cleared = false ∧
    (run loaded (List.replicate (t - 1) false ++ [true] ++ later)).rendered = 1 ∧
    (run loaded (List.replicate (t - 1) false ++ [true] ++ later)).cleared = true ∧
    (run loaded (List.replicate (t - 1) false ++ [true] ++ later)).ticks = t ∧
    (run loaded (List.replicate 1199 false)).cleared = false ∧
    run loaded (List.replicate 1200 false ++ later) =
      { currentWait := maxWait, cleared := true, rendered := 0, ticks := 1200 } ∧
    maxWait / interval = 1200 := by
  have hbefore := run_absent (t - 1) (by omega)
  have hfound : run loaded (List.replicate (t - 1) false ++ [true]) =
      { currentWait := 50 * t, cleared := true, rendered := 1, ticks := t } := by
    rw [run_append, hbefore]
    simp only [run, List.foldl, tick, callback, interval, maxWait]
    simp only [Bool.false_eq_true, if_false, if_true, ge_iff_le]
    split_ifs <;> (congr 1 <;> omega)
  have hlast : run loaded (List.replicate 1200 false) =
      { currentWait := maxWait, cleared := true, rendered := 0, ticks := 1200 } := by
    have : List.replicate 1200 false = List.replicate 1199 false ++ [false] := by
      rw [← List.replicate_succ']
    rw [this, run_append, run_absent 1199 (by omega)]
    rfl
  refine ⟨by rw [hbefore], ?_, ?_, ?_, by rw [run_absent 1199 (by omega)], ?_, by decide⟩
  · rw [run_append, hfound, run_cleared later _ rfl]
  · rw [run_append, hfound, run_cleared later _ rfl]
  · rw [run_append, hfound, run_cleared later _ rfl]
  · rw [run_append, hlast, run_cleared later _ rfl]

/-- C29 (witness): the wrapper appears at the third tick and stays. -/
theorem polling_is_bounded_witness :
    1 ≤ 3 ∧ 3 ≤ 1200 ∧
    run loaded [false, false, true, true, true] =
      { currentWait := 150, cleared := true, rendered := 1, ticks := 3 } ∧
    (run loaded (List.replicate (3 - 1) false ++ [true] ++ [true, true])).rendered = 1 := by
  have h := polling_is_bounded 3 [true, true] (by decide) (by decide)
  exact ⟨by decide, by decide, by decide, h.2.1⟩

end UnsubscribeMarketingEmailInitializer

/-! ## Properties of the MathJax loader -/

namespace MathjaxInclude

/-- C30: when `MathJax` is undefined at load time, `window.MathJax` at the
moment the vendor script is appended is exactly the object with the three
accessibility menu settings, without `CHTMLpreview`, whatever
`disableFastPreview` is (the earlier assignment of `CHTMLpreview: false` is
overwritten), and exactly one script element, the vendor script, is appended;
when `MathJax` is already defined the page is left as it was. -/
theorem mathjax_config_is_accessibility_settings (disableFastPreview : Bool) (page : Page) :
    (page.MathJax = none →
      (mathjax_include disableFastPreview page).MathJax =
        some { menuSettings := [("collapsible", true), ("autocollapse", true), ("explorer", true)] } ∧
      (∀ config, (mathjax_include disableFastPreview page).MathJax = some config →
        config.menuSettings.lookup "CHTMLpreview" = none) ∧
      mathjax_include disableFastPreview page = mathjax_include (!disableFastPreview) page ∧
      (fastPreview true page).MathJax = some { menuSettings := [("CHTMLpreview", false)] } ∧
      (mathjax_include disableFastPreview page).appended =
        page.appended ++ [{ src := vendorSrc, onload := true }]) ∧
    (page.MathJax ≠ none → mathjax_include disableFastPreview page = page) := by
  constructor
  · intro h
    have hrun : ∀ flag, mathjax_include flag page =
        { MathJax :=
            some { menuSettings := [("collapsible", true), ("autocollapse", true), ("explorer", true)] }
          appended := page.appended ++ [{ src := vendorSrc, onload := true }] } := by
      intro flag
      cases flag <;> simp [mathjax_include, h, fastPreview]
    refine ⟨by rw [hrun], ?_, by rw [hrun, hrun], rfl, by rw [hrun]⟩
    intro config hc
    rw [hrun] at hc
    simp only [Option.some.injEq] at hc
    rw [← hc]
    decide
  · intro h
    simp [mathjax_include, h]

/-- C30 (examples): a page without MathJax, loaded with the fast preview
disabled; and a page that already has a MathJax object. -/
theorem mathjax_config_is_accessibility_settings_witness :
    mathjax_include true { MathJax := none, appended := [] } =
      { MathJax :=
          some { menuSettings := [("collapsible", true), ("autocollapse", true), ("explorer", true)] }
        appended := [{ src := vendorSrc, onload := true }] } ∧
    mathjax_include true { MathJax := some { menuSettings := [] }, appended := [] } =
      { MathJax := some { menuSettings := [] }, appended := [] } := by
  have h := mathjax_config_is_accessibility_settings true
    { MathJax := some { menuSettings := [] }, appended := [] }
  exact ⟨by decide, h.2 (by decide)⟩

end MathjaxInclude
